import Mathlib

/-!
# OpenVPN control/data channel core: a verification development

Shallow embedding of the parts of `ssl.h`, `crypto.h`, `crypto_openssl.c` and
`route.c` that the properties below are about.  Machine integers are modelled as `Nat`
or `Int`; C `bool` as `Bool`; pointers that are only tested against `NULL`
as `Option`.
-/

namespace OpenVPN

/-! ## Definitions -/

/-! ### ssl.h: packet opcodes and the one-byte header -/

/-- Low three bits of the header byte hold the key-id (`#define P_KEY_ID_MASK 0x07`). -/
def P_KEY_ID_MASK : Nat := 0x07
/-- High five bits of the header byte hold the opcode (`#define P_OPCODE_SHIFT 3`). -/
def P_OPCODE_SHIFT : Nat := 3

def P_CONTROL_HARD_RESET_CLIENT_V1 : Nat := 1
def P_CONTROL_HARD_RESET_SERVER_V1 : Nat := 2
def P_CONTROL_SOFT_RESET_V1 : Nat := 3
def P_CONTROL_V1 : Nat := 4
def P_ACK_V1 : Nat := 5
def P_DATA_V1 : Nat := 6
def P_CONTROL_HARD_RESET_CLIENT_V2 : Nat := 7
def P_CONTROL_HARD_RESET_SERVER_V2 : Nat := 8

/-- First legal opcode (`#define P_FIRST_OPCODE 1`). -/
def P_FIRST_OPCODE : Nat := 1
/-- Last legal opcode (`#define P_LAST_OPCODE 8`). -/
def P_LAST_OPCODE : Nat := 8

/-- The eight opcode macros of `ssl.h`, in the order of their definition. -/
def opcodes : List Nat :=
  [P_CONTROL_HARD_RESET_CLIENT_V1, P_CONTROL_HARD_RESET_SERVER_V1,
   P_CONTROL_SOFT_RESET_V1, P_CONTROL_V1, P_ACK_V1, P_DATA_V1,
   P_CONTROL_HARD_RESET_CLIENT_V2, P_CONTROL_HARD_RESET_SERVER_V2]

/-- The header byte `(op << P_OPCODE_SHIFT) | key_id`. -/
def header_byte (op key_id : Nat) : Nat := (op <<< P_OPCODE_SHIFT) ||| key_id

/-- Opcode part of a header byte, `b >> P_OPCODE_SHIFT`. -/
def header_opcode (b : Nat) : Nat := b >>> P_OPCODE_SHIFT

/-- Key-id part of a header byte, `b & P_KEY_ID_MASK`. -/
def header_key_id (b : Nat) : Nat := b &&& P_KEY_ID_MASK

/-! ### ssl.h: control channel negotiation states -/

def S_ERROR : Int := -1
def S_UNDEF : Int := 0
def S_INITIAL : Int := 1
def S_PRE_START : Int := 2
def S_START : Int := 3
def S_SENT_KEY : Int := 4
def S_GOT_KEY : Int := 5
def S_ACTIVE : Int := 6
def S_NORMAL_OP : Int := 7

/-- The nine state codes defined in `ssl.h`. -/
def key_states : List Int :=
  [S_ERROR, S_UNDEF, S_INITIAL, S_PRE_START, S_START, S_SENT_KEY, S_GOT_KEY, S_ACTIVE,
   S_NORMAL_OP]

/-- The field of `struct tls_options` that `DECRYPT_KEY_ENABLED` reads: `bool server`. -/
structure tls_options where
  server : Bool
  deriving DecidableEq, Repr

/-- The field of `struct tls_multi` that `DECRYPT_KEY_ENABLED` reads. -/
structure tls_multi where
  opt : tls_options
  deriving DecidableEq, Repr

/-- The field of `struct key_state` that `DECRYPT_KEY_ENABLED` reads: `int state`. -/
structure key_state where
  state : Int
  deriving DecidableEq, Repr

/-- Integer value of a C `bool` used in arithmetic. -/
def boolToInt (b : Bool) : Int := if b then 1 else 0

/-- The macro
`#define DECRYPT_KEY_ENABLED(multi, ks) ((ks)->state >= (S_GOT_KEY - (multi)->opt.server))`. -/
def DECRYPT_KEY_ENABLED (multi : tls_multi) (ks : key_state) : Bool :=
  decide (ks.state ≥ S_GOT_KEY - boolToInt multi.opt.server)

/-! ### crypto.h: key direction -/

def KEY_DIRECTION_BIDIRECTIONAL : Int := 0
def KEY_DIRECTION_NORMAL : Int := 1
def KEY_DIRECTION_INVERSE : Int := 2

/-- The `struct key_direction_state` of `crypto.h`: indices into `key2.keys` for sending
and receiving, and the number of key objects needed. -/
structure key_direction_state where
  out_key : Int
  in_key : Int
  need_keys : Int
  deriving DecidableEq, Repr

/-- Modelled from the spec: `key_direction_state_init` is only declared in `crypto.h`
(its body, in crypto.c, is not among the sources).  Following the comments of the
`KEY_DIRECTION_*` macros and of `struct key_direction_state`: bidirectional uses the same
key in both directions (one key needed), normal encrypts with `keys[0]` and decrypts with
`keys[1]`, inverse encrypts with `keys[1]` and decrypts with `keys[0]` (two keys needed);
any other value is the defined error, here `none`. -/
def key_direction_state_init (key_direction : Int) : Option key_direction_state :=
  if key_direction = KEY_DIRECTION_BIDIRECTIONAL then
    some { out_key := 0, in_key := 0, need_keys := 1 }
  else if key_direction = KEY_DIRECTION_NORMAL then
    some { out_key := 0, in_key := 1, need_keys := 2 }
  else if key_direction = KEY_DIRECTION_INVERSE then
    some { out_key := 1, in_key := 0, need_keys := 2 }
  else
    none

/-! ### crypto.h: data channel crypto -/

/-- Contents of a `struct buffer`: the bytes between its offset and its length. -/
abbrev Bytes := List Nat

def CO_PACKET_ID_LONG_FORM : Nat := 1 <<< 0
def CO_USE_IV : Nat := 1 <<< 1
def CO_IGNORE_PACKET_ID : Nat := 1 <<< 2
def CO_MUTE_REPLAY_WARNINGS : Nat := 1 <<< 3

/-- The test `flags & bit`. -/
def has_flag (flags bit : Nat) : Bool := flags &&& bit != 0

/-- The `struct key` of `crypto.h`: key material for the cipher and for the HMAC. -/
structure key where
  cipher : Bytes
  hmac : Bytes
  deriving DecidableEq, Repr

/-- A symmetric cipher of the crypto library (what a `cipher_kt_t` stands for): keyed
encryption and decryption with an IV, each of which may fail, and decryption under the
key and IV of an encryption gives back what was encrypted. -/
structure Cipher where
  iv_size : Nat
  encrypt : Bytes → Bytes → Bytes → Option Bytes
  decrypt : Bytes → Bytes → Bytes → Option Bytes
  decrypt_encrypt : ∀ k iv pt ct, encrypt k iv pt = some ct → decrypt k iv ct = some pt

/-- A keyed message digest of the crypto library (what a `md_kt_t` stands for): the tag
has the algorithm's fixed length. -/
structure Hmac where
  size : Nat
  digest : Bytes → Bytes → Bytes
  digest_length : ∀ k msg, (digest k msg).length = size

/-- The `struct key_type` of `crypto.h`: the cipher and the digest in use. -/
structure key_type where
  cipher : Cipher
  digest : Hmac

/-- The `struct key_ctx_bi` of `crypto.h`; each context is represented by the key
material it was initialised from. -/
structure key_ctx_bi where
  encrypt : key
  decrypt : key
  deriving DecidableEq, Repr

/-- Modelled from the spec: the packet-id types live in packet_id.h, which is not among
the sources.  A packet-id as it travels: the sequence number and, in long form, a
timestamp (spec section 3, PacketId). -/
structure packet_id_net where
  id : Nat
  time : Nat
  deriving DecidableEq, Repr

/-- Modelled from the spec: sending side of the packet-id state (packet_id.h is not among
the sources): the last sequence number used and the timestamp of the long form. -/
structure packet_id_send where
  id : Nat
  time : Nat
  deriving DecidableEq, Repr

/-- Modelled from the spec: receiving side of the packet-id state (packet_id.h is not
among the sources): the highest ID seen, the width of the sliding window and the IDs
marked as seen in the window (spec section 3, PacketId). -/
structure packet_id_rec where
  id : Nat
  window : Nat
  seen : List Nat
  deriving DecidableEq, Repr

/-- Modelled from the spec: the packet-id state for both directions that
`crypto_options.packet_id` points to (packet_id.h is not among the sources). -/
structure packet_id where
  send : packet_id_send
  recv : packet_id_rec
  deriving DecidableEq, Repr

/-- The `struct crypto_options` of `crypto.h`, without `pid_persist` (state kept between
process startups). -/
structure crypto_options where
  key_ctx_bi : key_ctx_bi
  packet_id : packet_id
  flags : Nat
  deriving DecidableEq, Repr

/-- Modelled from the spec: the receive test of the packet-id tracker (packet_id.c is not
among the sources).  Spec section 3: "any ID at or below `highest - window` is rejected as
expired, any ID already marked within the window is rejected as replayed". -/
def packet_id_test (p : packet_id_rec) (pin : packet_id_net) : Bool :=
  if (pin.id : Int) ≤ (p.id : Int) - (p.window : Int) then false
  else if pin.id ≤ p.id ∧ pin.id ∈ p.seen then false
  else true

/-- Modelled from the spec: marking a packet-id as seen (packet_id.c is not among the
sources): the highest ID seen moves up to the new ID if that is larger, and the window
keeps the marks above `highest - window`. -/
def packet_id_add (p : packet_id_rec) (pin : packet_id_net) : packet_id_rec :=
  let highest := max p.id pin.id
  { p with
    id := highest
    seen := (pin.id :: p.seen).filter
      (fun x => decide ((highest : Int) - (p.window : Int) < (x : Int))) }

/-- A packet-id is marked seen inside the receive window. -/
def packet_id_marked (p : packet_id_rec) (pin : packet_id_net) : Prop :=
  (p.id : Int) - (p.window : Int) < (pin.id : Int) ∧ pin.id ≤ p.id ∧ pin.id ∈ p.seen

instance (p : packet_id_rec) (pin : packet_id_net) : Decidable (packet_id_marked p pin) := by
  unfold packet_id_marked; infer_instance

/-- A 32-bit value in network byte order. -/
def put_u32 (n : Nat) : Bytes :=
  [n / 2 ^ 24 % 256, n / 2 ^ 16 % 256, n / 2 ^ 8 % 256, n % 256]

/-- Reading back a 32-bit value in network byte order. -/
def get_u32 (b : Bytes) : Nat :=
  b.getD 0 0 * 2 ^ 24 + b.getD 1 0 * 2 ^ 16 + b.getD 2 0 * 2 ^ 8 + b.getD 3 0

/-- Size of the packet-id on the wire: 8 bytes in long form, 4 in short form (spec
section 6). -/
def packet_id_size (flags : Nat) : Nat :=
  if has_flag flags CO_PACKET_ID_LONG_FORM then 8 else 4

/-- Modelled from the spec: writing a packet-id (packet_id.c is not among the sources):
the ID, followed in long form by the timestamp. -/
def packet_id_write (flags : Nat) (p : packet_id_send) : Bytes :=
  if has_flag flags CO_PACKET_ID_LONG_FORM then put_u32 p.id ++ put_u32 p.time
  else put_u32 p.id

/-- Modelled from the spec: reading a packet-id (packet_id.c is not among the sources). -/
def packet_id_read (flags : Nat) (b : Bytes) : packet_id_net :=
  if has_flag flags CO_PACKET_ID_LONG_FORM then
    { id := get_u32 (b.take 4), time := get_u32 (b.drop 4) }
  else
    { id := get_u32 b, time := 0 }

/-- Size of the IV on the wire: present only with `CO_USE_IV`. -/
def iv_length (kt : key_type) (flags : Nat) : Nat :=
  if has_flag flags CO_USE_IV then kt.cipher.iv_size else 0

/-- Offset of the ciphertext in a data channel packet (spec section 6, without the
opcode byte): HMAC, IV, packet-id, then ciphertext. -/
def ciphertext_offset (kt : key_type) (flags : Nat) : Nat :=
  kt.digest.size + iv_length kt flags + packet_id_size flags

/-- HMAC tag field of a packet. -/
def packet_tag (kt : key_type) (pkt : Bytes) : Bytes := pkt.take kt.digest.size

/-- IV field of a packet. -/
def packet_iv (kt : key_type) (flags : Nat) (pkt : Bytes) : Bytes :=
  (pkt.drop kt.digest.size).take (iv_length kt flags)

/-- Packet-id field of a packet. -/
def packet_pin (kt : key_type) (flags : Nat) (pkt : Bytes) : packet_id_net :=
  packet_id_read flags
    ((pkt.drop (kt.digest.size + iv_length kt flags)).take (packet_id_size flags))

/-- Ciphertext field of a packet. -/
def packet_ciphertext (kt : key_type) (flags : Nat) (pkt : Bytes) : Bytes :=
  pkt.drop (ciphertext_offset kt flags)

/-- The HMAC check of a received packet: the tag equals the HMAC over IV and
ciphertext under the given key. -/
def packet_authentic (kt : key_type) (k : key) (flags : Nat) (pkt : Bytes) : Bool :=
  decide (packet_tag kt pkt =
    kt.digest.digest k.hmac (packet_iv kt flags pkt ++ packet_ciphertext kt flags pkt))

/-- Modelled from the spec: `openvpn_encrypt` is only declared in `crypto.h` (its body,
in crypto.c, is not among the sources).  Spec section 4.3, Encrypt: the send counter
advances (fatal on overflow: `none`), an IV is taken from the random source if the mode
uses one, the cipher is applied, the HMAC is computed over IV and ciphertext, and the
packet is HMAC, IV, packet-id, ciphertext (section 6).  On an internal failure (no random
bytes, cipher failure) the result is empty and the packet-id state is as before. -/
def openvpn_encrypt (kt : key_type) (iv_source : Bytes) (buf : Bytes)
    (opt : crypto_options) : Option (Bytes × packet_id) :=
  if opt.packet_id.send.id + 1 ≥ 2 ^ 32 then none
  else
    let send : packet_id_send := { opt.packet_id.send with id := opt.packet_id.send.id + 1 }
    if iv_source.length < iv_length kt opt.flags then some ([], opt.packet_id)
    else
      let iv := iv_source.take (iv_length kt opt.flags)
      match kt.cipher.encrypt opt.key_ctx_bi.encrypt.cipher iv buf with
      | none => some ([], opt.packet_id)
      | some ct =>
        let tag := kt.digest.digest opt.key_ctx_bi.encrypt.hmac (iv ++ ct)
        some (tag ++ iv ++ packet_id_write opt.flags send ++ ct,
              { opt.packet_id with send := send })

/-- What `openvpn_decrypt` leaves behind: its return value, the buffer and the packet-id
state. -/
structure decrypt_result where
  ret : Bool
  buf : Bytes
  packet_id : packet_id
  deriving DecidableEq, Repr

/-- Modelled from the spec: `openvpn_decrypt` is only declared in `crypto.h` (its body,
in crypto.c, is not among the sources).  Spec section 4.3, Decrypt: the HMAC is verified
first; then the packet-id is checked against the receive tracker unless
`CO_IGNORE_PACKET_ID` says to ignore it; only then is the cipher applied and the
packet-id marked seen.  On an error the buffer is empty (`crypto.h`) and the packet-id
state is as before. -/
def openvpn_decrypt (kt : key_type) (buf : Bytes) (opt : crypto_options) : decrypt_result :=
  if buf.length < ciphertext_offset kt opt.flags then
    { ret := false, buf := [], packet_id := opt.packet_id }
  else if !packet_authentic kt opt.key_ctx_bi.decrypt opt.flags buf then
    { ret := false, buf := [], packet_id := opt.packet_id }
  else
    let pin := packet_pin kt opt.flags buf
    let ignore := has_flag opt.flags CO_IGNORE_PACKET_ID
    if !ignore && !packet_id_test opt.packet_id.recv pin then
      { ret := false, buf := [], packet_id := opt.packet_id }
    else
      match kt.cipher.decrypt opt.key_ctx_bi.decrypt.cipher (packet_iv kt opt.flags buf)
          (packet_ciphertext kt opt.flags buf) with
      | none => { ret := false, buf := [], packet_id := opt.packet_id }
      | some pt =>
        { ret := true, buf := pt,
          packet_id :=
            if ignore then opt.packet_id
            else { opt.packet_id with recv := packet_id_add opt.packet_id.recv pin } }

/-- Flipping bit `j` of byte `i` of a buffer. -/
def flip_bit (buf : Bytes) (i j : Nat) : Bytes :=
  buf.set i (buf.getD i 0 ^^^ (1 <<< j))

/-! ### ssl.h: reliability layer constants, and the ReliableQueue of the spec -/

/-- Maximum number of acknowledgments on one outgoing non-ack control packet
(`#define CONTROL_SEND_ACK_MAX 4`). -/
def CONTROL_SEND_ACK_MAX : Nat := 4
/-- Number of send buffers of the reliability layer, also its window size. -/
def TLS_RELIABLE_N_SEND_BUFFERS : Nat := 4
/-- Number of receive buffers of the reliability layer. -/
def TLS_RELIABLE_N_REC_BUFFERS : Nat := 8

/-- Modelled from the spec: a control datagram as the reliability layer sees it
(reliable.h is not among the sources): its packet-sequence number and its payload. -/
structure ControlDatagram where
  id : Nat
  payload : Bytes
  deriving DecidableEq, Repr

/-- Modelled from the spec: the receive side of one KeyState's ReliableQueue
(reliable.[ch] are not among the sources; spec section 4.2): the sequence number due next
at the TLS engine, the out-of-order arrivals held back, the acknowledgments not yet sent;
and, as a record of what happened, the payloads handed to the TLS engine (oldest first)
and the acknowledgment lists put on outgoing control packets (oldest first). -/
structure ReliableQueue where
  next : Nat
  buffered : List ControlDatagram
  pending_acks : List Nat
  delivered : List ControlDatagram
  sent_acks : List (List Nat)
  deriving DecidableEq, Repr

/-- A fresh queue of a new KeyState. -/
def ReliableQueue.initial : ReliableQueue :=
  { next := 0, buffered := [], pending_acks := [], delivered := [], sent_acks := [] }

/-- Modelled from the spec: in-order delivery (spec section 4.2, "delivers payload to the
TLS engine strictly in order"): as long as the datagram due next is held, hand it to the
TLS engine and move on to the following sequence number.  The first argument bounds the
number of rounds; the number of held datagrams is enough. -/
def ReliableQueue.deliver : Nat → ReliableQueue → ReliableQueue
  | 0, q => q
  | fuel + 1, q =>
    match q.buffered.find? (fun d => d.id == q.next) with
    | none => q
    | some d =>
      ReliableQueue.deliver fuel
        { q with
          next := q.next + 1
          buffered := q.buffered.filter (fun e => e.id != q.next)
          delivered := q.delivered ++ [d] }

/-- Modelled from the spec: arrival of a control datagram (spec sections 4.2, 7 and 8): a
duplicate (already delivered, or already held) is silently dropped; an arrival that finds
all `TLS_RELIABLE_N_REC_BUFFERS` buffers in use is dropped without a state change;
otherwise the datagram is held and its acknowledgment queued, and whatever is now in
order is delivered. -/
def ReliableQueue.receive (q : ReliableQueue) (d : ControlDatagram) : ReliableQueue :=
  if d.id < q.next ∨ q.buffered.any (fun e => e.id == d.id) then q
  else if TLS_RELIABLE_N_REC_BUFFERS ≤ q.buffered.length then q
  else
    ReliableQueue.deliver (q.buffered.length + 1)
      { q with buffered := d :: q.buffered, pending_acks := q.pending_acks ++ [d.id] }

/-- Modelled from the spec: an outgoing non-ack control packet takes along up to
`CONTROL_SEND_ACK_MAX` of the pending acknowledgments (spec section 4.2). -/
def ReliableQueue.send_control (q : ReliableQueue) : ReliableQueue :=
  { q with
    pending_acks := q.pending_acks.drop CONTROL_SEND_ACK_MAX
    sent_acks := q.sent_acks ++ [q.pending_acks.take CONTROL_SEND_ACK_MAX] }

/-- What happens at the reliability layer of one KeyState. -/
inductive ReliableEvent where
  /-- A control datagram arrives. -/
  | arrive (d : ControlDatagram)
  /-- A non-ack control packet goes out. -/
  | send_control
  deriving DecidableEq, Repr

/-- One event. -/
def ReliableQueue.step (q : ReliableQueue) : ReliableEvent → ReliableQueue
  | .arrive d => q.receive d
  | .send_control => q.send_control

/-- The queue after a sequence of events, from a fresh queue. -/
def ReliableQueue.run (events : List ReliableEvent) : ReliableQueue :=
  events.foldl ReliableQueue.step ReliableQueue.initial

/-- Invariant of the receive side. -/
def ReliableInv (q : ReliableQueue) : Prop :=
  q.delivered.map (fun d => d.id) = List.range q.next ∧
  q.buffered.length ≤ TLS_RELIABLE_N_REC_BUFFERS ∧
  (∀ d ∈ q.buffered, q.next < d.id) ∧
  (∀ acks ∈ q.sent_acks, acks.length ≤ CONTROL_SEND_ACK_MAX)

/-! ### Example instances of the crypto library -/

/-- A stream cipher for examples: every byte is xor-ed with a byte derived from the key
and the IV. -/
def demo_cipher : Cipher where
  iv_size := 2
  encrypt k iv pt := some (pt.map (fun x => x ^^^ (k.headD 0 ^^^ iv.headD 0)))
  decrypt k iv ct := some (ct.map (fun x => x ^^^ (k.headD 0 ^^^ iv.headD 0)))
  decrypt_encrypt := by
    intro k iv pt ct h
    simp only [Option.some.injEq] at h
    subst h
    simp [List.map_map, Function.comp_def, Nat.xor_assoc]

/-- A one-byte keyed checksum for examples. -/
def demo_hmac : Hmac where
  size := 1
  digest k msg := [(k.sum + msg.sum) % 256]
  digest_length := by intro k msg; rfl

/-- A one-byte keyed checksum that keeps only seven bits of the sum. -/
def weak_hmac : Hmac where
  size := 1
  digest k msg := [(k.sum + msg.sum) % 128]
  digest_length := by intro k msg; rfl

/-- Example key type: the example cipher with the one-byte checksum. -/
def demo_kt : key_type := { cipher := demo_cipher, digest := demo_hmac }
/-- Example key type: the example cipher with the seven-bit checksum. -/
def weak_kt : key_type := { cipher := demo_cipher, digest := weak_hmac }
/-- Example key material. -/
def demo_key : key := { cipher := [5], hmac := [9] }
/-- Example options: the same key in both directions, an IV on every packet, short
packet-ids, a fresh packet-id state with a window of 8. -/
def demo_options : crypto_options :=
  { key_ctx_bi := { encrypt := demo_key, decrypt := demo_key }
    packet_id := { send := { id := 0, time := 0 }, recv := { id := 0, window := 8, seen := [] } }
    flags := CO_USE_IV }

/-! ### ssl.h: the external multiplexer `tls_pre_decrypt` -/

/-- Modelled from the spec: what `tls_pre_decrypt` reads of one KeyState (ssl_common.h is
not among the sources; spec section 3, KeyState): its negotiation state, its key-id,
whether it is authenticated, the remote address it is bound to, and its data channel
security parameters. -/
structure key_slot where
  ks : key_state
  key_id : Nat
  authenticated : Bool
  remote_addr : Nat
  key : key_ctx_bi
  packet_id : packet_id
  deriving DecidableEq, Repr

/-- Modelled from the spec: what `tls_pre_decrypt` reads of the TlsMultiplexer
(ssl_common.h is not among the sources; spec section 3): the role, the KeyState slots of
the active session and the flags of the tunnel's crypto policy. -/
structure tls_multi_state where
  multi : tls_multi
  keys : List key_slot
  flags : Nat
  deriving DecidableEq, Repr

/-- What `tls_pre_decrypt` leaves behind: its return value, the buffer and the crypto
options. -/
structure pre_decrypt_result where
  ret : Bool
  buf : Bytes
  opt : crypto_options
  deriving DecidableEq, Repr

/-- Modelled from the spec: `tls_pre_decrypt` is only declared in `ssl.h` (its body, in
ssl.c, is not among the sources).  Following its documentation in `ssl.h` and spec section
4.4: the one-byte header gives opcode and key-id.  For a data channel packet the key-id
selects the key state, which is checked to be active (`DECRYPT_KEY_ENABLED`),
authenticated and bound to the source address; if so its security parameters are loaded into `opt`; the function then returns
false, the buffer being unmodified except for the removal of the header.  Any other
packet goes to control channel processing (`process_control`, given the opcode, the
key-id, the source address and the rest of the packet), whose success is the return
value. -/
def tls_pre_decrypt (m : tls_multi_state) (src_addr : Nat) (buf : Bytes)
    (opt : crypto_options) (process_control : Nat → Nat → Nat → Bytes → Bool × Bytes) :
    pre_decrypt_result :=
  match buf with
  | [] => { ret := false, buf := [], opt := opt }
  | c :: rest =>
    let op := header_opcode c
    let key_id := header_key_id c
    if op = P_DATA_V1 then
      match m.keys.find? (fun k =>
          DECRYPT_KEY_ENABLED m.multi k.ks && k.key_id == key_id && k.authenticated &&
            k.remote_addr == src_addr) with
      | some k =>
        { ret := false, buf := rest,
          opt := { key_ctx_bi := k.key, packet_id := k.packet_id, flags := m.flags } }
      | none => { ret := false, buf := rest, opt := opt }
    else
      { ret := (process_control op key_id src_addr rest).1,
        buf := (process_control op key_id src_addr rest).2,
        opt := opt }

/-- Example multiplexer state: a client with one authenticated key state in `S_ACTIVE`,
key-id 5, bound to address 77. -/
def demo_multi : tls_multi_state :=
  { multi := { opt := { server := false } }
    keys := [{ ks := { state := S_ACTIVE }, key_id := 5, authenticated := true,
               remote_addr := 77, key := demo_options.key_ctx_bi,
               packet_id := demo_options.packet_id }]
    flags := CO_USE_IV }

/-! ### crypto_openssl.c: engine globals (the `CRYPTO_ENGINE` variant) -/

/-- Results of the OpenSSL engine functions that `setup_engine` and `try_load_engine`
call.  An `ENGINE *` is `Option Nat`, `none` being `NULL`. -/
structure EngineLib where
  ENGINE_by_id : String → Option Nat
  ENGINE_ctrl_cmd_string : Nat → String → Option String → Bool
  ENGINE_set_default : Option Nat → Bool

/-- Ways in which a call does not return. -/
inductive Abort where
  /-- A `msg (M_FATAL, ...)`. -/
  | fatal
  /-- The `ASSERT (engine_name)` failed. -/
  | assert_engine_name
  /-- The `ASSERT (!engine_persist)` failed. -/
  | assert_engine_persist
  deriving DecidableEq, Repr

/-- Calls into OpenSSL that the properties speak about, and the teardown call itself. -/
inductive EngineEvent where
  /-- The function `setup_engine` was entered. -/
  | setup_engine (name : Option String)
  /-- The call `ENGINE_cleanup ()` was made. -/
  | ENGINE_cleanup
  /-- The function `crypto_uninit_lib` was entered. -/
  | crypto_uninit_lib
  deriving DecidableEq, Repr

/-- The two globals `engine_initialized` and `engine_persist`. -/
structure EngineGlobals where
  engine_initialized : Bool
  engine_persist : Option Nat
  deriving DecidableEq, Repr

/-- Static initialisers: `engine_initialized = false`, `engine_persist = NULL`. -/
def EngineGlobals.initial : EngineGlobals :=
  { engine_initialized := false, engine_persist := none }

/-- The function `try_load_engine`: load `engine` through the `dynamic` engine. -/
def try_load_engine (lib : EngineLib) (engine : String) : Option Nat :=
  match lib.ENGINE_by_id "dynamic" with
  | some e =>
    if !lib.ENGINE_ctrl_cmd_string e "SO_PATH" (some engine)
        || !lib.ENGINE_ctrl_cmd_string e "LOAD" none then
      none
    else
      some e
  | none => none

/-- The function `setup_engine`: `Except.error` is the `M_FATAL` exit. -/
def setup_engine (lib : EngineLib) (engine : Option String) : Except Abort (Option Nat) :=
  match engine with
  | some name =>
    if name = "auto" then
      .ok none
    else
      let e := match lib.ENGINE_by_id name with
        | some e => some e
        | none => try_load_engine lib name
      if e = none then
        .error .fatal
      else if !lib.ENGINE_set_default e then
        .error .fatal
      else
        .ok e
  | none => .ok none

/-- State of the process as far as the engine globals go: the globals, the calls made so
far (newest first) and, once the process has stopped, the reason. -/
structure EngineRun where
  globals : EngineGlobals
  trace : List EngineEvent
  abort : Option Abort

/-- The function `crypto_init_lib_engine` (with `CRYPTO_ENGINE`). -/
def crypto_init_lib_engine (lib : EngineLib) (engine_name : Option String)
    (r : EngineRun) : EngineRun :=
  if !r.globals.engine_initialized then
    if engine_name = none then
      { r with abort := some .assert_engine_name }
    else if r.globals.engine_persist ≠ none then
      { r with abort := some .assert_engine_persist }
    else
      match setup_engine lib engine_name with
      | .error a =>
        { r with trace := .setup_engine engine_name :: r.trace, abort := some a }
      | .ok e =>
        { r with
          globals := { engine_persist := e, engine_initialized := true }
          trace := .setup_engine engine_name :: r.trace }
  else
    r

/-- The function `crypto_uninit_lib` (without `CRYPTO_MDEBUG`); the final `prng_uninit ()`
does not touch the engine globals. -/
def crypto_uninit_lib (r : EngineRun) : EngineRun :=
  if r.globals.engine_initialized then
    { r with
      globals := { engine_persist := none, engine_initialized := false }
      trace := .ENGINE_cleanup :: .crypto_uninit_lib :: r.trace }
  else
    { r with trace := .crypto_uninit_lib :: r.trace }

/-- A call made by the rest of the program; the engine name is non-null. -/
inductive EngineCall where
  | init (lib : EngineLib) (engine_name : String)
  | uninit

/-- One call; nothing runs once the process has stopped. -/
def EngineRun.step (r : EngineRun) (c : EngineCall) : EngineRun :=
  match r.abort with
  | some _ => r
  | none =>
    match c with
    | .init lib name => crypto_init_lib_engine lib (some name) r
    | .uninit => crypto_uninit_lib r

/-- Process start: initial globals, nothing called yet. -/
def EngineRun.start : EngineRun :=
  { globals := EngineGlobals.initial, trace := [], abort := none }

/-- The run of a sequence of calls from process start. -/
def EngineRun.run (calls : List EngineCall) : EngineRun :=
  calls.foldl EngineRun.step EngineRun.start

/-- Number of times `setup_engine` was entered since the last `crypto_uninit_lib` call,
read off a trace (newest first). -/
def setups_since_teardown : List EngineEvent → Nat
  | [] => 0
  | .crypto_uninit_lib :: _ => 0
  | .setup_engine _ :: t => setups_since_teardown t + 1
  | .ENGINE_cleanup :: t => setups_since_teardown t

/-- Invariant of the engine globals along a run. -/
def EngineInv (r : EngineRun) : Prop :=
  (r.globals.engine_initialized = false → r.globals.engine_persist = none) ∧
  r.abort ≠ some .assert_engine_persist ∧
  r.abort ≠ some .assert_engine_name ∧
  setups_since_teardown r.trace =
    (if r.globals.engine_initialized = true ∨ r.abort = some .fatal then 1 else 0)

/-! ### route.c: netmask and prefix length -/

/-- Modelled from the spec: `netbits_to_netmask` is defined in socket.h, which is not among
the sources.  It gives the 32-bit prefix mask with `netbits` leading one bits
(`~0 << (32 - netbits)` for `netbits` in 1..32), and 0 otherwise. -/
def netbits_to_netmask (netbits : Nat) : Nat :=
  if 0 < netbits ∧ netbits ≤ 32 then (0xFFFFFFFF <<< (32 - netbits)) % 2 ^ 32 else 0

/-- The constant `addrlen = sizeof (in_addr_t) * 8` of `netmask_to_netbits`. -/
def addrlen : Nat := 32

/-- The `for (i = 0; i <= addrlen; ++i)` loop of `netmask_to_netbits`, with `remaining`
values of `i` still to try, so that `i = addrlen + 1 - remaining`; the result is the
return value and the content of `*netbits`. -/
def netmask_to_netbits_loop (netmask : Nat) (netbits : Int) : Nat → Bool × Int
  | 0 => (false, netbits)
  | remaining + 1 =>
    let i := addrlen - remaining
    if netbits_to_netmask i = netmask then
      if i = addrlen then (true, -1) else (true, (i : Int))
    else
      netmask_to_netbits_loop netmask netbits remaining

/-- The function `netmask_to_netbits`; the third argument is the content of `*netbits` on
entry, the result is the return value and the content of `*netbits` on return. -/
def netmask_to_netbits (network netmask : Nat) (netbits : Int) : Bool × Int :=
  if network &&& netmask = network then
    netmask_to_netbits_loop netmask netbits (addrlen + 1)
  else
    (false, netbits)

/-! ### route.c: IPv6 prefix printing -/

/-- Wrap-around of 32-bit `int` arithmetic. -/
def int32_wrap (x : Int) : Int := (x + 2 ^ 31) % 2 ^ 32 - 2 ^ 31

/-- The `while (byte >= 0 && bits_to_clear > 0)` loop of `print_in6_addr_netbits_only`.
The first argument is `byte + 1`, so 0 stands for `byte < 0`; the result is
`network_copy.s6_addr` after the loop and the number of iterations made. -/
def clear_host_bits_loop : Nat → Int → List Nat → List Nat × Nat
  | 0, _, s6_addr => (s6_addr, 0)
  | byte + 1, bits_to_clear, s6_addr =>
    if bits_to_clear > 0 then
      if bits_to_clear ≥ 8 then
        let r := clear_host_bits_loop byte (bits_to_clear - 8) (s6_addr.set byte 0)
        (r.1, r.2 + 1)
      else
        let r := clear_host_bits_loop byte 0
          (s6_addr.set byte
            (s6_addr.getD byte 0 &&& ((0xFFFFFFFF <<< bits_to_clear.toNat) % 2 ^ 32)))
        (r.1, r.2 + 1)
    else
      (s6_addr, 0)

/-- The address that `print_in6_addr_netbits_only` hands to `print_in6_addr`, and the
number of loop iterations: `byte = 15`, `bits_to_clear = 128 - netbits`. -/
def netbits_only (network_copy : List Nat) (netbits : Int) : List Nat × Nat :=
  clear_host_bits_loop 16 (int32_wrap (128 - netbits)) network_copy

/-- The function `print_in6_addr_netbits_only`, over the formatter `print_in6_addr`. -/
def print_in6_addr_netbits_only (print_in6_addr : List Nat → String)
    (network_copy : List Nat) (netbits : Int) : String :=
  print_in6_addr (netbits_only network_copy netbits).1

/-- The result codes of `test_local_addr`.  They are defined in route.h, which is not among
the sources, and are taken as parameters. -/
structure tla_codes where
  TLA_NOT_IMPLEMENTED : Int
  TLA_NONLOCAL : Int
  TLA_LOCAL : Int
  deriving DecidableEq, Repr

/-- The two fields of a `MIB_IPFORWARDROW` that `test_local_addr` reads, in network byte
order. -/
structure MIB_IPFORWARDROW where
  dwForwardDest : Nat
  dwForwardMask : Nat
  deriving DecidableEq, Repr

/-- The constant `nonlocal_netmask` of `test_local_addr`: routes with a netmask up to
this one are considered non-local. -/
def nonlocal_netmask : Nat := 0x80000000

/-- The `for` loop of `test_local_addr` over the rows of the routing table, from the
current value of `ret`.  `as_bool` is what a variable of type `bool` holds after an `int`
is stored in it (`bool` is declared in basic.h, which is not among the sources); `ntohl`
is the library's conversion to host byte order. -/
def test_local_addr_loop (codes : tla_codes) (as_bool : Int → Int) (ntohl : Nat → Nat)
    (addr : Nat) : List MIB_IPFORWARDROW → Int → Int
  | [], ret => ret
  | row :: rest, ret =>
    let net := ntohl row.dwForwardDest
    let mask := ntohl row.dwForwardMask
    if mask > nonlocal_netmask ∧ addr &&& mask = net then
      as_bool codes.TLA_LOCAL
    else
      test_local_addr_loop codes as_bool ntohl addr rest ret

/-- The WIN32 variant of `test_local_addr`; `rt` is the result of
`get_windows_routing_table`, `none` being `NULL`. -/
def test_local_addr (codes : tla_codes) (as_bool : Int → Int) (ntohl : Nat → Nat)
    (rt : Option (List MIB_IPFORWARDROW)) (addr : Nat) : Int :=
  let ret := as_bool codes.TLA_NONLOCAL
  match rt with
  | some table => test_local_addr_loop codes as_bool ntohl addr table ret
  | none => ret

/-- The variant of `test_local_addr` for the other platforms. -/
def test_local_addr_not_implemented (codes : tla_codes) (_addr : Nat) : Int :=
  codes.TLA_NOT_IMPLEMENTED

/-- Some row of the routing table has a mask above `nonlocal_netmask` and contains
`addr`. -/
def local_row_exists (ntohl : Nat → Nat) (rt : Option (List MIB_IPFORWARDROW))
    (addr : Nat) : Prop :=
  ∃ table, rt = some table ∧ ∃ row ∈ table,
    ntohl row.dwForwardMask > nonlocal_netmask ∧
      addr &&& ntohl row.dwForwardMask = ntohl row.dwForwardDest

/-- Example result codes. -/
def demo_tla_codes : tla_codes :=
  { TLA_NOT_IMPLEMENTED := 0, TLA_NONLOCAL := 1, TLA_LOCAL := 2 }

/-! ### route.c: route options and routes

The structures are declared in route.h, which is not among the sources; their fields are
those that route.c reads and writes.  A `const char *` is an `Option String`, `none`
being `NULL`; an `in_addr_t` is a `Nat` below `2 ^ 32`. -/

/-- The `struct route_option`: the parameters of one `--route` option. -/
structure route_option where
  network : Option String
  netmask : Option String
  gateway : Option String
  metric : Option String
  deriving DecidableEq, Repr

/-- The `struct route_option_list`: `routes` is the array of `capacity` options. -/
structure route_option_list where
  flags : Nat
  capacity : Int
  n : Int
  routes : List route_option
  deriving DecidableEq, Repr

/-- The `struct route_ipv6_option`: the parameters of one `--route-ipv6` option. -/
structure route_ipv6_option where
  prefix_ : Option String
  gateway : Option String
  metric : Option String
  deriving DecidableEq, Repr

/-- The `struct route_ipv6_option_list`: `routes_ipv6` is the array of `capacity`
options. -/
structure route_ipv6_option_list where
  flags : Nat
  capacity : Int
  n : Int
  routes_ipv6 : List route_ipv6_option
  deriving DecidableEq, Repr

/-- The function `add_route_to_option_list`; `none` is the `M_FATAL` exit.  The write to
`l->routes[l->n]` is a write at index `l.n` of the array. -/
def add_route_to_option_list (l : route_option_list)
    (network netmask gateway metric : Option String) : Option route_option_list :=
  if l.n ≥ l.capacity then none
  else
    some { l with
      routes := l.routes.set l.n.toNat
        { network := network, netmask := netmask, gateway := gateway, metric := metric }
      n := l.n + 1 }

/-- The function `add_route_ipv6_to_option_list`; `none` is the `M_FATAL` exit. -/
def add_route_ipv6_to_option_list (l : route_ipv6_option_list)
    (prefix_ gateway metric : Option String) : Option route_ipv6_option_list :=
  if l.n ≥ l.capacity then none
  else
    some { l with
      routes_ipv6 := l.routes_ipv6.set l.n.toNat
        { prefix_ := prefix_, gateway := gateway, metric := metric }
      n := l.n + 1 }

/-- The `struct route`. -/
structure route where
  defined : Bool
  option : Option route_option
  network : Nat
  netmask : Nat
  gateway : Nat
  metric_defined : Bool
  metric : Int
  deriving DecidableEq, Repr

/-- The function `add_route` on a platform that has a route command.  `route_add` is the
status that the platform's block reports for the route (the result of
`openvpn_execve_check` on the command built from network, netmask, gateway and metric, or
of `add_route_ipapi`); the second component lists the routes for which that block was
entered. -/
def add_route (route_add : route → Bool) (r : route) : route × List route :=
  if !r.defined then (r, [])
  else if r.network = r.gateway ∧ r.netmask = 0xFFFFFFFF then
    ({ r with defined := false }, [])
  else
    ({ r with defined := route_add r }, [r])

/-- Example option list: capacity 2, one option stored. -/
def demo_option_list : route_option_list :=
  { flags := 0, capacity := 2, n := 1,
    routes := [{ network := some "10.0.0.0", netmask := some "255.0.0.0", gateway := none,
                 metric := none },
               { network := none, netmask := none, gateway := none, metric := none }] }

/-- Example IPv6 option list: capacity 1, full. -/
def demo_ipv6_option_list : route_ipv6_option_list :=
  { flags := 0, capacity := 1, n := 1,
    routes_ipv6 := [{ prefix_ := some "2001:db8::/32", gateway := none, metric := none }] }


/-- The `struct route_bypass`: `bypass` holds the first `n_bypass` entries of the array. -/
structure route_bypass where
  bypass : List Nat
  deriving DecidableEq, Repr

/-- The `struct route_special_addr`. -/
structure route_special_addr where
  remote_endpoint : Nat
  remote_endpoint_defined : Bool
  net_gateway : Nat
  net_gateway_defined : Bool
  remote_host : Nat
  remote_host_defined : Bool
  bypass : route_bypass
  default_metric : Int
  default_metric_defined : Bool
  deriving DecidableEq, Repr

/-- The function `is_route_parm_defined`. -/
def is_route_parm_defined (parm : Option String) : Bool :=
  match parm with
  | none => false
  | some s => if s = "default" then false else true

/-- What `get_special_addr` leaves behind: its return value, `*out` and `*status`. -/
structure special_addr_result where
  ret : Bool
  out : Nat
  status : Bool
  deriving DecidableEq, Repr

/-- The function `get_special_addr`, called with non-null `spec` and `status`; `out` is
the content of `*out` on entry. -/
def get_special_addr (spec : route_special_addr) (string : String) (out : Nat) :
    special_addr_result :=
  if string = "vpn_gateway" then
    if spec.remote_endpoint_defined then
      { ret := true, out := spec.remote_endpoint, status := true }
    else
      { ret := true, out := out, status := false }
  else if string = "net_gateway" then
    if spec.net_gateway_defined then
      { ret := true, out := spec.net_gateway, status := true }
    else
      { ret := true, out := out, status := false }
  else if string = "remote_host" then
    if spec.remote_host_defined then
      { ret := true, out := spec.remote_host, status := true }
    else
      { ret := true, out := out, status := false }
  else
    { ret := false, out := out, status := true }

/-- What `getaddr_multi` leaves behind: the address it returns, `*succeeded` and the
resolve list. -/
structure getaddr_result where
  addr : Nat
  succeeded : Bool
  netlist : List Nat
  deriving DecidableEq, Repr

/-- The functions of other modules that the route initialisation calls: `getaddr_multi`
of socket.c (the first argument says whether `GETADDR_RESOLVE` is among the flags;
`getaddr` is `getaddr_multi` without a resolve list) and the library's `atoi`. -/
structure route_env where
  getaddr_multi : Bool → String → getaddr_result
  atoi : String → Int

/-- The constant `default_netmask = ~0` of `init_route`, as an `in_addr_t`. -/
def default_netmask : Nat := 0xFFFFFFFF

/-- What `init_route` leaves behind: its return value, `*r` and `*network_list`. -/
structure init_route_result where
  ret : Bool
  r : route
  network_list : List Nat
  deriving DecidableEq, Repr

/-- The `fail:` exit of `init_route`. -/
def init_route_fail (r : route) (network_list : List Nat) : init_route_result :=
  { ret := false, r := { r with defined := false }, network_list := network_list }

/-- The metric part of `init_route`, down to its return. -/
def init_route_metric (env : route_env) (r : route) (network_list : List Nat)
    (ro : route_option) (spec : route_special_addr) : init_route_result :=
  let r := { r with metric_defined := false, metric := 0 }
  if is_route_parm_defined ro.metric then
    let r := { r with metric := env.atoi (ro.metric.getD "") }
    if r.metric < 0 then init_route_fail r network_list
    else
      { ret := true, r := { r with metric_defined := true, defined := true },
        network_list := network_list }
  else if spec.default_metric_defined then
    { ret := true,
      r := { r with metric := spec.default_metric, metric_defined := true, defined := true },
      network_list := network_list }
  else
    { ret := true, r := { r with defined := true }, network_list := network_list }

/-- The gateway part of `init_route`, down to its return. -/
def init_route_gateway (env : route_env) (r : route) (network_list : List Nat)
    (ro : route_option) (spec : route_special_addr) : init_route_result :=
  if is_route_parm_defined ro.gateway then
    let sp := get_special_addr spec (ro.gateway.getD "") r.gateway
    if !sp.ret then
      let g := env.getaddr_multi true (ro.gateway.getD "")
      if !g.succeeded then init_route_fail { r with gateway := g.addr } network_list
      else init_route_metric env { r with gateway := g.addr } network_list ro spec
    else if !sp.status then init_route_fail { r with gateway := sp.out } network_list
    else init_route_metric env { r with gateway := sp.out } network_list ro spec
  else if spec.remote_endpoint_defined then
    init_route_metric env { r with gateway := spec.remote_endpoint } network_list ro spec
  else
    init_route_fail r network_list

/-- The netmask part of `init_route`, down to its return. -/
def init_route_netmask (env : route_env) (r : route) (network_list : List Nat)
    (ro : route_option) (spec : route_special_addr) : init_route_result :=
  if is_route_parm_defined ro.netmask then
    let g := env.getaddr_multi false (ro.netmask.getD "")
    if !g.succeeded then init_route_fail { r with netmask := g.addr } network_list
    else init_route_gateway env { r with netmask := g.addr } network_list ro spec
  else
    init_route_gateway env { r with netmask := default_netmask } network_list ro spec

/-- The function `init_route`; `r` and `network_list` are the contents of `*r` and
`*network_list` on entry. -/
def init_route (env : route_env) (r : route) (network_list : List Nat)
    (ro : route_option) (spec : route_special_addr) : init_route_result :=
  let r := { r with option := some ro, defined := false }
  if !is_route_parm_defined ro.network then init_route_fail r network_list
  else
    let sp := get_special_addr spec (ro.network.getD "") r.network
    if !sp.ret then
      let g := env.getaddr_multi true (ro.network.getD "")
      if !g.succeeded then init_route_fail { r with network := g.addr } g.netlist
      else init_route_netmask env { r with network := g.addr } g.netlist ro spec
    else if !sp.status then init_route_fail { r with network := sp.out } network_list
    else init_route_netmask env { r with network := sp.out } network_list ro spec

/-- Whether an address parameter resolves, in the words of the specification, written
without reference to `get_special_addr`: where special names are allowed (`special`),
"vpn_gateway" resolves exactly when `spec->remote_endpoint_defined`, "net_gateway" exactly
when `spec->net_gateway_defined` and "remote_host" exactly when
`spec->remote_host_defined`; any other string resolves when `getaddr_multi` succeeds on
it. -/
def addr_resolves (env : route_env) (spec : route_special_addr) (special resolve : Bool)
    (parm : Option String) : Bool :=
  if special = true ∧ parm.getD "" = "vpn_gateway" then spec.remote_endpoint_defined
  else if special = true ∧ parm.getD "" = "net_gateway" then spec.net_gateway_defined
  else if special = true ∧ parm.getD "" = "remote_host" then spec.remote_host_defined
  else (env.getaddr_multi resolve (parm.getD "")).succeeded

/-- The address an address parameter stands for, in the words of the specification, written
without reference to `get_special_addr`: "vpn_gateway" is `spec->remote_endpoint`,
"net_gateway" is `spec->net_gateway`, "remote_host" is `spec->remote_host`, and any other
string is what `getaddr_multi` returns for it. -/
def addr_value (env : route_env) (spec : route_special_addr) (special resolve : Bool)
    (parm : Option String) : Nat :=
  if special = true ∧ parm.getD "" = "vpn_gateway" then spec.remote_endpoint
  else if special = true ∧ parm.getD "" = "net_gateway" then spec.net_gateway
  else if special = true ∧ parm.getD "" = "remote_host" then spec.remote_host
  else (env.getaddr_multi resolve (parm.getD "")).addr


/-- The `struct route_list`: `routes` is the array of `capacity` routes. -/
structure route_list where
  routes_added : Bool
  spec : route_special_addr
  flags : Nat
  did_redirect_default_gateway : Bool
  did_local : Bool
  capacity : Nat
  n : Nat
  routes : List route
  deriving DecidableEq, Repr

/-- The flag bits of `route_list.flags` that route.c tests.  They are defined in route.h,
which is not among the sources, and are taken as parameters. -/
structure rg_flags where
  RG_ENABLE : Nat
  RG_LOCAL : Nat
  RG_DEF1 : Nat
  RG_REROUTE_GW : Nat
  RG_AUTO_LOCAL : Nat
  deriving DecidableEq, Repr

/-- An all-zero `struct route`. -/
def route.zero : route :=
  { defined := false, option := none, network := 0, netmask := 0, gateway := 0,
    metric_defined := false, metric := 0 }

/-- An all-zero `struct route_special_addr`. -/
def route_special_addr.zero : route_special_addr :=
  { remote_endpoint := 0, remote_endpoint_defined := false, net_gateway := 0,
    net_gateway_defined := false, remote_host := 0, remote_host_defined := false,
    bypass := { bypass := [] }, default_metric := 0, default_metric_defined := false }

/-- The function `clear_route_list`: everything is zeroed, the capacity kept. -/
def clear_route_list (rl : route_list) : route_list :=
  { routes_added := false, spec := route_special_addr.zero, flags := 0,
    did_redirect_default_gateway := false, did_local := false,
    capacity := rl.capacity, n := 0,
    routes := List.replicate rl.routes.length route.zero }

/-- The `for (k = 0; k < netlist.len; ++k)` loop of `init_route_list` over the addresses
of the resolve list, on the pair of `j` and `rl->routes`; the warning about dropped routes
changes nothing else. -/
def expand_loop (capacity : Nat) (r : route) : List Nat → Nat × List route → Nat × List route
  | [], st => st
  | a :: rest, (j, routes) =>
    if j < capacity then
      expand_loop capacity r rest (j + 1, routes.set j { r with network := a })
    else
      expand_loop capacity r rest (j, routes)

/-- State of the `for (i = 0; i < opt->n; ++i)` loop of `init_route_list`. -/
structure route_loop_state where
  j : Nat
  routes : List route
  ret : Bool
  deriving DecidableEq, Repr

/-- One round of the `for (i = 0; i < opt->n; ++i)` loop of `init_route_list`.  The local
`r` is uninitialised in the source and stands here as an all-zero route; `init_route`
assigns every field of it before it returns true. -/
def init_route_list_step (env : route_env) (spec : route_special_addr) (capacity : Nat)
    (st : route_loop_state) (ro : route_option) : route_loop_state :=
  let res := init_route env route.zero [] ro spec
  if !res.ret then { st with ret := false }
  else
    let netlist := if res.network_list.length = 0 then [res.r.network] else res.network_list
    let st' := expand_loop capacity res.r netlist (st.j, st.routes)
    { st with j := st'.1, routes := st'.2 }

/-- The function `init_route_list`, returning its return value and `*rl`.
`get_default_gateway` is the outcome of that platform function (its return value and the
gateway it stores), `get_bypass_addresses` the platform function of that name. -/
def init_route_list (env : route_env) (rg : rg_flags) (get_default_gateway : Bool × Nat)
    (get_bypass_addresses : route_bypass → Nat → route_bypass)
    (rl : route_list) (opt : route_option_list) (remote_endpoint : Option String)
    (default_metric : Int) (remote_host : Nat) : Bool × route_list :=
  let rl := clear_route_list rl
  let rl := { rl with flags := opt.flags }
  let rl :=
    if remote_host ≠ 0 then
      { rl with spec := { rl.spec with remote_host := remote_host, remote_host_defined := true } }
    else rl
  let rl :=
    if default_metric ≠ 0 then
      { rl with spec :=
          { rl.spec with default_metric := default_metric, default_metric_defined := true } }
    else rl
  let rl := { rl with spec :=
    { rl.spec with net_gateway := get_default_gateway.2,
                   net_gateway_defined := get_default_gateway.1 } }
  let rl :=
    if rl.flags &&& rg.RG_ENABLE ≠ 0 then
      { rl with spec := { rl.spec with bypass := get_bypass_addresses rl.spec.bypass rl.flags } }
    else rl
  let ep := env.getaddr_multi true (remote_endpoint.getD "")
  let rl_ret : route_list × Bool :=
    if is_route_parm_defined remote_endpoint then
      ({ rl with spec :=
          { rl.spec with remote_endpoint := ep.addr, remote_endpoint_defined := ep.succeeded } },
        ep.succeeded)
    else
      ({ rl with spec := { rl.spec with remote_endpoint_defined := false } }, true)
  let rl := rl_ret.1
  let st := (opt.routes.take opt.n.toNat).foldl
    (init_route_list_step env rl.spec rl.capacity)
    { j := 0, routes := rl.routes, ret := rl_ret.2 }
  (st.ret, { rl with routes := st.routes, n := st.j })

/-- The routes that one option expands to: none if `init_route` fails on it, otherwise
one route per address of the resolve list, or the one route if that list is empty. -/
def expand_option (env : route_env) (spec : route_special_addr) (ro : route_option) :
    List route :=
  let res := init_route env route.zero [] ro spec
  if res.ret then
    (if res.network_list.length = 0 then [res.r.network] else res.network_list).map
      (fun a => { res.r with network := a })
  else []

/-- The routes that a list of options expands to, in option order and address order. -/
def expanded_routes (env : route_env) (spec : route_special_addr) :
    List route_option → List route
  | [] => []
  | ro :: rest => expand_option env spec ro ++ expanded_routes env spec rest

/-- Example resolver: "10.0.0.0" and "255.0.0.0" parse, "vpn.example" resolves to three
addresses, anything else fails; `atoi` reads "7" as 7 and anything else as 0. -/
def demo_route_env : route_env :=
  { getaddr_multi := fun _ s =>
      if s = "10.0.0.0" then { addr := 0x0A000000, succeeded := true, netlist := [] }
      else if s = "255.0.0.0" then { addr := 0xFF000000, succeeded := true, netlist := [] }
      else if s = "vpn.example" then
        { addr := 0xC0000201, succeeded := true,
          netlist := [0xC0000201, 0xC0000202, 0xC0000203] }
      else { addr := 0, succeeded := false, netlist := [] }
    atoi := fun s => if s = "7" then 7 else 0 }

/-- Example flag bits. -/
def demo_rg_flags : rg_flags :=
  { RG_ENABLE := 1, RG_LOCAL := 2, RG_DEF1 := 4, RG_REROUTE_GW := 8, RG_AUTO_LOCAL := 16 }

/-- Example route list with room for two routes. -/
def demo_route_list : route_list :=
  { routes_added := false, spec := route_special_addr.zero, flags := 0,
    did_redirect_default_gateway := false, did_local := false, capacity := 2, n := 0,
    routes := [route.zero, route.zero] }

/-- Example options: a network route, a host name with three addresses, and a route whose
network does not resolve. -/
def demo_route_options : route_option_list :=
  { flags := 0, capacity := 3, n := 3,
    routes := [{ network := some "10.0.0.0", netmask := some "255.0.0.0",
                 gateway := some "vpn_gateway", metric := some "7" },
               { network := some "vpn.example", netmask := none, gateway := none,
                 metric := none },
               { network := some "nowhere", netmask := none, gateway := none,
                 metric := none }] }


/-! ### route.c: redirecting the default gateway -/

/-- A call of `add_route3` or `del_route3`, with its network, netmask and gateway. -/
inductive route_call where
  | add_route3 (network netmask gateway : Nat)
  | del_route3 (network netmask gateway : Nat)
  deriving DecidableEq, Repr

/-- The triples passed to `add_route3` in a sequence of calls, in order. -/
def add_route3_args : List route_call → List (Nat × Nat × Nat)
  | [] => []
  | .add_route3 n m g :: rest => (n, m, g) :: add_route3_args rest
  | .del_route3 _ _ _ :: rest => add_route3_args rest

/-- The triples passed to `del_route3` in a sequence of calls, in order. -/
def del_route3_args : List route_call → List (Nat × Nat × Nat)
  | [] => []
  | .add_route3 _ _ _ :: rest => del_route3_args rest
  | .del_route3 n m g :: rest => (n, m, g) :: del_route3_args rest

/-- The loop of `add_bypass_routes` over the bypass addresses: the calls it makes. -/
def add_bypass_routes (gateway : Nat) : List Nat → List route_call
  | [] => []
  | a :: rest =>
    if a ≠ gateway then .add_route3 a 0xFFFFFFFF gateway :: add_bypass_routes gateway rest
    else add_bypass_routes gateway rest

/-- The loop of `del_bypass_routes` over the bypass addresses: the calls it makes. -/
def del_bypass_routes (gateway : Nat) : List Nat → List route_call
  | [] => []
  | a :: rest =>
    if a ≠ gateway then .del_route3 a 0xFFFFFFFF gateway :: del_bypass_routes gateway rest
    else del_bypass_routes gateway rest

/-- The value of `local` in `redirect_default_route_to_vpn` once `RG_AUTO_LOCAL` has been
looked at; `test_local_addr` is that function on this platform. -/
def redirect_local (rg : rg_flags) (codes : tla_codes) (test_local_addr : Nat → Int)
    (rl : route_list) : Bool :=
  let local_ := decide (rl.flags &&& rg.RG_LOCAL ≠ 0)
  if rl.flags &&& rg.RG_AUTO_LOCAL ≠ 0 then
    let tla := test_local_addr rl.spec.remote_host
    if tla = codes.TLA_NONLOCAL then false
    else if tla = codes.TLA_LOCAL then true
    else local_
  else local_

/-- The function `redirect_default_route_to_vpn`, returning `*rl` and the calls of
`add_route3` and `del_route3` it makes, in order.  `ipv4_invalid_addr` is
`IPV4_INVALID_ADDR` when the build defines `USE_PF_INET6`, and `none` when it does not. -/
def redirect_default_route_to_vpn (rg : rg_flags) (codes : tla_codes)
    (test_local_addr : Nat → Int) (ipv4_invalid_addr : Option Nat) (rl : route_list) :
    route_list × List route_call :=
  if rl.flags &&& rg.RG_ENABLE ≠ 0 then
    if !rl.spec.remote_endpoint_defined then (rl, [])
    else if !rl.spec.net_gateway_defined then (rl, [])
    else if !rl.spec.remote_host_defined then (rl, [])
    else
      let local_ := redirect_local rg codes test_local_addr rl
      let host : route_list × List route_call :=
        if !local_ then
          if some rl.spec.remote_host ≠ ipv4_invalid_addr then
            ({ rl with did_local := true },
              [.add_route3 rl.spec.remote_host 0xFFFFFFFF rl.spec.net_gateway])
          else (rl, [])
        else (rl, [])
      let rl := host.1
      let bypass := add_bypass_routes rl.spec.net_gateway rl.spec.bypass.bypass
      let reroute : List route_call :=
        if rl.flags &&& rg.RG_REROUTE_GW ≠ 0 then
          if rl.flags &&& rg.RG_DEF1 ≠ 0 then
            [.add_route3 0x00000000 0x80000000 rl.spec.remote_endpoint,
             .add_route3 0x80000000 0x80000000 rl.spec.remote_endpoint]
          else
            [.del_route3 0 0 rl.spec.net_gateway,
             .add_route3 0 0 rl.spec.remote_endpoint]
        else []
      ({ rl with did_redirect_default_gateway := true }, host.2 ++ bypass ++ reroute)
  else (rl, [])

/-- The function `undo_redirect_default_route_to_vpn`, returning `*rl` and the calls of
`add_route3` and `del_route3` it makes, in order. -/
def undo_redirect_default_route_to_vpn (rg : rg_flags) (rl : route_list) :
    route_list × List route_call :=
  if rl.did_redirect_default_gateway then
    let host : route_list × List route_call :=
      if rl.did_local then
        ({ rl with did_local := false },
          [.del_route3 rl.spec.remote_host 0xFFFFFFFF rl.spec.net_gateway])
      else (rl, [])
    let rl := host.1
    let bypass := del_bypass_routes rl.spec.net_gateway rl.spec.bypass.bypass
    let reroute : List route_call :=
      if rl.flags &&& rg.RG_REROUTE_GW ≠ 0 then
        if rl.flags &&& rg.RG_DEF1 ≠ 0 then
          [.del_route3 0x00000000 0x80000000 rl.spec.remote_endpoint,
           .del_route3 0x80000000 0x80000000 rl.spec.remote_endpoint]
        else
          [.del_route3 0 0 rl.spec.remote_endpoint,
           .add_route3 0 0 rl.spec.net_gateway]
      else []
    ({ rl with did_redirect_default_gateway := false }, host.2 ++ bypass ++ reroute)
  else (rl, [])

/-- Example route list for a redirect: `RG_ENABLE` and `RG_REROUTE_GW` set, all special
addresses defined, and two bypass addresses of which the first is the gateway itself. -/
def demo_redirect_list : route_list :=
  { routes_added := false,
    spec := { remote_endpoint := 0x0A080001, remote_endpoint_defined := true,
              net_gateway := 0xC0A80001, net_gateway_defined := true,
              remote_host := 0xCB007107, remote_host_defined := true,
              bypass := { bypass := [0xC0A80001, 0xC0A80035] },
              default_metric := 0, default_metric_defined := false },
    flags := 9, did_redirect_default_gateway := false, did_local := false,
    capacity := 0, n := 0, routes := [] }


/-! ### route.c: IPv6 routes

`struct route_ipv6` and `struct route_ipv6_list` are declared in route.h; their fields are
taken from the uses in route.c.  An `in6_addr` is the list of its 16 bytes. -/

/-- The `struct route_ipv6`; `option` is the pointer to the option the route came from,
`none` when it is null. -/
structure route_ipv6 where
  defined : Bool
  option : Option route_ipv6_option
  network : List Nat
  netbits : Nat
  gateway : List Nat
  metric_defined : Bool
  metric : Int
  deriving DecidableEq, Repr

/-- The `struct route_ipv6_list`: `routes_ipv6` is the array of `capacity` routes, of which
the first `n` are in use. -/
structure route_ipv6_list where
  routes_added : Bool
  flags : Nat
  default_metric : Int
  default_metric_defined : Bool
  remote_endpoint_ipv6 : List Nat
  remote_endpoint_defined : Bool
  did_redirect_default_gateway : Bool
  did_local : Bool
  capacity : Nat
  n : Nat
  routes_ipv6 : List route_ipv6
  deriving DecidableEq, Repr

/-- The functions of other modules and of the C library that the IPv6 route initialisation
calls.  `get_ipv6_addr` gives the network and prefix length it stores when it returns true,
and `none` when it returns false, in which case `get_ipv6_addr_failed` says what the call
leaves in `*network` and `*netbits`.  `inet_pton` is called with `AF_INET6`: it gives its
return value and what it leaves in `*dst`, from the string and the old `*dst`. -/
structure route_ipv6_env where
  get_ipv6_addr : Option String → Option (List Nat × Nat)
  get_ipv6_addr_failed : Option String → List Nat × Nat → List Nat × Nat
  inet_pton : String → List Nat → Int × List Nat
  atoi : String → Int

/-- An all-zero `in6_addr`. -/
def in6_addr_zero : List Nat := List.replicate 16 0

/-- An all-zero `struct route_ipv6`. -/
def route_ipv6.zero : route_ipv6 :=
  { defined := false, option := none, network := in6_addr_zero, netbits := 0,
    gateway := in6_addr_zero, metric_defined := false, metric := 0 }

/-- The `fail:` exit of `init_route_ipv6`. -/
def init_route_ipv6_fail (r6 : route_ipv6) : Bool × route_ipv6 :=
  (false, { r6 with defined := false })

/-- The metric part of `init_route_ipv6`, down to its return. -/
def init_route_ipv6_metric (env : route_ipv6_env) (r6 : route_ipv6)
    (r6o : route_ipv6_option) (rl6 : route_ipv6_list) : Bool × route_ipv6 :=
  let r6 := { r6 with metric_defined := false, metric := 0 }
  if is_route_parm_defined r6o.metric then
    let r6 := { r6 with metric := env.atoi (r6o.metric.getD "") }
    if r6.metric < 0 then init_route_ipv6_fail r6
    else (true, { r6 with metric_defined := true, defined := true })
  else if rl6.default_metric_defined then
    (true, { r6 with metric := rl6.default_metric, metric_defined := true, defined := true })
  else (true, { r6 with defined := true })

/-- The function `init_route_ipv6`: its return value and `*r6`.  Of `rl6` it reads the
remote endpoint and the default metric only.  A gateway string that `inet_pton` does not
accept causes a warning and nothing else. -/
def init_route_ipv6 (env : route_ipv6_env) (r6 : route_ipv6) (r6o : route_ipv6_option)
    (rl6 : route_ipv6_list) : Bool × route_ipv6 :=
  let r6 := { r6 with option := some r6o, defined := false }
  match env.get_ipv6_addr r6o.prefix_ with
  | none =>
    let w := env.get_ipv6_addr_failed r6o.prefix_ (r6.network, r6.netbits)
    init_route_ipv6_fail { r6 with network := w.1, netbits := w.2 }
  | some w =>
    let r6 := { r6 with network := w.1, netbits := w.2 }
    if is_route_parm_defined r6o.gateway then
      let p := env.inet_pton (r6o.gateway.getD "") r6.gateway
      init_route_ipv6_metric env { r6 with gateway := p.2 } r6o rl6
    else if rl6.remote_endpoint_defined then
      init_route_ipv6_metric env { r6 with gateway := rl6.remote_endpoint_ipv6 } r6o rl6
    else init_route_ipv6_fail r6

/-- The function `clear_route_ipv6_list`: everything is zeroed, the capacity kept. -/
def clear_route_ipv6_list (rl6 : route_ipv6_list) : route_ipv6_list :=
  { routes_added := false, flags := 0, default_metric := 0, default_metric_defined := false,
    remote_endpoint_ipv6 := in6_addr_zero, remote_endpoint_defined := false,
    did_redirect_default_gateway := false, did_local := false,
    capacity := rl6.capacity, n := 0,
    routes_ipv6 := List.replicate rl6.capacity route_ipv6.zero }

/-- The part of `init_route_ipv6_list` before the capacity check: the value of `ret` and
`*rl6` there. -/
def init_route_ipv6_list_head (env : route_ipv6_env) (rl6 : route_ipv6_list)
    (opt6 : route_ipv6_option_list) (remote_endpoint : Option String)
    (default_metric : Int) : Bool × route_ipv6_list :=
  let rl6 := clear_route_ipv6_list rl6
  let rl6 := { rl6 with flags := opt6.flags }
  let rl6 :=
    if default_metric ≠ 0 then
      { rl6 with default_metric := default_metric, default_metric_defined := true }
    else rl6
  if is_route_parm_defined remote_endpoint then
    let p := env.inet_pton (remote_endpoint.getD "") rl6.remote_endpoint_ipv6
    if p.1 = 1 then
      (true, { rl6 with remote_endpoint_ipv6 := p.2, remote_endpoint_defined := true })
    else (false, { rl6 with remote_endpoint_ipv6 := p.2 })
  else (true, { rl6 with remote_endpoint_defined := false })

/-- The loop of `init_route_ipv6_list` over the options still to come; the state is `j`,
the array `rl6->routes_ipv6` and `ret`.  Each option is initialised into slot `j`, which
advances only on success. -/
def init_route_ipv6_list_loop (env : route_ipv6_env) (rl6 : route_ipv6_list) :
    List route_ipv6_option → Nat × List route_ipv6 × Bool → Nat × List route_ipv6 × Bool
  | [], st => st
  | r6o :: rest, (j, routes, ret) =>
    let res := init_route_ipv6 env (routes.getD j route_ipv6.zero) r6o rl6
    let routes := routes.set j res.2
    if !res.1 then init_route_ipv6_list_loop env rl6 rest (j, routes, false)
    else init_route_ipv6_list_loop env rl6 rest (j + 1, routes, ret)

/-- The function `init_route_ipv6_list`: its return value and `*rl6`; `none` is the
`M_FATAL` exit.  The options read are `opt6->routes_ipv6[0..n)`. -/
def init_route_ipv6_list (env : route_ipv6_env) (rl6 : route_ipv6_list)
    (opt6 : route_ipv6_option_list) (remote_endpoint : Option String)
    (default_metric : Int) : Option (Bool × route_ipv6_list) :=
  let h := init_route_ipv6_list_head env rl6 opt6 remote_endpoint default_metric
  if !(decide (opt6.n ≥ 0) && decide (opt6.n ≤ (h.2.capacity : Int))) then none
  else
    let st := init_route_ipv6_list_loop env h.2 (opt6.routes_ipv6.take opt6.n.toNat)
      (0, h.2.routes_ipv6, h.1)
    some (st.2.2, { h.2 with routes_ipv6 := st.2.1, n := st.1 })

/-- The condition of the specification for an IPv6 route option to be accepted: the prefix
parses, a gateway is given or the list has a remote endpoint, and the metric is absent or
not negative. -/
def route_ipv6_accepted (env : route_ipv6_env) (rl6 : route_ipv6_list)
    (r6o : route_ipv6_option) : Bool :=
  (env.get_ipv6_addr r6o.prefix_).isSome &&
  (is_route_parm_defined r6o.gateway || rl6.remote_endpoint_defined) &&
  (!is_route_parm_defined r6o.metric || decide (0 ≤ env.atoi (r6o.metric.getD "")))

/-- Example IPv6 environment: two prefixes parse, "fe80::1" is the only string `inet_pton`
accepts, and `atoi` reads "7" as 7, "-1" as -1 and anything else as 0. -/
def demo_route_ipv6_env : route_ipv6_env :=
  { get_ipv6_addr := fun p =>
      if p = some "2001:db8::/32" then
        some ([0x20, 0x01, 0x0d, 0xb8, 0, 0, 0, 0, 0, 0, 0, 0, 0, 0, 0, 0], 32)
      else if p = some "fd00::/8" then
        some ([0xfd, 0, 0, 0, 0, 0, 0, 0, 0, 0, 0, 0, 0, 0, 0, 0], 8)
      else none
    get_ipv6_addr_failed := fun _ old => old
    inet_pton := fun s old =>
      if s = "fe80::1" then (1, [0xfe, 0x80, 0, 0, 0, 0, 0, 0, 0, 0, 0, 0, 0, 0, 0, 1])
      else (0, old)
    atoi := fun s => if s = "7" then 7 else if s = "-1" then -1 else 0 }

/-- Example IPv6 options: an accepted route, a route with a negative metric, a route whose
prefix does not parse, and an accepted route whose gateway string does not parse. -/
def demo_route_ipv6_options : route_ipv6_option_list :=
  { flags := 0, capacity := 4, n := 4,
    routes_ipv6 :=
      [{ prefix_ := some "2001:db8::/32", gateway := some "fe80::1", metric := some "7" },
       { prefix_ := some "fd00::/8", gateway := some "fe80::1", metric := some "-1" },
       { prefix_ := some "bogus", gateway := some "fe80::1", metric := none },
       { prefix_ := some "fd00::/8", gateway := some "not-an-address", metric := none }] }

/-- Example IPv6 route list with room for four routes. -/
def demo_route_ipv6_list : route_ipv6_list :=
  { routes_added := false, flags := 0, default_metric := 0, default_metric_defined := false,
    remote_endpoint_ipv6 := in6_addr_zero, remote_endpoint_defined := false,
    did_redirect_default_gateway := false, did_local := false, capacity := 4, n := 0,
    routes_ipv6 := [route_ipv6.zero, route_ipv6.zero, route_ipv6.zero, route_ipv6.zero] }

/-! ## Theorems -/

/-! ### Control channel states and the header byte -/

/-- C1 (as stated, refuted): on a server (`opt.server = 1`) a key state in `S_SENT_KEY`
is decrypt-enabled although `S_SENT_KEY` is not `S_GOT_KEY` or numerically later. -/
theorem C1_counterexample :
    ¬ (DECRYPT_KEY_ENABLED ⟨⟨true⟩⟩ ⟨S_SENT_KEY⟩ = true ↔
        (key_state.mk S_SENT_KEY).state ≥ S_GOT_KEY) := by
  decide

/-- C1 (amended): `DECRYPT_KEY_ENABLED(multi, ks)` is true exactly when `ks->state` is at
least `S_GOT_KEY` on a client (`opt.server = 0`) and at least `S_SENT_KEY` on a server
(`opt.server = 1`); among the nine defined states these are `S_GOT_KEY`, `S_ACTIVE`,
`S_NORMAL_OP` on a client and `S_SENT_KEY`, `S_GOT_KEY`, `S_ACTIVE`, `S_NORMAL_OP` on a
server. -/
theorem C1_decrypt_key_enabled (multi : tls_multi) (ks : key_state) :
    (DECRYPT_KEY_ENABLED multi ks = true ↔
        ks.state ≥ (if multi.opt.server then S_SENT_KEY else S_GOT_KEY)) ∧
    ((ks.state ∈ key_states ∧ DECRYPT_KEY_ENABLED multi ks = true) ↔
        ks.state ∈ (if multi.opt.server then [S_SENT_KEY, S_GOT_KEY, S_ACTIVE, S_NORMAL_OP]
                    else [S_GOT_KEY, S_ACTIVE, S_NORMAL_OP])) := by
  obtain ⟨⟨server⟩⟩ := multi
  obtain ⟨state⟩ := ks
  cases server <;>
    simp [DECRYPT_KEY_ENABLED, boolToInt, key_states, S_GOT_KEY, S_SENT_KEY, S_ERROR,
      S_UNDEF, S_INITIAL, S_PRE_START, S_START, S_ACTIVE, S_NORMAL_OP] <;> omega

/-- Left shift by three followed by or-ing in a value below 8 is `8 * a + k`. -/
theorem shiftLeft3_or (a k : Nat) (hk : k < 8) : (a <<< 3) ||| k = 8 * a + k := by
  have h := Nat.mul_add_lt_is_or (i := 3) (b := k) (by simpa using hk) a
  rw [Nat.shiftLeft_eq, Nat.mul_comm]
  simpa using h.symm

/-- Masking with 7 is the remainder modulo 8. -/
theorem and7_eq_mod (b : Nat) : b &&& 7 = b % 8 := by
  have h7 : (7 : Nat) = 2 ^ 3 - 1 := by norm_num
  rw [h7, Nat.and_pow_two_sub_one_eq_mod]

/-- Right shift by three is division by 8. -/
theorem shiftRight3_eq_div (b : Nat) : b >>> 3 = b / 8 := by
  rw [Nat.shiftRight_eq_div_pow]

/-- C2: the eight opcodes are the pairwise distinct values 1..8 within
`P_FIRST_OPCODE..P_LAST_OPCODE`; for a legal opcode `op` and key-id `k` in 0..7 the header
byte `(op << 3) | k` fits in 8 bits and splits back into `(op, k)`; every byte `b` is
recomposed from `b >> 3` (in 0..31) and `b & 7` (in 0..7). -/
theorem C2_header_byte_roundtrip (op k b : Nat)
    (hlo : P_FIRST_OPCODE ≤ op) (hhi : op ≤ P_LAST_OPCODE) (hk : k ≤ 7) (hb : b < 256) :
    (opcodes = [1, 2, 3, 4, 5, 6, 7, 8] ∧ opcodes.Nodup ∧
      (∀ o ∈ opcodes, P_FIRST_OPCODE ≤ o ∧ o ≤ P_LAST_OPCODE) ∧
      (P_FIRST_OPCODE ≤ op ∧ op ≤ P_LAST_OPCODE ↔ op ∈ opcodes)) ∧
    (header_byte op k < 256 ∧ header_opcode (header_byte op k) = op ∧
      header_key_id (header_byte op k) = k) ∧
    (header_byte (header_opcode b) (header_key_id b) = b ∧
      header_opcode b < 32 ∧ header_key_id b < 8) := by
  simp only [P_FIRST_OPCODE, P_LAST_OPCODE] at hlo hhi
  have hk8 : k < 8 := by omega
  have hm : header_key_id b < 8 := by
    simp only [header_key_id, P_KEY_ID_MASK, and7_eq_mod]; omega
  refine ⟨⟨by decide, by decide, by decide, ?_⟩, ⟨?_, ?_, ?_⟩, ⟨?_, ?_, hm⟩⟩
  · simp only [opcodes, P_FIRST_OPCODE, P_LAST_OPCODE, P_CONTROL_HARD_RESET_CLIENT_V1,
      P_CONTROL_HARD_RESET_SERVER_V1, P_CONTROL_SOFT_RESET_V1, P_CONTROL_V1, P_ACK_V1,
      P_DATA_V1, P_CONTROL_HARD_RESET_CLIENT_V2, P_CONTROL_HARD_RESET_SERVER_V2,
      List.mem_cons, List.mem_singleton, List.not_mem_nil]
    omega
  · simp only [header_byte, P_OPCODE_SHIFT, shiftLeft3_or _ _ hk8]; omega
  · simp only [header_byte, header_opcode, P_OPCODE_SHIFT, shiftLeft3_or _ _ hk8,
      shiftRight3_eq_div]
    omega
  · simp only [header_byte, header_key_id, P_OPCODE_SHIFT, P_KEY_ID_MASK,
      shiftLeft3_or _ _ hk8, and7_eq_mod]
    omega
  · have hm2 : b % 8 < 8 := by omega
    simp only [header_byte, header_opcode, header_key_id, P_OPCODE_SHIFT, P_KEY_ID_MASK,
      and7_eq_mod, shiftRight3_eq_div, shiftLeft3_or _ _ hm2]
    omega
  · simp only [header_opcode, P_OPCODE_SHIFT, shiftRight3_eq_div]; omega

/-- C2 witness: opcode `P_DATA_V1` with key-id 5 gives header byte 53. -/
theorem C2_header_byte_roundtrip_witness :
    (opcodes = [1, 2, 3, 4, 5, 6, 7, 8] ∧ opcodes.Nodup ∧
      (∀ o ∈ opcodes, P_FIRST_OPCODE ≤ o ∧ o ≤ P_LAST_OPCODE) ∧
      (P_FIRST_OPCODE ≤ P_DATA_V1 ∧ P_DATA_V1 ≤ P_LAST_OPCODE ↔ P_DATA_V1 ∈ opcodes)) ∧
    (header_byte P_DATA_V1 5 < 256 ∧ header_opcode (header_byte P_DATA_V1 5) = P_DATA_V1 ∧
      header_key_id (header_byte P_DATA_V1 5) = 5) ∧
    (header_byte (header_opcode 53) (header_key_id 53) = 53 ∧
      header_opcode 53 < 32 ∧ header_key_id 53 < 8) :=
  C2_header_byte_roundtrip P_DATA_V1 5 53 (by decide) (by decide) (by decide) (by decide)

/-! ### Data channel crypto -/

/-- Reading back a 32-bit value that was written gives the value. -/
theorem get_u32_put_u32 (n : Nat) (h : n < 2 ^ 32) : get_u32 (put_u32 n) = n := by
  simp only [get_u32, put_u32, List.getD_cons_zero, List.getD_cons_succ]
  omega

/-- A 32-bit value takes four bytes. -/
theorem put_u32_length (n : Nat) : (put_u32 n).length = 4 := rfl

/-- A written packet-id has the size of its form. -/
theorem packet_id_write_length (flags : Nat) (p : packet_id_send) :
    (packet_id_write flags p).length = packet_id_size flags := by
  unfold packet_id_write packet_id_size
  split_ifs <;> simp [put_u32_length]

/-- Reading a written packet-id gives back its sequence number. -/
theorem packet_id_read_write (flags : Nat) (p : packet_id_send) (h : p.id < 2 ^ 32) :
    (packet_id_read flags (packet_id_write flags p)).id = p.id := by
  unfold packet_id_write packet_id_read
  split_ifs
  · simp only [List.take_left' (put_u32_length p.id)]
    exact get_u32_put_u32 _ h
  · exact get_u32_put_u32 _ h

/-- The four fields of a packet laid out as HMAC, IV, packet-id, ciphertext. -/
theorem packet_fields (kt : key_type) (flags : Nat) (tag iv pin ct : Bytes)
    (ht : tag.length = kt.digest.size) (hiv : iv.length = iv_length kt flags)
    (hp : pin.length = packet_id_size flags) :
    packet_tag kt (tag ++ iv ++ pin ++ ct) = tag ∧
    packet_iv kt flags (tag ++ iv ++ pin ++ ct) = iv ∧
    packet_pin kt flags (tag ++ iv ++ pin ++ ct) = packet_id_read flags pin ∧
    packet_ciphertext kt flags (tag ++ iv ++ pin ++ ct) = ct := by
  refine ⟨?_, ?_, ?_, ?_⟩
  · unfold packet_tag
    rw [List.append_assoc, List.append_assoc, List.take_left' ht]
  · unfold packet_iv
    rw [List.append_assoc, List.append_assoc, List.drop_left' ht, List.take_left' hiv]
  · unfold packet_pin
    have h1 : (tag ++ iv).length = kt.digest.size + iv_length kt flags := by
      simp [ht, hiv]
    rw [List.append_assoc (tag ++ iv), List.drop_left' h1, List.take_left' hp]
  · unfold packet_ciphertext ciphertext_offset
    have h1 : (tag ++ iv ++ pin).length =
        kt.digest.size + iv_length kt flags + packet_id_size flags := by
      simp [ht, hiv, hp, Nat.add_assoc]
    rw [List.drop_left' h1]

/-- Shape of a non-empty result of `openvpn_encrypt`. -/
theorem openvpn_encrypt_some (kt : key_type) (iv_source buf : Bytes) (opt : crypto_options)
    (pkt : Bytes) (pid : packet_id)
    (h : openvpn_encrypt kt iv_source buf opt = some (pkt, pid)) (hne : pkt ≠ []) :
    ∃ ct, kt.cipher.encrypt opt.key_ctx_bi.encrypt.cipher
        (iv_source.take (iv_length kt opt.flags)) buf = some ct ∧
      pkt = kt.digest.digest opt.key_ctx_bi.encrypt.hmac
          (iv_source.take (iv_length kt opt.flags) ++ ct) ++
        iv_source.take (iv_length kt opt.flags) ++
        packet_id_write opt.flags { opt.packet_id.send with id := opt.packet_id.send.id + 1 } ++
        ct ∧
      pid = { opt.packet_id with
              send := { opt.packet_id.send with id := opt.packet_id.send.id + 1 } } ∧
      (iv_source.take (iv_length kt opt.flags)).length = iv_length kt opt.flags ∧
      opt.packet_id.send.id + 1 < 2 ^ 32 := by
  unfold openvpn_encrypt at h
  split_ifs at h with h1 h2
  · simp only [Option.some.injEq, Prod.mk.injEq] at h
    exact absurd h.1.symm hne
  · simp only at h
    split at h
    · simp only [Option.some.injEq, Prod.mk.injEq] at h
      exact absurd h.1.symm hne
    · rename_i ct hct
      simp only [Option.some.injEq, Prod.mk.injEq] at h
      refine ⟨ct, hct, h.1.symm, h.2.symm, ?_, by omega⟩
      rw [List.length_take]; omega

/-- A packet-id above the highest one seen passes the receive test. -/
theorem packet_id_test_in_order (p : packet_id_rec) (pin : packet_id_net)
    (h : p.id < pin.id) : packet_id_test p pin = true := by
  unfold packet_id_test
  have h1 : ¬ ((pin.id : Int) ≤ (p.id : Int) - (p.window : Int)) := by omega
  have h2 : ¬ (pin.id ≤ p.id ∧ pin.id ∈ p.seen) := by
    intro hc; omega
  simp [h1, h2]

/-- C3: if `openvpn_encrypt` yields a non-empty packet and that packet is passed to
`openvpn_decrypt` under the same key material and flags, with its packet-id above the
highest one received so far, then `openvpn_decrypt` returns true and the buffer holds
exactly the original plaintext. -/
theorem C3_encrypt_decrypt_roundtrip (kt : key_type) (iv_source plaintext : Bytes)
    (eopt dopt : crypto_options) (pkt : Bytes) (pid : packet_id)
    (henc : openvpn_encrypt kt iv_source plaintext eopt = some (pkt, pid))
    (hne : pkt ≠ [])
    (hkey : dopt.key_ctx_bi.decrypt = eopt.key_ctx_bi.encrypt)
    (hflags : dopt.flags = eopt.flags)
    (horder : dopt.packet_id.recv.id < pid.send.id) :
    (openvpn_decrypt kt pkt dopt).ret = true ∧
    (openvpn_decrypt kt pkt dopt).buf = plaintext := by
  obtain ⟨ct, hct, hpkt, hpid, hivl, hid⟩ :=
    openvpn_encrypt_some kt iv_source plaintext eopt pkt pid henc hne
  have hwl := packet_id_write_length eopt.flags
    { eopt.packet_id.send with id := eopt.packet_id.send.id + 1 }
  have hf := packet_fields kt eopt.flags _ _ _ ct
    (kt.digest.digest_length eopt.key_ctx_bi.encrypt.hmac
      (iv_source.take (iv_length kt eopt.flags) ++ ct)) hivl hwl
  rw [← hpkt] at hf
  obtain ⟨hf1, hf2, hf3, hf4⟩ := hf
  have hlen : ¬ pkt.length < ciphertext_offset kt eopt.flags := by
    rw [hpkt]
    simp only [List.length_append, kt.digest.digest_length, hivl, hwl, ciphertext_offset]
    omega
  have hauth : packet_authentic kt eopt.key_ctx_bi.encrypt eopt.flags pkt = true := by
    simp [packet_authentic, hf1, hf2, hf4]
  have hpin : (packet_pin kt eopt.flags pkt).id = pid.send.id := by
    rw [hf3, packet_id_read_write _ _ hid, hpid]
  have htest : packet_id_test dopt.packet_id.recv (packet_pin kt eopt.flags pkt) = true :=
    packet_id_test_in_order _ _ (by rw [hpin]; exact horder)
  have hdec := kt.cipher.decrypt_encrypt _ _ _ _ hct
  unfold openvpn_decrypt
  simp only [hflags, hkey, hlen, hauth, htest, hf2, hf4, hdec]
  simp

/-- C3 witness: the example packet `[68, 1, 2, 0, 0, 0, 1, 14, 16, 26]` decrypts to the
plaintext `[10, 20, 30]` it was made from. -/
theorem C3_encrypt_decrypt_roundtrip_witness :
    (openvpn_decrypt demo_kt [68, 1, 2, 0, 0, 0, 1, 14, 16, 26] demo_options).ret = true ∧
    (openvpn_decrypt demo_kt [68, 1, 2, 0, 0, 0, 1, 14, 16, 26] demo_options).buf =
      [10, 20, 30] :=
  C3_encrypt_decrypt_roundtrip demo_kt [1, 2] [10, 20, 30] demo_options demo_options
    [68, 1, 2, 0, 0, 0, 1, 14, 16, 26]
    { send := { id := 1, time := 0 }, recv := { id := 0, window := 8, seen := [] } }
    (by decide) (by decide) rfl rfl (by decide)

/-- Flipping a bit changes the value. -/
theorem xor_bit_ne (b j : Nat) : b ^^^ (1 <<< j) ≠ b := by
  intro h
  have h1 : b ^^^ (b ^^^ (1 <<< j)) = 1 <<< j := Nat.xor_cancel_left b (1 <<< j)
  rw [h, Nat.xor_self] at h1
  have h2 : 0 < 1 <<< j := by
    rw [Nat.shiftLeft_eq, Nat.one_mul]; exact Nat.two_pow_pos j
  omega

/-- The byte at the flipped position differs from the original one. -/
theorem flip_bit_getElem? (buf : Bytes) (i j : Nat) (hi : i < buf.length) :
    (flip_bit buf i j)[i]? ≠ buf[i]? := by
  unfold flip_bit
  rw [List.getElem?_set_self hi, List.getD_eq_getElem?_getD, List.getElem?_eq_getElem hi]
  simp only [Option.getD_some, ne_eq, Option.some.injEq]
  exact xor_bit_ne _ j

/-- A packet that fails the HMAC check is rejected with an empty buffer and an unchanged
packet-id state. -/
theorem openvpn_decrypt_not_authentic (kt : key_type) (pkt : Bytes) (opt : crypto_options)
    (h : packet_authentic kt opt.key_ctx_bi.decrypt opt.flags pkt = false) :
    openvpn_decrypt kt pkt opt = { ret := false, buf := [], packet_id := opt.packet_id } := by
  unfold openvpn_decrypt
  split_ifs <;> simp_all

/-- The HMAC check does not consult the cipher beyond the size of its IV. -/
theorem packet_authentic_cipher (kt : key_type) (c : Cipher) (k : key) (flags : Nat)
    (pkt : Bytes) (hc : c.iv_size = kt.cipher.iv_size) :
    packet_authentic { kt with cipher := c } k flags pkt = packet_authentic kt k flags pkt := by
  simp [packet_authentic, packet_tag, packet_iv, packet_ciphertext, ciphertext_offset,
    iv_length, hc]

/-- Tampering and the HMAC check: for a packet produced by `openvpn_encrypt`, flipping any
single bit of its HMAC tag makes `openvpn_decrypt` (same key material and flags) return false, and so
does flipping any single bit of its ciphertext whenever the HMAC over the altered IV and
ciphertext differs from the HMAC over the original ones; the buffer is then empty, the
packet-id state unchanged, and the outcome is the same whatever cipher is installed, so no
decryption takes place. -/
theorem tamper_rejected_of_hmac (kt : key_type) (iv_source plaintext : Bytes)
    (eopt dopt : crypto_options) (pkt : Bytes) (pid : packet_id) (i j : Nat) (c : Cipher)
    (henc : openvpn_encrypt kt iv_source plaintext eopt = some (pkt, pid))
    (hne : pkt ≠ [])
    (hkey : dopt.key_ctx_bi.decrypt = eopt.key_ctx_bi.encrypt)
    (hflags : dopt.flags = eopt.flags)
    (hi : i < pkt.length)
    (hregion : i < kt.digest.size ∨
      (ciphertext_offset kt eopt.flags ≤ i ∧
        kt.digest.digest eopt.key_ctx_bi.encrypt.hmac
            (packet_iv kt eopt.flags (flip_bit pkt i j) ++
              packet_ciphertext kt eopt.flags (flip_bit pkt i j)) ≠
          kt.digest.digest eopt.key_ctx_bi.encrypt.hmac
            (packet_iv kt eopt.flags pkt ++ packet_ciphertext kt eopt.flags pkt)))
    (hc : c.iv_size = kt.cipher.iv_size) :
    openvpn_decrypt kt (flip_bit pkt i j) dopt =
      { ret := false, buf := [], packet_id := dopt.packet_id } ∧
    openvpn_decrypt { kt with cipher := c } (flip_bit pkt i j) dopt =
      { ret := false, buf := [], packet_id := dopt.packet_id } := by
  obtain ⟨ct, hct, hpkt, hpid, hivl, hid⟩ :=
    openvpn_encrypt_some kt iv_source plaintext eopt pkt pid henc hne
  have hwl := packet_id_write_length eopt.flags
    { eopt.packet_id.send with id := eopt.packet_id.send.id + 1 }
  have hf := packet_fields kt eopt.flags _ _ _ ct
    (kt.digest.digest_length eopt.key_ctx_bi.encrypt.hmac
      (iv_source.take (iv_length kt eopt.flags) ++ ct)) hivl hwl
  rw [← hpkt] at hf
  obtain ⟨hf1, hf2, hf3, hf4⟩ := hf
  have hauth : packet_authentic kt dopt.key_ctx_bi.decrypt dopt.flags (flip_bit pkt i j)
      = false := by
    rw [hkey, hflags]
    simp only [packet_authentic, decide_eq_false_iff_not]
    rcases hregion with htag | ⟨hoff, hdig⟩
    · have hoff : i < ciphertext_offset kt eopt.flags := by
        unfold ciphertext_offset; omega
      have e1 : packet_iv kt eopt.flags (flip_bit pkt i j) = packet_iv kt eopt.flags pkt := by
        unfold packet_iv flip_bit
        rw [List.drop_set_of_lt _ _ htag]
      have e2 : packet_ciphertext kt eopt.flags (flip_bit pkt i j) =
          packet_ciphertext kt eopt.flags pkt := by
        unfold packet_ciphertext flip_bit
        rw [List.drop_set_of_lt _ _ hoff]
      rw [e1, e2, hf2, hf4, ← hf1]
      intro hcontra
      have h1 : (packet_tag kt (flip_bit pkt i j))[i]? = (packet_tag kt pkt)[i]? := by
        rw [hcontra]
      unfold packet_tag at h1
      rw [List.getElem?_take_of_lt htag, List.getElem?_take_of_lt htag] at h1
      exact flip_bit_getElem? pkt i j hi h1
    · have hsz : kt.digest.size ≤ i := by
        unfold ciphertext_offset at hoff; omega
      have e1 : packet_tag kt (flip_bit pkt i j) = packet_tag kt pkt := by
        unfold packet_tag flip_bit
        rcases Nat.eq_or_lt_of_le hsz with he | hl
        · rw [List.set_take, he]
          apply List.set_eq_of_length_le
          simp
        · rw [List.take_set_of_lt _ _ hl]
      rw [e1, hf1]
      intro hcontra
      apply hdig
      rw [← hcontra, hf2, hf4]
  refine ⟨openvpn_decrypt_not_authentic kt _ dopt hauth, ?_⟩
  apply openvpn_decrypt_not_authentic
  rw [packet_authentic_cipher kt c _ _ _ hc]
  exact hauth

/-- The condition on the digest in `tamper_rejected_of_hmac` cannot be dropped for an
arbitrary digest: under the seven-bit checksum the packet made from `[10, 20, 30]` still
passes `openvpn_decrypt` after bit 7 of its last ciphertext byte is
flipped, and the altered plaintext `[10, 20, 158]` is produced. -/
theorem weak_hmac_accepts_altered_packet :
    openvpn_encrypt weak_kt [1, 2] [10, 20, 30] demo_options =
      some ([68, 1, 2, 0, 0, 0, 1, 14, 16, 26],
        { send := { id := 1, time := 0 }, recv := { id := 0, window := 8, seen := [] } }) ∧
    ciphertext_offset weak_kt demo_options.flags ≤ 9 ∧
    flip_bit [68, 1, 2, 0, 0, 0, 1, 14, 16, 26] 9 7 = [68, 1, 2, 0, 0, 0, 1, 14, 16, 154] ∧
    (openvpn_decrypt weak_kt (flip_bit [68, 1, 2, 0, 0, 0, 1, 14, 16, 26] 9 7)
      demo_options).ret = true ∧
    (openvpn_decrypt weak_kt (flip_bit [68, 1, 2, 0, 0, 0, 1, 14, 16, 26] 9 7)
      demo_options).buf = [10, 20, 158] := by
  decide

/-- Example for `tamper_rejected_of_hmac`: under the one-byte checksum, flipping bit 7 of the last ciphertext byte
of the example packet changes the HMAC, and the packet is rejected. -/
theorem tamper_rejected_of_hmac_example :
    openvpn_decrypt demo_kt (flip_bit [68, 1, 2, 0, 0, 0, 1, 14, 16, 26] 9 7) demo_options =
      { ret := false, buf := [], packet_id := demo_options.packet_id } ∧
    openvpn_decrypt { demo_kt with cipher := demo_cipher }
        (flip_bit [68, 1, 2, 0, 0, 0, 1, 14, 16, 26] 9 7) demo_options =
      { ret := false, buf := [], packet_id := demo_options.packet_id } :=
  tamper_rejected_of_hmac demo_kt [1, 2] [10, 20, 30] demo_options demo_options
    [68, 1, 2, 0, 0, 0, 1, 14, 16, 26]
    { send := { id := 1, time := 0 }, recv := { id := 0, window := 8, seen := [] } }
    9 7 demo_cipher (by decide) (by decide) rfl rfl (by decide)
    (Or.inr ⟨by decide, by decide⟩) rfl

/-- C5: for a packet whose packet-id is already marked seen inside the receive window,
`openvpn_decrypt` returns true only if `CO_IGNORE_PACKET_ID` is set (and the packet is
whole, passes the HMAC check and decrypts); when the flag is not set the packet is
rejected, whether or not its HMAC is valid, with an empty buffer and an unchanged
packet-id state. -/
theorem C5_replay_rejected (kt : key_type) (pkt : Bytes) (opt : crypto_options)
    (hseen : packet_id_marked opt.packet_id.recv (packet_pin kt opt.flags pkt)) :
    ((openvpn_decrypt kt pkt opt).ret = true ↔
      (has_flag opt.flags CO_IGNORE_PACKET_ID = true ∧
        ciphertext_offset kt opt.flags ≤ pkt.length ∧
        packet_authentic kt opt.key_ctx_bi.decrypt opt.flags pkt = true ∧
        (kt.cipher.decrypt opt.key_ctx_bi.decrypt.cipher (packet_iv kt opt.flags pkt)
          (packet_ciphertext kt opt.flags pkt)).isSome = true)) ∧
    (has_flag opt.flags CO_IGNORE_PACKET_ID = false →
      openvpn_decrypt kt pkt opt =
        { ret := false, buf := [], packet_id := opt.packet_id }) := by
  have htest : packet_id_test opt.packet_id.recv (packet_pin kt opt.flags pkt) = false := by
    obtain ⟨_, h2, h3⟩ := hseen
    unfold packet_id_test
    split_ifs <;> simp_all
  unfold openvpn_decrypt
  by_cases h1 : pkt.length < ciphertext_offset kt opt.flags
  · simp [h1]
  · have h1' : ciphertext_offset kt opt.flags ≤ pkt.length := by omega
    cases h2 : packet_authentic kt opt.key_ctx_bi.decrypt opt.flags pkt <;>
    cases h3 : has_flag opt.flags CO_IGNORE_PACKET_ID <;>
    cases h5 : kt.cipher.decrypt opt.key_ctx_bi.decrypt.cipher (packet_iv kt opt.flags pkt)
        (packet_ciphertext kt opt.flags pkt) <;>
    simp [h1, h1', h2, h3, htest, h5]

/-- C5 witness: the example packet, authentic and accepted once, is rejected when it
arrives again. -/
theorem C5_replay_rejected_witness :
    packet_authentic demo_kt demo_key demo_options.flags
      [68, 1, 2, 0, 0, 0, 1, 14, 16, 26] = true ∧
    openvpn_decrypt demo_kt [68, 1, 2, 0, 0, 0, 1, 14, 16, 26]
        { demo_options with
          packet_id := (openvpn_decrypt demo_kt [68, 1, 2, 0, 0, 0, 1, 14, 16, 26]
            demo_options).packet_id } =
      { ret := false, buf := [],
        packet_id := (openvpn_decrypt demo_kt [68, 1, 2, 0, 0, 0, 1, 14, 16, 26]
            demo_options).packet_id } :=
  ⟨by decide,
   (C5_replay_rejected demo_kt [68, 1, 2, 0, 0, 0, 1, 14, 16, 26]
    { demo_options with
      packet_id := (openvpn_decrypt demo_kt [68, 1, 2, 0, 0, 0, 1, 14, 16, 26]
        demo_options).packet_id }
    (by decide)).2 (by decide)⟩

/-- C6: `openvpn_encrypt` either stops on counter overflow or returns; its buffer is empty
exactly when the random source or the cipher failed (and then the packet-id state is
unchanged), and otherwise is a whole packet that passes the HMAC check.
`openvpn_decrypt` returns false with an empty buffer and an unchanged packet-id state, or
true; it returns true exactly when the packet is whole, passes the HMAC check, passes the
packet-id test (or that is ignored) and the cipher yields the plaintext now in the
buffer. -/
theorem C6_error_gives_empty_buffer (kt : key_type) (iv_source buf pkt : Bytes)
    (opt : crypto_options) :
    (match openvpn_encrypt kt iv_source buf opt with
      | none => 2 ^ 32 ≤ opt.packet_id.send.id + 1
      | some (out, pid) =>
        (out = [] ↔
          (iv_source.length < iv_length kt opt.flags ∨
            kt.cipher.encrypt opt.key_ctx_bi.encrypt.cipher
              (iv_source.take (iv_length kt opt.flags)) buf = none)) ∧
        ((out = [] ∧ pid = opt.packet_id) ∨
          (ciphertext_offset kt opt.flags ≤ out.length ∧
            packet_authentic kt opt.key_ctx_bi.encrypt opt.flags out = true))) ∧
    ((openvpn_decrypt kt pkt opt).ret = true ∨
      ((openvpn_decrypt kt pkt opt).ret = false ∧ (openvpn_decrypt kt pkt opt).buf = [] ∧
        (openvpn_decrypt kt pkt opt).packet_id = opt.packet_id)) ∧
    ((openvpn_decrypt kt pkt opt).ret = true ↔
      (ciphertext_offset kt opt.flags ≤ pkt.length ∧
        packet_authentic kt opt.key_ctx_bi.decrypt opt.flags pkt = true ∧
        (has_flag opt.flags CO_IGNORE_PACKET_ID = true ∨
          packet_id_test opt.packet_id.recv (packet_pin kt opt.flags pkt) = true) ∧
        kt.cipher.decrypt opt.key_ctx_bi.decrypt.cipher (packet_iv kt opt.flags pkt)
          (packet_ciphertext kt opt.flags pkt) = some (openvpn_decrypt kt pkt opt).buf)) := by
  refine ⟨?_, ?_, ?_⟩
  · cases henc : openvpn_encrypt kt iv_source buf opt with
    | none =>
      simp only
      unfold openvpn_encrypt at henc
      split_ifs at henc with h1 h2
      · omega
      · simp only at henc
        split at henc <;> cases henc
    | some r =>
      obtain ⟨out, pid⟩ := r
      simp only
      by_cases hout : out = []
      · subst hout
        unfold openvpn_encrypt at henc
        split_ifs at henc with h1 h2
        · simp only [Option.some.injEq, Prod.mk.injEq] at henc
          exact ⟨by simp [h2], Or.inl ⟨rfl, henc.2.symm⟩⟩
        · simp only at henc
          split at henc
          · rename_i hct
            simp only [Option.some.injEq, Prod.mk.injEq] at henc
            exact ⟨by simp [hct], Or.inl ⟨rfl, henc.2.symm⟩⟩
          · simp only [Option.some.injEq, Prod.mk.injEq] at henc
            have hlen := congrArg List.length henc.1
            have hpl := packet_id_write_length opt.flags
              { opt.packet_id.send with id := opt.packet_id.send.id + 1 }
            simp only [List.length_append, List.length_nil, hpl] at hlen
            have : 0 < packet_id_size opt.flags := by
              unfold packet_id_size; split_ifs <;> omega
            omega
      · obtain ⟨ct, hct, hpkt, hpid, hivl, hid⟩ :=
          openvpn_encrypt_some kt iv_source buf opt out pid henc hout
        have hwl := packet_id_write_length opt.flags
          { opt.packet_id.send with id := opt.packet_id.send.id + 1 }
        have hf := packet_fields kt opt.flags _ _ _ ct
          (kt.digest.digest_length opt.key_ctx_bi.encrypt.hmac
            (iv_source.take (iv_length kt opt.flags) ++ ct)) hivl hwl
        rw [← hpkt] at hf
        obtain ⟨hf1, hf2, hf3, hf4⟩ := hf
        have hlen : ciphertext_offset kt opt.flags ≤ out.length := by
          rw [hpkt]
          simp only [List.length_append, kt.digest.digest_length, hivl, hwl,
            ciphertext_offset]
          omega
        have hivs : ¬ iv_source.length < iv_length kt opt.flags := by
          rw [List.length_take] at hivl; omega
        refine ⟨?_, Or.inr ⟨hlen, ?_⟩⟩
        · simp [hout, hivs, hct]
        · simp [packet_authentic, hf1, hf2, hf4]
  · unfold openvpn_decrypt
    by_cases h1 : pkt.length < ciphertext_offset kt opt.flags
    · simp [h1]
    · cases h2 : packet_authentic kt opt.key_ctx_bi.decrypt opt.flags pkt <;>
      cases h3 : has_flag opt.flags CO_IGNORE_PACKET_ID <;>
      cases h4 : packet_id_test opt.packet_id.recv (packet_pin kt opt.flags pkt) <;>
      cases h5 : kt.cipher.decrypt opt.key_ctx_bi.decrypt.cipher (packet_iv kt opt.flags pkt)
          (packet_ciphertext kt opt.flags pkt) <;>
      simp [h1, h2, h3, h4, h5]
  · unfold openvpn_decrypt
    by_cases h1 : pkt.length < ciphertext_offset kt opt.flags
    · simp [h1]
    · have h1' : ciphertext_offset kt opt.flags ≤ pkt.length := by omega
      cases h2 : packet_authentic kt opt.key_ctx_bi.decrypt opt.flags pkt <;>
      cases h3 : has_flag opt.flags CO_IGNORE_PACKET_ID <;>
      cases h4 : packet_id_test opt.packet_id.recv (packet_pin kt opt.flags pkt) <;>
      cases h5 : kt.cipher.decrypt opt.key_ctx_bi.decrypt.cipher (packet_iv kt opt.flags pkt)
          (packet_ciphertext kt opt.flags pkt) <;>
      simp [h1, h1', h2, h3, h4, h5]

/-! ### Reliability layer -/

/-- The delivery loop: started with the delivered numbers being `0 .. next - 1` and every
held datagram at or after `next`, and with fuel for every held datagram, it ends in a
state of the invariant, and hands over held datagrams only. -/
theorem ReliableQueue.deliver_inv (fuel : Nat) (q : ReliableQueue)
    (h1 : q.delivered.map (fun d => d.id) = List.range q.next)
    (h2 : q.buffered.length ≤ TLS_RELIABLE_N_REC_BUFFERS)
    (h3 : ∀ d ∈ q.buffered, q.next ≤ d.id)
    (h4 : ∀ acks ∈ q.sent_acks, acks.length ≤ CONTROL_SEND_ACK_MAX)
    (hf : q.buffered.length ≤ fuel) :
    ReliableInv (ReliableQueue.deliver fuel q) ∧
    (∀ d ∈ (ReliableQueue.deliver fuel q).delivered, d ∈ q.delivered ∨ d ∈ q.buffered) ∧
    (∀ d ∈ (ReliableQueue.deliver fuel q).buffered, d ∈ q.buffered) := by
  induction fuel generalizing q with
  | zero =>
    have hnil : q.buffered = [] := List.length_eq_zero.mp (Nat.le_zero.mp hf)
    show ReliableInv q ∧ (∀ d ∈ q.delivered, d ∈ q.delivered ∨ d ∈ q.buffered) ∧
      (∀ d ∈ q.buffered, d ∈ q.buffered)
    refine ⟨⟨h1, h2, ?_, h4⟩, fun d hd => Or.inl hd, fun d hd => hd⟩
    intro d hd
    rw [hnil] at hd
    cases hd
  | succ n ih =>
    cases hfind : q.buffered.find? (fun d => d.id == q.next) with
    | none =>
      have e : ReliableQueue.deliver (n + 1) q = q := by
        rw [ReliableQueue.deliver, hfind]
      rw [e]
      refine ⟨⟨h1, h2, ?_, h4⟩, fun d hd => Or.inl hd, fun d hd => hd⟩
      intro d hd
      have hne := List.find?_eq_none.mp hfind d hd
      have hle := h3 d hd
      simp only [beq_iff_eq] at hne
      omega
    | some d =>
      have e : ReliableQueue.deliver (n + 1) q = ReliableQueue.deliver n
          { q with
            next := q.next + 1
            buffered := q.buffered.filter (fun e => e.id != q.next)
            delivered := q.delivered ++ [d] } := by
        rw [ReliableQueue.deliver, hfind]
      rw [e]
      have hd_mem : d ∈ q.buffered := List.mem_of_find?_eq_some hfind
      have hd_id : d.id = q.next := by
        have := List.find?_some hfind
        simpa using this
      have hlt : (q.buffered.filter (fun e => e.id != q.next)).length < q.buffered.length := by
        rw [List.length_filter_lt_length_iff_exists]
        exact ⟨d, hd_mem, by simp [hd_id]⟩
      have hrec := ih
        { q with
          next := q.next + 1
          buffered := q.buffered.filter (fun e => e.id != q.next)
          delivered := q.delivered ++ [d] }
        (by simp [h1, hd_id, List.range_succ])
        (by simp only; omega)
        (by
          intro e he
          simp only [List.mem_filter, bne_iff_ne, ne_eq] at he
          have := h3 e he.1
          show q.next + 1 ≤ e.id
          omega)
        h4
        (by simp only; omega)
      refine ⟨hrec.1, ?_, fun e he => (List.mem_filter.mp (hrec.2.2 e he)).1⟩
      intro e he
      rcases hrec.2.1 e he with h | h
      · simp only [List.mem_append, List.mem_singleton] at h
        rcases h with h | h
        · exact Or.inl h
        · exact Or.inr (h ▸ hd_mem)
      · exact Or.inr (List.mem_filter.mp h).1

/-- A fresh queue satisfies the invariant. -/
theorem ReliableInv_initial : ReliableInv ReliableQueue.initial := by
  simp [ReliableInv, ReliableQueue.initial]

/-- An arrival keeps the invariant, and whatever is delivered or held afterwards was so
before or is the arrival. -/
theorem ReliableQueue.receive_inv (q : ReliableQueue) (d : ControlDatagram)
    (h : ReliableInv q) :
    ReliableInv (q.receive d) ∧
    (∀ e ∈ (q.receive d).delivered, e ∈ q.delivered ∨ e ∈ q.buffered ∨ e = d) ∧
    (∀ e ∈ (q.receive d).buffered, e ∈ q.buffered ∨ e = d) := by
  obtain ⟨h1, h2, h3, h4⟩ := h
  unfold ReliableQueue.receive
  split_ifs with hdup hfull
  · exact ⟨⟨h1, h2, h3, h4⟩, fun e he => Or.inl he, fun e he => Or.inl he⟩
  · exact ⟨⟨h1, h2, h3, h4⟩, fun e he => Or.inl he, fun e he => Or.inl he⟩
  · have hd : q.next ≤ d.id := by
      have : ¬ d.id < q.next := fun hc => hdup (Or.inl hc)
      omega
    have hrec := ReliableQueue.deliver_inv (q.buffered.length + 1)
      { q with buffered := d :: q.buffered, pending_acks := q.pending_acks ++ [d.id] }
      h1
      (by simp only [List.length_cons]; omega)
      (by
        intro e he
        simp only [List.mem_cons] at he
        rcases he with he | he
        · rw [he]; exact hd
        · exact Nat.le_of_lt (h3 e he))
      h4
      (by simp)
    refine ⟨hrec.1, ?_, ?_⟩
    · intro e he
      rcases hrec.2.1 e he with h | h
      · exact Or.inl h
      · simp only [List.mem_cons] at h
        rcases h with h | h
        · exact Or.inr (Or.inr h)
        · exact Or.inr (Or.inl h)
    · intro e he
      have h := hrec.2.2 e he
      simp only [List.mem_cons] at h
      rcases h with h | h
      · exact Or.inr h
      · exact Or.inl h

/-- Invariant of a run, with the origin of what is delivered or held. -/
theorem ReliableQueue.run_inv (events : List ReliableEvent) :
    ReliableInv (ReliableQueue.run events) ∧
    (∀ d ∈ (ReliableQueue.run events).delivered, ReliableEvent.arrive d ∈ events) ∧
    (∀ d ∈ (ReliableQueue.run events).buffered, ReliableEvent.arrive d ∈ events) := by
  induction events using List.reverseRecOn with
  | nil =>
    refine ⟨ReliableInv_initial, ?_, ?_⟩ <;> intro d hd <;>
      simp [ReliableQueue.run, ReliableQueue.initial] at hd
  | append_singleton es ev ih =>
    have hrun : ReliableQueue.run (es ++ [ev]) = (ReliableQueue.run es).step ev := by
      simp [ReliableQueue.run]
    rw [hrun]
    obtain ⟨hinv, hdel, hbuf⟩ := ih
    cases ev with
    | arrive d =>
      obtain ⟨r1, r2, r3⟩ := ReliableQueue.receive_inv (ReliableQueue.run es) d hinv
      refine ⟨r1, ?_, ?_⟩
      · intro e he
        rcases r2 e he with h | h | h
        · exact List.mem_append_left _ (hdel e h)
        · exact List.mem_append_left _ (hbuf e h)
        · simp [h]
      · intro e he
        rcases r3 e he with h | h
        · exact List.mem_append_left _ (hbuf e h)
        · simp [h]
    | send_control =>
      obtain ⟨h1, h2, h3, h4⟩ := hinv
      refine ⟨⟨h1, h2, h3, ?_⟩, ?_, ?_⟩
      · intro acks hacks
        simp only [ReliableQueue.step, ReliableQueue.send_control, List.mem_append,
          List.mem_singleton] at hacks
        rcases hacks with h | h
        · exact h4 acks h
        · rw [h, List.length_take]
          exact Nat.min_le_left _ _
      · intro e he
        exact List.mem_append_left _ (hdel e he)
      · intro e he
        exact List.mem_append_left _ (hbuf e he)

/-- C7: after any sequence of arrivals (in any order, with any duplicates) and outgoing
control packets at one KeyState's reliability layer, the payloads handed to the TLS engine
carry the sequence numbers `0, 1, .., next - 1` in this order, so strictly increasing and
none twice; each of them arrived; at most `TLS_RELIABLE_N_REC_BUFFERS` arrivals are held
back, all of them ahead of the number due next; and no outgoing control packet carries
more than `CONTROL_SEND_ACK_MAX` acknowledgments. -/
theorem C7_reliable_in_order (events : List ReliableEvent) :
    (ReliableQueue.run events).delivered.map (fun d => d.id) =
      List.range (ReliableQueue.run events).next ∧
    ((ReliableQueue.run events).delivered.map (fun d => d.id)).Pairwise (fun a b => a < b) ∧
    ((ReliableQueue.run events).delivered.map (fun d => d.id)).Nodup ∧
    (∀ d ∈ (ReliableQueue.run events).delivered, ReliableEvent.arrive d ∈ events) ∧
    (ReliableQueue.run events).buffered.length ≤ TLS_RELIABLE_N_REC_BUFFERS ∧
    TLS_RELIABLE_N_REC_BUFFERS = 8 ∧
    (∀ d ∈ (ReliableQueue.run events).buffered, (ReliableQueue.run events).next < d.id) ∧
    (∀ acks ∈ (ReliableQueue.run events).sent_acks, acks.length ≤ CONTROL_SEND_ACK_MAX) ∧
    CONTROL_SEND_ACK_MAX = 4 := by
  obtain ⟨⟨h1, h2, h3, h4⟩, hdel, _⟩ := ReliableQueue.run_inv events
  refine ⟨h1, ?_, ?_, hdel, h2, rfl, h3, h4, rfl⟩
  · rw [h1]; exact List.pairwise_lt_range _
  · rw [h1]; exact List.nodup_range _

/-! ### External multiplexer -/

/-- C8: `tls_pre_decrypt` returns false for every packet whose opcode is `P_DATA_V1` and
leaves its buffer unmodified except for the removal of the one-byte header; and whenever
it returns true, the packet has a header with another opcode and control channel
processing of it succeeded. -/
theorem C8_pre_decrypt_data_packet (m : tls_multi_state) (src_addr c : Nat)
    (rest : Bytes) (opt : crypto_options)
    (process_control : Nat → Nat → Nat → Bytes → Bool × Bytes)
    (hop : header_opcode c = P_DATA_V1) :
    (tls_pre_decrypt m src_addr (c :: rest) opt process_control).ret = false ∧
    (tls_pre_decrypt m src_addr (c :: rest) opt process_control).buf = rest ∧
    (∀ buf, (tls_pre_decrypt m src_addr buf opt process_control).ret = true →
      ∃ c' rest', buf = c' :: rest' ∧ header_opcode c' ≠ P_DATA_V1 ∧
        (process_control (header_opcode c') (header_key_id c') src_addr rest').1 = true) := by
  refine ⟨?_, ?_, ?_⟩
  · simp only [tls_pre_decrypt, hop, if_true]
    split <;> rfl
  · simp only [tls_pre_decrypt, hop, if_true]
    split <;> rfl
  · intro buf hret
    cases buf with
    | nil => simp [tls_pre_decrypt] at hret
    | cons c' rest' =>
      refine ⟨c', rest', rfl, ?_⟩
      by_cases hdata : header_opcode c' = P_DATA_V1
      · simp only [tls_pre_decrypt, hdata, if_true] at hret
        split at hret <;> simp at hret
      · simp only [tls_pre_decrypt, hdata, if_false] at hret
        exact ⟨hdata, hret⟩

/-- C8 witness: the data packet with header byte 53 (`P_DATA_V1`, key-id 5) from the bound
address: false is returned and the buffer is the packet without its header. -/
theorem C8_pre_decrypt_data_packet_witness :
    (tls_pre_decrypt demo_multi 77 (53 :: [1, 2, 3]) demo_options
      (fun _ _ _ b => (true, b))).ret = false ∧
    (tls_pre_decrypt demo_multi 77 (53 :: [1, 2, 3]) demo_options
      (fun _ _ _ b => (true, b))).buf = [1, 2, 3] ∧
    (∀ buf, (tls_pre_decrypt demo_multi 77 buf demo_options
        (fun _ _ _ b => (true, b))).ret = true →
      ∃ c' rest', buf = c' :: rest' ∧ header_opcode c' ≠ P_DATA_V1 ∧
        ((fun (_ _ _ : Nat) (b : Bytes) => (true, b))
          (header_opcode c') (header_key_id c') 77 rest').1 = true) :=
  C8_pre_decrypt_data_packet demo_multi 77 53 [1, 2, 3] demo_options
    (fun _ _ _ b => (true, b)) (by decide)

/-! ### Key direction and engine globals -/

/-- C9: `key_direction_state_init` is defined on every `int`: the three directions give
`(out_key, in_key, need_keys)` = `(0, 0, 1)`, `(0, 1, 2)` and `(1, 0, 2)`, every other value
is the error, and with NORMAL on one peer and INVERSE on the other each peer's `out_key` is
the other's `in_key`. -/
theorem C9_key_direction_state_init (d : Int) :
    key_direction_state_init KEY_DIRECTION_BIDIRECTIONAL =
        some { out_key := 0, in_key := 0, need_keys := 1 } ∧
    key_direction_state_init KEY_DIRECTION_NORMAL =
        some { out_key := 0, in_key := 1, need_keys := 2 } ∧
    key_direction_state_init KEY_DIRECTION_INVERSE =
        some { out_key := 1, in_key := 0, need_keys := 2 } ∧
    (key_direction_state_init d = none ↔
        d ≠ KEY_DIRECTION_BIDIRECTIONAL ∧ d ≠ KEY_DIRECTION_NORMAL ∧
        d ≠ KEY_DIRECTION_INVERSE) ∧
    (∃ a b, key_direction_state_init KEY_DIRECTION_NORMAL = some a ∧
        key_direction_state_init KEY_DIRECTION_INVERSE = some b ∧
        a.out_key = b.in_key ∧ b.out_key = a.in_key ∧ a.out_key ≠ a.in_key) := by
  refine ⟨by decide, by decide, by decide, ?_, ⟨_, _, rfl, rfl, by decide⟩⟩
  unfold key_direction_state_init
  split_ifs <;> simp_all

/-- The only way `setup_engine` does not return is `M_FATAL`. -/
theorem setup_engine_error (lib : EngineLib) (n : Option String) (a : Abort)
    (h : setup_engine lib n = .error a) : a = .fatal := by
  unfold setup_engine at h
  split at h
  · simp only at h
    split_ifs at h <;> cases h <;> rfl
  · cases h

/-- Process start satisfies the invariant. -/
theorem EngineInv_start : EngineInv EngineRun.start := by
  simp [EngineInv, EngineRun.start, EngineGlobals.initial, setups_since_teardown]

/-- Every call keeps the invariant. -/
theorem EngineInv_step (r : EngineRun) (c : EngineCall) (h : EngineInv r) :
    EngineInv (r.step c) := by
  obtain ⟨⟨ini, per⟩, tr, ab⟩ := r
  obtain ⟨h1, h2, h3, h4⟩ := h
  simp only at h1 h2 h3 h4
  cases ab with
  | some a => exact ⟨h1, h2, h3, h4⟩
  | none =>
    cases c with
    | uninit =>
      cases ini <;>
        simp_all [EngineInv, EngineRun.step, crypto_uninit_lib, setups_since_teardown]
    | init lib name =>
      cases ini with
      | true => exact ⟨h1, h2, h3, h4⟩
      | false =>
        have hp : per = none := h1 rfl
        subst hp
        simp only [EngineRun.step, crypto_init_lib_engine]
        cases hs : setup_engine lib (some name) with
        | error a =>
          have ha := setup_engine_error lib _ a hs
          subst ha
          simp_all [EngineInv, setups_since_teardown]
        | ok e =>
          simp_all [EngineInv, setups_since_teardown]

/-- A sequence of calls keeps the invariant. -/
theorem EngineInv_foldl (calls : List EngineCall) (r : EngineRun) (h : EngineInv r) :
    EngineInv (calls.foldl EngineRun.step r) := by
  induction calls generalizing r with
  | nil => exact h
  | cons c cs ih => exact ih _ (EngineInv_step r c h)

/-- Every run from process start satisfies the invariant. -/
theorem EngineInv_run (calls : List EngineCall) : EngineInv (EngineRun.run calls) :=
  EngineInv_foldl calls _ EngineInv_start

/-- C10: after any sequence of `crypto_init_lib_engine` (non-null name) and
`crypto_uninit_lib` calls from process start: `engine_persist` is `NULL` unless
`engine_initialized` is true, and `ASSERT (!engine_persist)` has not failed; a further
`crypto_init_lib_engine` call enters `setup_engine` exactly when the process is still
running and `engine_initialized` is false, a further `crypto_uninit_lib` call never does;
`setup_engine` has been entered at most once since the last `crypto_uninit_lib` call; and
`crypto_uninit_lib` leaves both globals at their initial values. -/
theorem C10_engine_globals (calls : List EngineCall) (lib : EngineLib) (name : String) :
    ((EngineRun.run calls).globals.engine_initialized = true ∨
        (EngineRun.run calls).globals.engine_persist = none) ∧
    (EngineRun.run calls).abort ≠ some .assert_engine_persist ∧
    ((EngineRun.run calls).step (.init lib name)).abort ≠ some .assert_engine_persist ∧
    ((EngineRun.run calls).step (.init lib name)).trace =
        (if (EngineRun.run calls).abort = none ∧
            (EngineRun.run calls).globals.engine_initialized = false
         then .setup_engine (some name) :: (EngineRun.run calls).trace
         else (EngineRun.run calls).trace) ∧
    ((EngineRun.run calls).step .uninit).trace ∈
        [(EngineRun.run calls).trace,
         .crypto_uninit_lib :: (EngineRun.run calls).trace,
         .ENGINE_cleanup :: .crypto_uninit_lib :: (EngineRun.run calls).trace] ∧
    setups_since_teardown (EngineRun.run calls).trace ≤ 1 ∧
    (crypto_uninit_lib (EngineRun.run calls)).globals = EngineGlobals.initial := by
  have hinv := EngineInv_run calls
  have hnext := EngineInv_step _ (.init lib name) hinv
  generalize EngineRun.run calls = r at hinv hnext
  obtain ⟨⟨ini, per⟩, tr, ab⟩ := r
  obtain ⟨h1, h2, h3, h4⟩ := hinv
  simp only at h1 h2 h3 h4
  refine ⟨?_, h2, hnext.2.1, ?_, ?_, ?_, ?_⟩
  · cases ini
    · exact Or.inr (h1 rfl)
    · exact Or.inl rfl
  · cases ab with
    | some a => simp [EngineRun.step]
    | none =>
      cases ini with
      | true => simp [EngineRun.step, crypto_init_lib_engine]
      | false =>
        have hp : per = none := h1 rfl
        subst hp
        simp only [EngineRun.step, crypto_init_lib_engine]
        cases hs : setup_engine lib (some name) <;> simp
  · cases ab with
    | some a => simp [EngineRun.step]
    | none => cases ini <;> simp [EngineRun.step, crypto_uninit_lib]
  · rw [h4]; split_ifs <;> omega
  · cases ini with
    | true => simp [crypto_uninit_lib, EngineGlobals.initial]
    | false =>
      have hp : per = none := h1 rfl
      subst hp
      simp [crypto_uninit_lib, EngineGlobals.initial]

/-! ### Routes -/

/-- C15: the state codes are strictly increasing in the documented client handshake
order, and `S_SENT_KEY + 1 = S_GOT_KEY`. -/
theorem C15_state_codes_increasing :
    S_ERROR < S_UNDEF ∧ S_UNDEF < S_INITIAL ∧ S_INITIAL < S_PRE_START ∧
    S_PRE_START < S_START ∧ S_START < S_SENT_KEY ∧ S_SENT_KEY < S_GOT_KEY ∧
    S_GOT_KEY < S_ACTIVE ∧ S_ACTIVE < S_NORMAL_OP ∧
    key_states.Pairwise (fun a b => a < b) ∧
    S_SENT_KEY + 1 = S_GOT_KEY := by
  decide

/-- Different prefix lengths in 0..32 give different masks. -/
theorem netbits_to_netmask_inj (i j : Nat) (hi : i ≤ 32) (hj : j ≤ 32)
    (h : netbits_to_netmask i = netbits_to_netmask j) : i = j := by
  have key : ∀ a : Fin 33, ∀ b : Fin 33,
      netbits_to_netmask a.val = netbits_to_netmask b.val → a = b := by decide
  have := key ⟨i, by omega⟩ ⟨j, by omega⟩ h
  simpa using congrArg Fin.val this

/-- The loop of `netmask_to_netbits` finds the prefix length of a prefix mask among the
values of `i` it still has to try, and otherwise leaves `*netbits` alone. -/
theorem netmask_to_netbits_loop_spec (netmask : Nat) (netbits : Int) (k : Nat)
    (hk : k ≤ 33) :
    ((∀ i, 33 - k ≤ i → i ≤ 32 → netbits_to_netmask i ≠ netmask) →
      netmask_to_netbits_loop netmask netbits k = (false, netbits)) ∧
    (∀ i, 33 - k ≤ i → i ≤ 32 → netbits_to_netmask i = netmask →
      netmask_to_netbits_loop netmask netbits k =
        (true, if i = 32 then -1 else (i : Int))) := by
  induction k with
  | zero =>
    refine ⟨fun _ => rfl, ?_⟩
    intro i h1 h2
    omega
  | succ n ih =>
    obtain ⟨ih1, ih2⟩ := ih (by omega)
    have hidx : addrlen - n = 32 - n := rfl
    refine ⟨?_, ?_⟩
    · intro hall
      have h0 := hall (32 - n) (by omega) (by omega)
      simp only [netmask_to_netbits_loop, hidx, h0, if_false]
      exact ih1 (fun i h1 h2 => hall i (by omega) h2)
    · intro i h1 h2 hm
      by_cases hfirst : netbits_to_netmask (32 - n) = netmask
      · have hij : 32 - n = i :=
          netbits_to_netmask_inj _ _ (by omega) h2 (hfirst.trans hm.symm)
        simp only [netmask_to_netbits_loop, hidx, hfirst, if_true, addrlen, hij]
        split_ifs <;> rfl
      · simp only [netmask_to_netbits_loop, hidx, hfirst, if_false]
        have hne : i ≠ 32 - n := fun hc => hfirst (hc ▸ hm)
        exact ih2 i (by omega) h2 hm

/-- A prefix mask of length `i` has its `i` leading bits set, of 32, and no other. -/
theorem netbits_to_netmask_bits (i p : Nat) (hi : i ≤ 32) (hp : p < 32) :
    (netbits_to_netmask i).testBit p = decide (32 - i ≤ p) := by
  have key : ∀ a : Fin 33, ∀ b : Fin 32,
      (netbits_to_netmask a.val).testBit b.val = decide (32 - a.val ≤ b.val) := by decide
  exact key ⟨i, by omega⟩ ⟨p, hp⟩

/-- C17: `netmask_to_netbits` returns true exactly when `(network & netmask) = network` and
`netmask` is the prefix mask of some `i` in 0..32 (`i` leading one bits); it then stores
`i` in `*netbits`, or -1 for `i = 32`; when it returns false `*netbits` is as on entry. -/
theorem C17_netmask_to_netbits (network netmask : Nat) (netbits : Int) :
    ((netmask_to_netbits network netmask netbits).1 = true ↔
      (network &&& netmask = network ∧ ∃ i, i ≤ 32 ∧ netbits_to_netmask i = netmask)) ∧
    (∀ i, i ≤ 32 → network &&& netmask = network → netbits_to_netmask i = netmask →
      netmask_to_netbits network netmask netbits =
        (true, if i = 32 then -1 else (i : Int))) ∧
    ((netmask_to_netbits network netmask netbits).1 = false →
      (netmask_to_netbits network netmask netbits).2 = netbits) ∧
    (∀ i p, i ≤ 32 → p < 32 →
      (netbits_to_netmask i).testBit p = decide (32 - i ≤ p)) := by
  obtain ⟨hnone, hsome⟩ := netmask_to_netbits_loop_spec netmask netbits 33 (by omega)
  have hfound : ∀ i, i ≤ 32 → network &&& netmask = network →
      netbits_to_netmask i = netmask →
      netmask_to_netbits network netmask netbits =
        (true, if i = 32 then -1 else (i : Int)) := by
    intro i hi hnet hm
    simp only [netmask_to_netbits, hnet, if_true, addrlen]
    exact hsome i (by omega) hi hm
  refine ⟨?_, hfound, ?_, fun i p hi hp => netbits_to_netmask_bits i p hi hp⟩
  · constructor
    · intro hret
      by_cases hnet : network &&& netmask = network
      · refine ⟨hnet, ?_⟩
        by_contra hex
        have hall : ∀ i, 33 - 33 ≤ i → i ≤ 32 → netbits_to_netmask i ≠ netmask :=
          fun i _ hi hm => hex ⟨i, hi, hm⟩
        simp only [netmask_to_netbits, hnet, if_true, addrlen, hnone hall] at hret
        cases hret
      · simp [netmask_to_netbits, hnet] at hret
    · rintro ⟨hnet, i, hi, hm⟩
      rw [hfound i hi hnet hm]
  · intro hret
    by_cases hnet : network &&& netmask = network
    · by_cases hex : ∃ i, i ≤ 32 ∧ netbits_to_netmask i = netmask
      · obtain ⟨i, hi, hm⟩ := hex
        rw [hfound i hi hnet hm] at hret
        cases hret
      · have hall : ∀ i, 33 - 33 ≤ i → i ≤ 32 → netbits_to_netmask i ≠ netmask :=
          fun i _ hi hm => hex ⟨i, hi, hm⟩
        simp only [netmask_to_netbits, hnet, if_true, addrlen, hnone hall]
    · simp [netmask_to_netbits, hnet]

/-- The loop of `test_local_addr` gives `TLA_LOCAL` (as stored in a `bool`) when some row
matches, and otherwise the value it started from. -/
theorem test_local_addr_loop_spec (codes : tla_codes) (as_bool : Int → Int)
    (ntohl : Nat → Nat) (addr : Nat) (table : List MIB_IPFORWARDROW) (ret : Int) :
    ((∃ row ∈ table, ntohl row.dwForwardMask > nonlocal_netmask ∧
        addr &&& ntohl row.dwForwardMask = ntohl row.dwForwardDest) →
      test_local_addr_loop codes as_bool ntohl addr table ret = as_bool codes.TLA_LOCAL) ∧
    ((¬ ∃ row ∈ table, ntohl row.dwForwardMask > nonlocal_netmask ∧
        addr &&& ntohl row.dwForwardMask = ntohl row.dwForwardDest) →
      test_local_addr_loop codes as_bool ntohl addr table ret = ret) := by
  induction table with
  | nil =>
    refine ⟨?_, fun _ => rfl⟩
    rintro ⟨row, hrow, _⟩
    cases hrow
  | cons row rest ih =>
    by_cases hrow : ntohl row.dwForwardMask > nonlocal_netmask ∧
        addr &&& ntohl row.dwForwardMask = ntohl row.dwForwardDest
    · refine ⟨fun _ => by simp only [test_local_addr_loop, hrow, and_self, if_true], ?_⟩
      intro hno
      exact absurd ⟨row, List.mem_cons_self _ _, hrow⟩ hno
    · have hstep : test_local_addr_loop codes as_bool ntohl addr (row :: rest) ret =
          test_local_addr_loop codes as_bool ntohl addr rest ret := by
        simp only [test_local_addr_loop, hrow, if_false]
      rw [hstep]
      refine ⟨?_, ?_⟩
      · rintro ⟨r, hr, hm⟩
        rcases List.mem_cons.mp hr with h | h
        · exact absurd (h ▸ hm) hrow
        · exact ih.1 ⟨r, h, hm⟩
      · intro hno
        exact ih.2 (fun ⟨r, hr, hm⟩ => hno ⟨r, List.mem_cons_of_mem _ hr, hm⟩)

/-- C11: where storing a result code in the `bool` variable `ret` keeps it, the WIN32
`test_local_addr` returns `TLA_LOCAL` exactly when some routing-table row has
`mask > 0x80000000` and `(addr & mask) = net`, and `TLA_NONLOCAL` otherwise, in particular
when the routing table cannot be read; the variant of the other platforms returns
`TLA_NOT_IMPLEMENTED`. -/
theorem C11_test_local_addr (codes : tla_codes) (as_bool : Int → Int) (ntohl : Nat → Nat)
    (rt : Option (List MIB_IPFORWARDROW)) (addr : Nat)
    (hnonlocal : as_bool codes.TLA_NONLOCAL = codes.TLA_NONLOCAL)
    (hlocal : as_bool codes.TLA_LOCAL = codes.TLA_LOCAL)
    (hdistinct : codes.TLA_LOCAL ≠ codes.TLA_NONLOCAL) :
    (test_local_addr codes as_bool ntohl rt addr = codes.TLA_LOCAL ↔
      local_row_exists ntohl rt addr) ∧
    (test_local_addr codes as_bool ntohl rt addr = codes.TLA_NONLOCAL ↔
      ¬ local_row_exists ntohl rt addr) ∧
    test_local_addr codes as_bool ntohl none addr = codes.TLA_NONLOCAL ∧
    test_local_addr_not_implemented codes addr = codes.TLA_NOT_IMPLEMENTED := by
  have hval : (local_row_exists ntohl rt addr ∧
        test_local_addr codes as_bool ntohl rt addr = codes.TLA_LOCAL) ∨
      (¬ local_row_exists ntohl rt addr ∧
        test_local_addr codes as_bool ntohl rt addr = codes.TLA_NONLOCAL) := by
    cases rt with
    | none =>
      have hno : ¬ local_row_exists ntohl none addr := by
        rintro ⟨t, ht, _⟩
        cases ht
      exact Or.inr ⟨hno, by simp only [test_local_addr, hnonlocal]⟩
    | some table =>
      obtain ⟨h1, h2⟩ := test_local_addr_loop_spec codes as_bool ntohl addr table
        (as_bool codes.TLA_NONLOCAL)
      by_cases hex : ∃ row ∈ table, ntohl row.dwForwardMask > nonlocal_netmask ∧
          addr &&& ntohl row.dwForwardMask = ntohl row.dwForwardDest
      · have hl : local_row_exists ntohl (some table) addr := ⟨table, rfl, hex⟩
        exact Or.inl ⟨hl, (h1 hex).trans hlocal⟩
      · have hl : ¬ local_row_exists ntohl (some table) addr := by
          rintro ⟨t, ht, hrow⟩
          cases ht
          exact hex hrow
        exact Or.inr ⟨hl, (h2 hex).trans hnonlocal⟩
  refine ⟨?_, ?_, ?_, rfl⟩
  · rcases hval with ⟨h, hv⟩ | ⟨h, hv⟩
    · simp [h, hv]
    · simp [h, hv, hdistinct.symm]
  · rcases hval with ⟨h, hv⟩ | ⟨h, hv⟩
    · simp [h, hv, hdistinct]
    · simp [h, hv]
  · simp only [test_local_addr, hnonlocal]

/-- C11 witness: with codes 0, 1, 2 kept by `bool`, the address 10.8.0.5 is local to a
table holding the row 10.8.0.0/255.255.255.0. -/
theorem C11_test_local_addr_witness :
    (test_local_addr demo_tla_codes id id (some [⟨0x0A080000, 0xFFFFFF00⟩]) 0x0A080005 =
        demo_tla_codes.TLA_LOCAL ↔
      local_row_exists id (some [⟨0x0A080000, 0xFFFFFF00⟩]) 0x0A080005) ∧
    (test_local_addr demo_tla_codes id id (some [⟨0x0A080000, 0xFFFFFF00⟩]) 0x0A080005 =
        demo_tla_codes.TLA_NONLOCAL ↔
      ¬ local_row_exists id (some [⟨0x0A080000, 0xFFFFFF00⟩]) 0x0A080005) ∧
    test_local_addr demo_tla_codes id id none 0x0A080005 = demo_tla_codes.TLA_NONLOCAL ∧
    test_local_addr_not_implemented demo_tla_codes 0x0A080005 =
      demo_tla_codes.TLA_NOT_IMPLEMENTED :=
  C11_test_local_addr demo_tla_codes id id (some [⟨0x0A080000, 0xFFFFFF00⟩]) 0x0A080005
    rfl rfl (by decide)

/-- C12: after `add_route`, `r.defined` is true exactly when the route was defined on
entry, is not a no-op route (network = gateway with netmask 0xFFFFFFFF) and the platform's
route-add command reported success; a route undefined on entry or a no-op route causes no
route command, any other route exactly one; the other fields are unchanged. -/
theorem C12_add_route (route_add : route → Bool) (r : route) :
    ((add_route route_add r).1.defined = true ↔
      (r.defined = true ∧ ¬ (r.network = r.gateway ∧ r.netmask = 0xFFFFFFFF) ∧
        route_add r = true)) ∧
    ((add_route route_add r).2 =
      if r.defined = false ∨ (r.network = r.gateway ∧ r.netmask = 0xFFFFFFFF) then []
      else [r]) ∧
    (add_route route_add r).1 = { r with defined := (add_route route_add r).1.defined } := by
  obtain ⟨d, o, nw, nm, gw, md, m⟩ := r
  unfold add_route
  cases d <;> by_cases hn : nw = gw ∧ nm = 0xFFFFFFFF <;> simp [hn]

/-- C13: with `0 ≤ n` and an array of `capacity` entries: if `n < capacity`,
`add_route_to_option_list` stores the four parameters at index `n`, increases `n` by one
and leaves the other entries, `flags` and `capacity` unchanged; if `n ≥ capacity` it ends
in the fatal error and stores nothing; so `0 ≤ n ≤ capacity` is kept.  The same holds for
`add_route_ipv6_to_option_list`. -/
theorem C13_add_route_to_option_list (l : route_option_list) (l6 : route_ipv6_option_list)
    (network netmask gateway metric prefix_ : Option String)
    (h0 : 0 ≤ l.n) (hlen : (l.routes.length : Int) = l.capacity)
    (h06 : 0 ≤ l6.n) (hlen6 : (l6.routes_ipv6.length : Int) = l6.capacity) :
    (l.n ≥ l.capacity →
      add_route_to_option_list l network netmask gateway metric = none) ∧
    (l.n < l.capacity →
      ∃ l', add_route_to_option_list l network netmask gateway metric = some l' ∧
        l'.n = l.n + 1 ∧ 0 ≤ l'.n ∧ l'.n ≤ l'.capacity ∧
        l'.flags = l.flags ∧ l'.capacity = l.capacity ∧
        (l'.routes.length : Int) = l'.capacity ∧
        l'.routes[l.n.toNat]? = some
          { network := network, netmask := netmask, gateway := gateway, metric := metric } ∧
        ∀ i, i ≠ l.n.toNat → l'.routes[i]? = l.routes[i]?) ∧
    (l6.n ≥ l6.capacity →
      add_route_ipv6_to_option_list l6 prefix_ gateway metric = none) ∧
    (l6.n < l6.capacity →
      ∃ l', add_route_ipv6_to_option_list l6 prefix_ gateway metric = some l' ∧
        l'.n = l6.n + 1 ∧ 0 ≤ l'.n ∧ l'.n ≤ l'.capacity ∧
        l'.flags = l6.flags ∧ l'.capacity = l6.capacity ∧
        (l'.routes_ipv6.length : Int) = l'.capacity ∧
        l'.routes_ipv6[l6.n.toNat]? = some
          { prefix_ := prefix_, gateway := gateway, metric := metric } ∧
        ∀ i, i ≠ l6.n.toNat → l'.routes_ipv6[i]? = l6.routes_ipv6[i]?) := by
  refine ⟨?_, ?_, ?_, ?_⟩
  · intro h
    simp [add_route_to_option_list, h]
  · intro h
    have hnot : ¬ l.n ≥ l.capacity := by omega
    have hidx : l.n.toNat < l.routes.length := by omega
    refine ⟨{ l with
        routes := l.routes.set l.n.toNat
          { network := network, netmask := netmask, gateway := gateway, metric := metric }
        n := l.n + 1 },
      by simp only [add_route_to_option_list, hnot, if_false], rfl, ?_, ?_, rfl, rfl,
      ?_, ?_, ?_⟩
    · show 0 ≤ l.n + 1
      omega
    · show l.n + 1 ≤ l.capacity
      omega
    · simpa using hlen
    · exact List.getElem?_set_self hidx
    · intro i hi
      exact List.getElem?_set_ne (fun h => hi h.symm)
  · intro h
    simp [add_route_ipv6_to_option_list, h]
  · intro h
    have hnot : ¬ l6.n ≥ l6.capacity := by omega
    have hidx : l6.n.toNat < l6.routes_ipv6.length := by omega
    refine ⟨{ l6 with
        routes_ipv6 := l6.routes_ipv6.set l6.n.toNat
          { prefix_ := prefix_, gateway := gateway, metric := metric }
        n := l6.n + 1 },
      by simp only [add_route_ipv6_to_option_list, hnot, if_false], rfl, ?_, ?_, rfl,
      rfl, ?_, ?_, ?_⟩
    · show 0 ≤ l6.n + 1
      omega
    · show l6.n + 1 ≤ l6.capacity
      omega
    · simpa using hlen6
    · exact List.getElem?_set_self hidx
    · intro i hi
      exact List.getElem?_set_ne (fun h => hi h.symm)

/-- C13 witness: one more option fits the example list of capacity 2 and lands at index
1; the full IPv6 example list takes no more. -/
theorem C13_add_route_to_option_list_witness :
    (∃ l', add_route_to_option_list demo_option_list (some "192.168.0.0")
          (some "255.255.0.0") (some "vpn_gateway") none = some l' ∧
        l'.n = demo_option_list.n + 1 ∧ 0 ≤ l'.n ∧ l'.n ≤ l'.capacity ∧
        l'.flags = demo_option_list.flags ∧ l'.capacity = demo_option_list.capacity ∧
        (l'.routes.length : Int) = l'.capacity ∧
        l'.routes[demo_option_list.n.toNat]? = some
          { network := some "192.168.0.0", netmask := some "255.255.0.0",
            gateway := some "vpn_gateway", metric := none } ∧
        ∀ i, i ≠ demo_option_list.n.toNat → l'.routes[i]? = demo_option_list.routes[i]?) ∧
    add_route_ipv6_to_option_list demo_ipv6_option_list (some "fd00::/8")
      (some "vpn_gateway") none = none :=
  ⟨(C13_add_route_to_option_list demo_option_list demo_ipv6_option_list
      (some "192.168.0.0") (some "255.255.0.0") (some "vpn_gateway") none (some "fd00::/8")
      (by decide) (by decide) (by decide) (by decide)).2.1 (by decide),
   (C13_add_route_to_option_list demo_option_list demo_ipv6_option_list
      (some "192.168.0.0") (some "255.255.0.0") (some "vpn_gateway") none (some "fd00::/8")
      (by decide) (by decide) (by decide) (by decide)).2.2.1 (by decide)⟩

/-- Whether a string is a special name does not depend on `*out`. -/
theorem get_special_addr_ret (spec : route_special_addr) (s : String) (o : Nat) :
    (get_special_addr spec s o).ret = (get_special_addr spec s 0).ret := by
  unfold get_special_addr
  split_ifs <;> rfl

/-- Whether a special name has a value does not depend on `*out`. -/
theorem get_special_addr_status (spec : route_special_addr) (s : String) (o : Nat) :
    (get_special_addr spec s o).status = (get_special_addr spec s 0).status := by
  unfold get_special_addr
  split_ifs <;> rfl

/-- The function `get_special_addr` against the specification's reading of the special
names: it recognises exactly "vpn_gateway", "net_gateway" and "remote_host", and reports the
status of the `spec` field that belongs to the name. -/
theorem addr_resolves_special (env : route_env) (spec : route_special_addr)
    (special resolve : Bool) (parm : Option String) :
    addr_resolves env spec special resolve parm =
      if special && (get_special_addr spec (parm.getD "") 0).ret then
        (get_special_addr spec (parm.getD "") 0).status
      else (env.getaddr_multi resolve (parm.getD "")).succeeded := by
  unfold addr_resolves get_special_addr
  cases special <;>
  by_cases h1 : parm.getD "" = "vpn_gateway" <;>
  by_cases h2 : parm.getD "" = "net_gateway" <;>
  by_cases h3 : parm.getD "" = "remote_host" <;>
  cases h4 : spec.remote_endpoint_defined <;>
  cases h5 : spec.net_gateway_defined <;>
  cases h6 : spec.remote_host_defined <;>
  simp [h1, h2, h3]

/-- The address `get_special_addr` stores for a special name whose value is defined is the
`spec` field that belongs to the name. -/
theorem addr_value_special (env : route_env) (spec : route_special_addr) (resolve : Bool)
    (parm : Option String) (o : Nat)
    (hr : (get_special_addr spec (parm.getD "") 0).ret = true)
    (hs : (get_special_addr spec (parm.getD "") 0).status = true) :
    (get_special_addr spec (parm.getD "") o).out = addr_value env spec true resolve parm := by
  revert hr hs
  unfold addr_value get_special_addr
  by_cases h1 : parm.getD "" = "vpn_gateway" <;>
  by_cases h2 : parm.getD "" = "net_gateway" <;>
  by_cases h3 : parm.getD "" = "remote_host" <;>
  cases h4 : spec.remote_endpoint_defined <;>
  cases h5 : spec.net_gateway_defined <;>
  cases h6 : spec.remote_host_defined <;>
  simp [h1, h2, h3]

/-- A string that `get_special_addr` does not recognise stands for what `getaddr_multi`
returns. -/
theorem addr_value_other (env : route_env) (spec : route_special_addr)
    (special resolve : Bool) (parm : Option String)
    (hr : special = false ∨ (get_special_addr spec (parm.getD "") 0).ret = false) :
    addr_value env spec special resolve parm =
      (env.getaddr_multi resolve (parm.getD "")).addr := by
  revert hr
  unfold addr_value get_special_addr
  cases special <;>
  by_cases h1 : parm.getD "" = "vpn_gateway" <;>
  by_cases h2 : parm.getD "" = "net_gateway" <;>
  by_cases h3 : parm.getD "" = "remote_host" <;>
  cases h4 : spec.remote_endpoint_defined <;>
  cases h5 : spec.net_gateway_defined <;>
  cases h6 : spec.remote_host_defined <;>
  simp [h1, h2, h3]

/-- The metric part of `init_route` succeeds unless a given metric is negative. -/
theorem init_route_metric_spec (env : route_env) (r : route) (nl : List Nat)
    (ro : route_option) (spec : route_special_addr) :
    (init_route_metric env r nl ro spec).ret = (init_route_metric env r nl ro spec).r.defined ∧
    ((init_route_metric env r nl ro spec).ret = true ↔
      (is_route_parm_defined ro.metric = true → 0 ≤ env.atoi (ro.metric.getD ""))) ∧
    ((init_route_metric env r nl ro spec).ret = true →
      (init_route_metric env r nl ro spec).r.netmask = r.netmask ∧
      (init_route_metric env r nl ro spec).r.gateway = r.gateway ∧
      (init_route_metric env r nl ro spec).r.network = r.network ∧
      (init_route_metric env r nl ro spec).r.option = r.option ∧
      (init_route_metric env r nl ro spec).network_list = nl ∧
      ((init_route_metric env r nl ro spec).r.metric_defined = true ↔
        (is_route_parm_defined ro.metric = true ∨ spec.default_metric_defined = true))) := by
  unfold init_route_metric init_route_fail
  cases hm : is_route_parm_defined ro.metric <;>
  cases hd : spec.default_metric_defined <;>
  by_cases hneg : env.atoi (ro.metric.getD "") < 0 <;>
  simp [hneg] <;> omega

/-- The gateway part of `init_route`: it goes on to the metric part exactly when a given
gateway resolves, or none is given and `spec` has a remote endpoint. -/
theorem init_route_gateway_spec (env : route_env) (r : route) (nl : List Nat)
    (ro : route_option) (spec : route_special_addr) :
    (init_route_gateway env r nl ro spec).ret =
      (init_route_gateway env r nl ro spec).r.defined ∧
    ((init_route_gateway env r nl ro spec).ret = true ↔
      ((is_route_parm_defined ro.gateway = true →
          addr_resolves env spec true true ro.gateway = true) ∧
        (is_route_parm_defined ro.gateway = false → spec.remote_endpoint_defined = true) ∧
        (is_route_parm_defined ro.metric = true → 0 ≤ env.atoi (ro.metric.getD "")))) ∧
    ((init_route_gateway env r nl ro spec).ret = true →
      (init_route_gateway env r nl ro spec).r.netmask = r.netmask ∧
      (init_route_gateway env r nl ro spec).r.network = r.network ∧
      (init_route_gateway env r nl ro spec).r.option = r.option ∧
      (init_route_gateway env r nl ro spec).network_list = nl ∧
      (is_route_parm_defined ro.gateway = false →
        (init_route_gateway env r nl ro spec).r.gateway = spec.remote_endpoint) ∧
      ((init_route_gateway env r nl ro spec).r.metric_defined = true ↔
        (is_route_parm_defined ro.metric = true ∨ spec.default_metric_defined = true))) := by
  have hm := fun r' => init_route_metric_spec env r' nl ro spec
  have hret := get_special_addr_ret spec (ro.gateway.getD "") r.gateway
  have hst := get_special_addr_status spec (ro.gateway.getD "") r.gateway
  rw [addr_resolves_special]
  unfold init_route_gateway
  cases hg : is_route_parm_defined ro.gateway
  · cases hre : spec.remote_endpoint_defined
    · simp [init_route_fail]
    · obtain ⟨m1, m2, m3⟩ := hm { r with gateway := spec.remote_endpoint }
      simp only [Bool.false_eq_true, if_false, if_true]
      refine ⟨m1, ?_, ?_⟩
      · rw [m2]; simp
      · intro h
        obtain ⟨a, b, c, d, e, f⟩ := m3 h
        exact ⟨a, c, d, e, fun _ => b, f⟩
  · simp only [if_true, hret, hst]
    cases hsr : (get_special_addr spec (ro.gateway.getD "") 0).ret
    · cases hgs : (env.getaddr_multi true (ro.gateway.getD "")).succeeded
      · simp [init_route_fail, hgs]
      · obtain ⟨m1, m2, m3⟩ :=
          hm { r with gateway := (env.getaddr_multi true (ro.gateway.getD "")).addr }
        simp only [Bool.not_false, if_true, hgs, Bool.not_true, Bool.false_eq_true, if_false,
          Bool.and_false]
        refine ⟨m1, ?_, ?_⟩
        · rw [m2]; simp
        · intro h
          obtain ⟨a, b, c, d, e, f⟩ := m3 h
          exact ⟨a, c, d, e, fun hc => (by cases hc), f⟩
    · cases hss : (get_special_addr spec (ro.gateway.getD "") 0).status
      · simp [init_route_fail]
      · obtain ⟨m1, m2, m3⟩ :=
          hm { r with gateway := (get_special_addr spec (ro.gateway.getD "") r.gateway).out }
        simp only [Bool.not_true, Bool.false_eq_true, if_false, Bool.and_true, if_true]
        refine ⟨m1, ?_, ?_⟩
        · rw [m2]; simp
        · intro h
          obtain ⟨a, b, c, d, e, f⟩ := m3 h
          exact ⟨a, c, d, e, fun hc => (by cases hc), f⟩

/-- The netmask part of `init_route`: it goes on to the gateway part unless a given
netmask fails to parse. -/
theorem init_route_netmask_spec (env : route_env) (r : route) (nl : List Nat)
    (ro : route_option) (spec : route_special_addr) :
    (init_route_netmask env r nl ro spec).ret =
      (init_route_netmask env r nl ro spec).r.defined ∧
    ((init_route_netmask env r nl ro spec).ret = true ↔
      ((is_route_parm_defined ro.netmask = true →
          addr_resolves env spec false false ro.netmask = true) ∧
        (is_route_parm_defined ro.gateway = true →
          addr_resolves env spec true true ro.gateway = true) ∧
        (is_route_parm_defined ro.gateway = false → spec.remote_endpoint_defined = true) ∧
        (is_route_parm_defined ro.metric = true → 0 ≤ env.atoi (ro.metric.getD "")))) ∧
    ((init_route_netmask env r nl ro spec).ret = true →
      (init_route_netmask env r nl ro spec).r.network = r.network ∧
      (init_route_netmask env r nl ro spec).r.option = r.option ∧
      (init_route_netmask env r nl ro spec).network_list = nl ∧
      (is_route_parm_defined ro.netmask = false →
        (init_route_netmask env r nl ro spec).r.netmask = 0xFFFFFFFF) ∧
      (is_route_parm_defined ro.gateway = false →
        (init_route_netmask env r nl ro spec).r.gateway = spec.remote_endpoint) ∧
      ((init_route_netmask env r nl ro spec).r.metric_defined = true ↔
        (is_route_parm_defined ro.metric = true ∨ spec.default_metric_defined = true))) := by
  have hg := fun r' => init_route_gateway_spec env r' nl ro spec
  have hnm : addr_resolves env spec false false ro.netmask =
      (env.getaddr_multi false (ro.netmask.getD "")).succeeded := by
    rw [addr_resolves_special]; simp
  rw [hnm]
  unfold init_route_netmask
  cases hn : is_route_parm_defined ro.netmask
  · obtain ⟨g1, g2, g3⟩ := hg { r with netmask := default_netmask }
    simp only [Bool.false_eq_true, if_false]
    refine ⟨g1, ?_, ?_⟩
    · rw [g2]; simp
    · intro h
      obtain ⟨a, b, c, d, e, f⟩ := g3 h
      exact ⟨b, c, d, fun _ => a, e, f⟩
  · cases hs : (env.getaddr_multi false (ro.netmask.getD "")).succeeded
    · simp [init_route_fail, hs]
    · obtain ⟨g1, g2, g3⟩ :=
        hg { r with netmask := (env.getaddr_multi false (ro.netmask.getD "")).addr }
      simp only [if_true, hs, Bool.not_true, Bool.false_eq_true, if_false, Bool.false_and]
      refine ⟨g1, ?_, ?_⟩
      · rw [g2]; simp
      · intro h
        obtain ⟨a, b, c, d, e, f⟩ := g3 h
        exact ⟨b, c, d, fun hc => (by cases hc), e, f⟩

/-- The function `init_route` returns true exactly when `r->defined` is true on return; it
succeeds exactly when the network is given and resolves, a given netmask parses, a given
gateway resolves or, none being given, `spec` has a remote endpoint, and a given metric is
not negative; and on success the defaults are filled in. -/
theorem init_route_spec (env : route_env) (r : route) (nl : List Nat)
    (ro : route_option) (spec : route_special_addr) :
    (init_route env r nl ro spec).ret = (init_route env r nl ro spec).r.defined ∧
    ((init_route env r nl ro spec).ret = true ↔
      (is_route_parm_defined ro.network = true ∧
        addr_resolves env spec true true ro.network = true ∧
        (is_route_parm_defined ro.netmask = true →
          addr_resolves env spec false false ro.netmask = true) ∧
        (is_route_parm_defined ro.gateway = true →
          addr_resolves env spec true true ro.gateway = true) ∧
        (is_route_parm_defined ro.gateway = false → spec.remote_endpoint_defined = true) ∧
        (is_route_parm_defined ro.metric = true → 0 ≤ env.atoi (ro.metric.getD "")))) ∧
    ((init_route env r nl ro spec).ret = true →
      (init_route env r nl ro spec).r.option = some ro ∧
      (is_route_parm_defined ro.netmask = false →
        (init_route env r nl ro spec).r.netmask = 0xFFFFFFFF) ∧
      (is_route_parm_defined ro.gateway = false →
        (init_route env r nl ro spec).r.gateway = spec.remote_endpoint) ∧
      ((init_route env r nl ro spec).r.metric_defined = true ↔
        (is_route_parm_defined ro.metric = true ∨ spec.default_metric_defined = true))) ∧
    (is_route_parm_defined none = false ∧ is_route_parm_defined (some "default") = false) := by
  have hn := fun r' nl' => init_route_netmask_spec env r' nl' ro spec
  have hret := get_special_addr_ret spec (ro.network.getD "") r.network
  have hst := get_special_addr_status spec (ro.network.getD "") r.network
  have hnet : addr_resolves env spec true true ro.network =
      if (get_special_addr spec (ro.network.getD "") 0).ret then
        (get_special_addr spec (ro.network.getD "") 0).status
      else (env.getaddr_multi true (ro.network.getD "")).succeeded := by
    rw [addr_resolves_special]; simp
  rw [hnet]
  refine ⟨?_, ?_, ?_, by decide, by decide⟩ <;> unfold init_route <;>
    cases hd : is_route_parm_defined ro.network
  all_goals try (simp [init_route_fail]; done)
  all_goals simp only [Bool.not_true, Bool.false_eq_true, if_false, hret, hst, Bool.true_and]
  all_goals cases hsr : (get_special_addr spec (ro.network.getD "") 0).ret
  all_goals simp only [Bool.not_false, Bool.not_true, Bool.false_eq_true, if_true, if_false]
  · cases hgs : (env.getaddr_multi true (ro.network.getD "")).succeeded
    · simp [init_route_fail]
    · exact (hn _ _).1
  · cases hss : (get_special_addr spec (ro.network.getD "") 0).status
    · simp [init_route_fail]
    · exact (hn _ _).1
  · cases hgs : (env.getaddr_multi true (ro.network.getD "")).succeeded
    · simp [init_route_fail]
    · simp only [Bool.not_true, Bool.false_eq_true, if_false, true_and]
      exact (hn _ _).2.1
  · cases hss : (get_special_addr spec (ro.network.getD "") 0).status
    · simp [init_route_fail]
    · simp only [Bool.not_true, Bool.false_eq_true, if_false, true_and]
      exact (hn _ _).2.1
  · cases hgs : (env.getaddr_multi true (ro.network.getD "")).succeeded
    · simp [init_route_fail]
    · simp only [Bool.not_true, Bool.false_eq_true, if_false]
      intro h
      obtain ⟨a, b, c, d, e, f⟩ := (hn _ _).2.2 h
      exact ⟨b, d, e, f⟩
  · cases hss : (get_special_addr spec (ro.network.getD "") 0).status
    · simp [init_route_fail]
    · simp only [Bool.not_true, Bool.false_eq_true, if_false]
      intro h
      obtain ⟨a, b, c, d, e, f⟩ := (hn _ _).2.2 h
      exact ⟨b, d, e, f⟩

/-- The gateway part of `init_route`: on success a given gateway is stored as the address
it stands for. -/
theorem init_route_gateway_value (env : route_env) (r : route) (nl : List Nat)
    (ro : route_option) (spec : route_special_addr)
    (h : (init_route_gateway env r nl ro spec).ret = true)
    (hg : is_route_parm_defined ro.gateway = true) :
    (init_route_gateway env r nl ro spec).r.gateway =
      addr_value env spec true true ro.gateway := by
  have hm := fun r' => (init_route_metric_spec env r' nl ro spec).2.2
  have hret := get_special_addr_ret spec (ro.gateway.getD "") r.gateway
  have hst := get_special_addr_status spec (ro.gateway.getD "") r.gateway
  unfold init_route_gateway at h ⊢
  simp only [hg, if_true, hret, hst] at h ⊢
  cases hsr : (get_special_addr spec (ro.gateway.getD "") 0).ret
  · simp only [hsr, Bool.not_false, if_true] at h ⊢
    cases hgs : (env.getaddr_multi true (ro.gateway.getD "")).succeeded
    · simp [hgs, init_route_fail] at h
    · simp only [hgs, Bool.not_true, Bool.false_eq_true, if_false] at h ⊢
      rw [(hm _ h).2.1, addr_value_other env spec true true ro.gateway (Or.inr hsr)]
  · simp only [hsr, Bool.not_true, Bool.false_eq_true, if_false] at h ⊢
    cases hss : (get_special_addr spec (ro.gateway.getD "") 0).status
    · simp [hss, init_route_fail] at h
    · simp only [hss, Bool.not_true, Bool.false_eq_true, if_false] at h ⊢
      rw [(hm _ h).2.1]
      exact addr_value_special env spec true ro.gateway r.gateway hsr hss

/-- The netmask part of `init_route`: on success a given netmask and a given gateway are
stored as the addresses they stand for. -/
theorem init_route_netmask_value (env : route_env) (r : route) (nl : List Nat)
    (ro : route_option) (spec : route_special_addr)
    (h : (init_route_netmask env r nl ro spec).ret = true) :
    (is_route_parm_defined ro.netmask = true →
      (init_route_netmask env r nl ro spec).r.netmask =
        addr_value env spec false false ro.netmask) ∧
    (is_route_parm_defined ro.gateway = true →
      (init_route_netmask env r nl ro spec).r.gateway =
        addr_value env spec true true ro.gateway) := by
  have hg := fun r' => (init_route_gateway_spec env r' nl ro spec).2.2
  have hv := fun r' => init_route_gateway_value env r' nl ro spec
  unfold init_route_netmask at h ⊢
  cases hn : is_route_parm_defined ro.netmask
  · simp only [hn, Bool.false_eq_true, if_false] at h ⊢
    exact ⟨fun hc => (by cases hc), hv _ h⟩
  · simp only [hn, if_true] at h ⊢
    cases hs : (env.getaddr_multi false (ro.netmask.getD "")).succeeded
    · simp [hs, init_route_fail] at h
    · simp only [hs, Bool.not_true, Bool.false_eq_true, if_false] at h ⊢
      refine ⟨fun _ => ?_, hv _ h⟩
      rw [(hg _ h).1, addr_value_other env spec false false ro.netmask (Or.inl rfl)]

/-- The function `init_route`: on success the network, a given netmask and a given gateway
are stored as the addresses they stand for. -/
theorem init_route_value (env : route_env) (r : route) (nl : List Nat)
    (ro : route_option) (spec : route_special_addr)
    (h : (init_route env r nl ro spec).ret = true) :
    (init_route env r nl ro spec).r.network = addr_value env spec true true ro.network ∧
    (is_route_parm_defined ro.netmask = true →
      (init_route env r nl ro spec).r.netmask =
        addr_value env spec false false ro.netmask) ∧
    (is_route_parm_defined ro.gateway = true →
      (init_route env r nl ro spec).r.gateway =
        addr_value env spec true true ro.gateway) := by
  have hn := fun r' nl' => (init_route_netmask_spec env r' nl' ro spec).2.2
  have hv := fun r' nl' => init_route_netmask_value env r' nl' ro spec
  have hret := get_special_addr_ret spec (ro.network.getD "") r.network
  have hst := get_special_addr_status spec (ro.network.getD "") r.network
  unfold init_route at h ⊢
  cases hd : is_route_parm_defined ro.network
  · simp [hd, init_route_fail] at h
  · simp only [hd, Bool.not_true, Bool.false_eq_true, if_false, hret, hst] at h ⊢
    cases hsr : (get_special_addr spec (ro.network.getD "") 0).ret
    · simp only [hsr, Bool.not_false, if_true] at h ⊢
      cases hgs : (env.getaddr_multi true (ro.network.getD "")).succeeded
      · simp [hgs, init_route_fail] at h
      · simp only [hgs, Bool.not_true, Bool.false_eq_true, if_false] at h ⊢
        refine ⟨?_, hv _ _ h⟩
        rw [(hn _ _ h).1, addr_value_other env spec true true ro.network (Or.inr hsr)]
    · simp only [hsr, Bool.not_true, Bool.false_eq_true, if_false] at h ⊢
      cases hss : (get_special_addr spec (ro.network.getD "") 0).status
      · simp [hss, init_route_fail] at h
      · simp only [hss, Bool.not_true, Bool.false_eq_true, if_false] at h ⊢
        refine ⟨?_, hv _ _ h⟩
        rw [(hn _ _ h).1]
        exact addr_value_special env spec true ro.network r.network hsr hss

/-- C19: `init_route` returns true exactly when `r->defined` is true on return, and it
succeeds exactly when the network parameter is given (not NULL, not "default") and
resolves, a given netmask parses, a given gateway resolves or, none being given,
`spec->remote_endpoint_defined` holds, and a given metric is not negative.  Resolving is
`addr_resolves`: the special names are "vpn_gateway", "net_gateway" and "remote_host", and
each resolves exactly when its own field of `spec` is defined, so a route whose network or
gateway is a special name with an undefined value fails.  On success a netmask not given
becomes 0xFFFFFFFF, a gateway not given becomes `spec->remote_endpoint`, `metric_defined`
is true exactly when a metric was given or `spec->default_metric_defined`, and the
addresses stored are those the parameters stand for (`addr_value`). -/
theorem C19_init_route (env : route_env) (r : route) (nl : List Nat)
    (ro : route_option) (spec : route_special_addr) :
    (init_route env r nl ro spec).ret = (init_route env r nl ro spec).r.defined ∧
    ((init_route env r nl ro spec).ret = true ↔
      (is_route_parm_defined ro.network = true ∧
        addr_resolves env spec true true ro.network = true ∧
        (is_route_parm_defined ro.netmask = true →
          addr_resolves env spec false false ro.netmask = true) ∧
        (is_route_parm_defined ro.gateway = true →
          addr_resolves env spec true true ro.gateway = true) ∧
        (is_route_parm_defined ro.gateway = false → spec.remote_endpoint_defined = true) ∧
        (is_route_parm_defined ro.metric = true → 0 ≤ env.atoi (ro.metric.getD "")))) ∧
    ((init_route env r nl ro spec).ret = true →
      (init_route env r nl ro spec).r.option = some ro ∧
      (is_route_parm_defined ro.netmask = false →
        (init_route env r nl ro spec).r.netmask = 0xFFFFFFFF) ∧
      (is_route_parm_defined ro.gateway = false →
        (init_route env r nl ro spec).r.gateway = spec.remote_endpoint) ∧
      ((init_route env r nl ro spec).r.metric_defined = true ↔
        (is_route_parm_defined ro.metric = true ∨ spec.default_metric_defined = true))) ∧
    (is_route_parm_defined none = false ∧ is_route_parm_defined (some "default") = false) ∧
    ((ro.network = some "vpn_gateway" ∨ ro.gateway = some "vpn_gateway") →
      spec.remote_endpoint_defined = false → (init_route env r nl ro spec).ret = false) ∧
    ((ro.network = some "net_gateway" ∨ ro.gateway = some "net_gateway") →
      spec.net_gateway_defined = false → (init_route env r nl ro spec).ret = false) ∧
    ((ro.network = some "remote_host" ∨ ro.gateway = some "remote_host") →
      spec.remote_host_defined = false → (init_route env r nl ro spec).ret = false) ∧
    ((init_route env r nl ro spec).ret = true →
      (init_route env r nl ro spec).r.network = addr_value env spec true true ro.network ∧
      (is_route_parm_defined ro.netmask = true →
        (init_route env r nl ro spec).r.netmask =
          addr_value env spec false false ro.netmask) ∧
      (is_route_parm_defined ro.gateway = true →
        (init_route env r nl ro spec).r.gateway =
          addr_value env spec true true ro.gateway)) := by
  obtain ⟨h1, h2, h3, h4⟩ := init_route_spec env r nl ro spec
  have hspecial : ∀ (name : String) (d : Bool),
      (∀ p : Option String, p = some name → is_route_parm_defined p = true ∧
        addr_resolves env spec true true p = d) →
      (ro.network = some name ∨ ro.gateway = some name) → d = false →
      (init_route env r nl ro spec).ret = false := by
    intro name d hres hname hd
    cases hr : (init_route env r nl ro spec).ret
    · rfl
    · obtain ⟨_, a2, _, a4, _, _⟩ := h2.mp hr
      rcases hname with hn | hg
      · rw [(hres _ hn).2, hd] at a2
        cases a2
      · have := a4 (hres _ hg).1
        rw [(hres _ hg).2, hd] at this
        cases this
  refine ⟨h1, h2, h3, h4, ?_, ?_, ?_, init_route_value env r nl ro spec⟩
  · exact fun hn hd => hspecial "vpn_gateway" spec.remote_endpoint_defined
      (fun p hp => by subst hp; exact ⟨by decide, by simp [addr_resolves]⟩) hn hd
  · exact fun hn hd => hspecial "net_gateway" spec.net_gateway_defined
      (fun p hp => by subst hp; exact ⟨by decide, by simp [addr_resolves]⟩) hn hd
  · exact fun hn hd => hspecial "remote_host" spec.remote_host_defined
      (fun p hp => by subst hp; exact ⟨by decide, by simp [addr_resolves]⟩) hn hd

/-- Offering the addresses of a resolve list to a route array that holds the first
`capacity` of the routes offered so far gives the first `capacity` of all the routes
offered. -/
theorem expand_loop_spec (capacity : Nat) (r : route) (xs : List Nat) (j : Nat)
    (routes acc : List route)
    (hlen : routes.length = capacity) (hj : j = min capacity acc.length)
    (htake : routes.take j = acc.take capacity) :
    (expand_loop capacity r xs (j, routes)).2.length = capacity ∧
    (expand_loop capacity r xs (j, routes)).1 =
      min capacity (acc ++ xs.map (fun a => { r with network := a })).length ∧
    (expand_loop capacity r xs (j, routes)).2.take (expand_loop capacity r xs (j, routes)).1 =
      (acc ++ xs.map (fun a => { r with network := a })).take capacity := by
  induction xs generalizing j routes acc with
  | nil => simpa [expand_loop] using ⟨hlen, hj, htake⟩
  | cons a rest ih =>
    unfold expand_loop
    by_cases hlt : j < capacity
    · have hacc : acc.length = j := by omega
      have h := ih (j + 1) (routes.set j { r with network := a })
        (acc ++ [{ r with network := a }])
        (by simpa using hlen) (by simp; omega)
        (by
          rw [List.take_succ, List.set_take, List.getElem?_set_self (by omega),
            List.set_eq_of_length_le (by simp), htake,
            List.take_of_length_le (by omega : acc.length ≤ capacity),
            List.take_of_length_le (by simp; omega)]
          rfl)
      simpa [hlt, List.append_assoc] using h
    · have hacc : capacity ≤ acc.length := by omega
      have h := ih j routes (acc ++ [{ r with network := a }]) hlen
        (by simp; omega)
        (by rw [htake, List.take_append_of_le_length hacc])
      simpa [hlt, List.append_assoc] using h

/-- The option loop of `init_route_list`, started on an array that holds the first
`capacity` of the routes expanded so far, ends on one that holds the first `capacity` of
all the expanded routes. -/
theorem init_route_list_fold_spec (env : route_env) (spec : route_special_addr)
    (capacity : Nat) (opts : List route_option) (st : route_loop_state) (acc : List route)
    (hlen : st.routes.length = capacity) (hj : st.j = min capacity acc.length)
    (htake : st.routes.take st.j = acc.take capacity) :
    (opts.foldl (init_route_list_step env spec capacity) st).routes.length = capacity ∧
    (opts.foldl (init_route_list_step env spec capacity) st).j =
      min capacity (acc ++ expanded_routes env spec opts).length ∧
    (opts.foldl (init_route_list_step env spec capacity) st).routes.take
        (opts.foldl (init_route_list_step env spec capacity) st).j =
      (acc ++ expanded_routes env spec opts).take capacity := by
  induction opts generalizing st acc with
  | nil => simpa [expanded_routes] using ⟨hlen, hj, htake⟩
  | cons ro rest ih =>
    simp only [List.foldl_cons, expanded_routes]
    cases hret : (init_route env route.zero [] ro spec).ret
    · have hstep : init_route_list_step env spec capacity st ro = { st with ret := false } := by
        simp [init_route_list_step, hret]
      have hexp : expand_option env spec ro = [] := by
        simp [expand_option, hret]
      rw [hstep, hexp, List.nil_append]
      exact ih { st with ret := false } acc hlen hj htake
    · obtain ⟨e1, e2, e3⟩ := expand_loop_spec capacity (init_route env route.zero [] ro spec).r
        (if (init_route env route.zero [] ro spec).network_list.length = 0
          then [(init_route env route.zero [] ro spec).r.network]
          else (init_route env route.zero [] ro spec).network_list)
        st.j st.routes acc hlen hj htake
      have hexp : expand_option env spec ro =
          (if (init_route env route.zero [] ro spec).network_list.length = 0
            then [(init_route env route.zero [] ro spec).r.network]
            else (init_route env route.zero [] ro spec).network_list).map
            (fun a => { (init_route env route.zero [] ro spec).r with network := a }) := by
        simp [expand_option, hret]
      have h := ih (init_route_list_step env spec capacity st ro)
        (acc ++ expand_option env spec ro)
        (by simpa [init_route_list_step, hret] using e1)
        (by rw [hexp]; simpa [init_route_list_step, hret] using e2)
        (by rw [hexp]; simpa [init_route_list_step, hret] using e3)
      simpa [List.append_assoc] using h

/-- Shape of the result of `init_route_list`: the capacity is kept, and `routes` and `n`
are what the option loop leaves, started from `j = 0` on a zeroed array with the special
addresses of the result. -/
theorem init_route_list_shape (env : route_env) (rg : rg_flags)
    (get_default_gateway : Bool × Nat)
    (get_bypass_addresses : route_bypass → Nat → route_bypass)
    (rl : route_list) (opt : route_option_list) (remote_endpoint : Option String)
    (default_metric : Int) (remote_host : Nat) :
    (init_route_list env rg get_default_gateway get_bypass_addresses rl opt remote_endpoint
      default_metric remote_host).2.capacity = rl.capacity ∧
    ∃ b, (init_route_list env rg get_default_gateway get_bypass_addresses rl opt
        remote_endpoint default_metric remote_host).2.routes =
      ((opt.routes.take opt.n.toNat).foldl
        (init_route_list_step env
          (init_route_list env rg get_default_gateway get_bypass_addresses rl opt
            remote_endpoint default_metric remote_host).2.spec rl.capacity)
        { j := 0, routes := List.replicate rl.routes.length route.zero, ret := b }).routes ∧
      (init_route_list env rg get_default_gateway get_bypass_addresses rl opt
        remote_endpoint default_metric remote_host).2.n =
      ((opt.routes.take opt.n.toNat).foldl
        (init_route_list_step env
          (init_route_list env rg get_default_gateway get_bypass_addresses rl opt
            remote_endpoint default_metric remote_host).2.spec rl.capacity)
        { j := 0, routes := List.replicate rl.routes.length route.zero, ret := b }).j := by
  unfold init_route_list clear_route_list
  simp only
  split_ifs <;> exact ⟨rfl, _, rfl, rfl⟩

/-- C14: after `init_route_list` on a list whose array has `capacity` entries, the
capacity is unchanged, `n ≤ capacity`, `n` is the smaller of the capacity and the number of
routes expanded from the options that `init_route` accepts (one per address of the resolve
list, or one when that list is empty), and `routes[0..n)` are the first `n` expanded
routes in option order and address order. -/
theorem C14_init_route_list (env : route_env) (rg : rg_flags)
    (get_default_gateway : Bool × Nat)
    (get_bypass_addresses : route_bypass → Nat → route_bypass)
    (rl : route_list) (opt : route_option_list) (remote_endpoint : Option String)
    (default_metric : Int) (remote_host : Nat)
    (hlen : rl.routes.length = rl.capacity) :
    (init_route_list env rg get_default_gateway get_bypass_addresses rl opt remote_endpoint
      default_metric remote_host).2.capacity = rl.capacity ∧
    (init_route_list env rg get_default_gateway get_bypass_addresses rl opt remote_endpoint
      default_metric remote_host).2.routes.length = rl.capacity ∧
    (init_route_list env rg get_default_gateway get_bypass_addresses rl opt remote_endpoint
      default_metric remote_host).2.n ≤ rl.capacity ∧
    (init_route_list env rg get_default_gateway get_bypass_addresses rl opt remote_endpoint
      default_metric remote_host).2.n =
      min rl.capacity
        (expanded_routes env
          (init_route_list env rg get_default_gateway get_bypass_addresses rl opt
            remote_endpoint default_metric remote_host).2.spec
          (opt.routes.take opt.n.toNat)).length ∧
    (init_route_list env rg get_default_gateway get_bypass_addresses rl opt remote_endpoint
      default_metric remote_host).2.routes.take
        (init_route_list env rg get_default_gateway get_bypass_addresses rl opt
          remote_endpoint default_metric remote_host).2.n =
      (expanded_routes env
          (init_route_list env rg get_default_gateway get_bypass_addresses rl opt
            remote_endpoint default_metric remote_host).2.spec
          (opt.routes.take opt.n.toNat)).take
        (init_route_list env rg get_default_gateway get_bypass_addresses rl opt
          remote_endpoint default_metric remote_host).2.n := by
  obtain ⟨hcap, b, hroutes, hn⟩ := init_route_list_shape env rg get_default_gateway
    get_bypass_addresses rl opt remote_endpoint default_metric remote_host
  obtain ⟨f1, f2, f3⟩ := init_route_list_fold_spec env
    (init_route_list env rg get_default_gateway get_bypass_addresses rl opt
      remote_endpoint default_metric remote_host).2.spec rl.capacity
    (opt.routes.take opt.n.toNat)
    { j := 0, routes := List.replicate rl.routes.length route.zero, ret := b } []
    (by simpa using hlen) (by simp) (by simp)
  rw [← hroutes] at f1 f3
  rw [← hn] at f2 f3
  simp only [List.nil_append] at f2 f3
  refine ⟨hcap, f1, ?_, f2, ?_⟩
  · rw [f2]; exact Nat.min_le_left _ _
  · rw [f3, List.take_eq_take, f2]
    simp

/-- On success the special value stored by `get_special_addr` does not depend on `*out`. -/
theorem get_special_addr_out (spec : route_special_addr) (s : String) (o1 o2 : Nat)
    (hs : (get_special_addr spec s 0).status = true) :
    (get_special_addr spec s o1).out = (get_special_addr spec s o2).out ∨
      (get_special_addr spec s 0).ret = false := by
  unfold get_special_addr at hs ⊢
  split_ifs at hs ⊢ <;> simp_all

/-- The metric part of `init_route` depends on `*r` only through the fields assigned
before it. -/
theorem init_route_metric_entry (env : route_env) (r1 r2 : route) (nl : List Nat)
    (ro : route_option) (spec : route_special_addr)
    (ho : r1.option = r2.option) (hn : r1.network = r2.network)
    (hm : r1.netmask = r2.netmask) (hg : r1.gateway = r2.gateway) :
    (init_route_metric env r1 nl ro spec).ret = (init_route_metric env r2 nl ro spec).ret ∧
    ((init_route_metric env r1 nl ro spec).ret = true →
      init_route_metric env r1 nl ro spec = init_route_metric env r2 nl ro spec) := by
  obtain ⟨d1, o1, n1, m1, g1, md1, me1⟩ := r1
  obtain ⟨d2, o2, n2, m2, g2, md2, me2⟩ := r2
  simp only at ho hn hm hg
  subst ho hn hm hg
  unfold init_route_metric init_route_fail
  cases h1 : is_route_parm_defined ro.metric <;>
  cases h2 : spec.default_metric_defined <;>
  by_cases h3 : env.atoi (ro.metric.getD "") < 0 <;> simp [h3]

/-- The gateway part of `init_route` depends on `*r` only through the fields assigned
before it. -/
theorem init_route_gateway_entry (env : route_env) (r1 r2 : route) (nl : List Nat)
    (ro : route_option) (spec : route_special_addr)
    (ho : r1.option = r2.option) (hn : r1.network = r2.network)
    (hm : r1.netmask = r2.netmask) :
    (init_route_gateway env r1 nl ro spec).ret = (init_route_gateway env r2 nl ro spec).ret ∧
    ((init_route_gateway env r1 nl ro spec).ret = true →
      init_route_gateway env r1 nl ro spec = init_route_gateway env r2 nl ro spec) := by
  have gr1 := get_special_addr_ret spec (ro.gateway.getD "") r1.gateway
  have gr2 := get_special_addr_ret spec (ro.gateway.getD "") r2.gateway
  have gs1 := get_special_addr_status spec (ro.gateway.getD "") r1.gateway
  have gs2 := get_special_addr_status spec (ro.gateway.getD "") r2.gateway
  unfold init_route_gateway
  simp only [gr1, gr2, gs1, gs2]
  cases h1 : is_route_parm_defined ro.gateway
  · cases h2 : spec.remote_endpoint_defined
    · simp [init_route_fail]
    · simpa using init_route_metric_entry env { r1 with gateway := spec.remote_endpoint }
        { r2 with gateway := spec.remote_endpoint } nl ro spec ho hn hm rfl
  · cases h3 : (get_special_addr spec (ro.gateway.getD "") 0).ret
    · cases h4 : (env.getaddr_multi true (ro.gateway.getD "")).succeeded
      · simp [init_route_fail, h4]
      · simpa [h4] using init_route_metric_entry env
          { r1 with gateway := (env.getaddr_multi true (ro.gateway.getD "")).addr }
          { r2 with gateway := (env.getaddr_multi true (ro.gateway.getD "")).addr }
          nl ro spec ho hn hm rfl
    · cases h5 : (get_special_addr spec (ro.gateway.getD "") 0).status
      · simp [init_route_fail]
      · have hout : (get_special_addr spec (ro.gateway.getD "") r1.gateway).out =
            (get_special_addr spec (ro.gateway.getD "") r2.gateway).out := by
          rcases get_special_addr_out spec (ro.gateway.getD "") r1.gateway r2.gateway h5
            with h | h
          · exact h
          · rw [h3] at h; cases h
        simpa using init_route_metric_entry env
          { r1 with gateway := (get_special_addr spec (ro.gateway.getD "") r1.gateway).out }
          { r2 with gateway := (get_special_addr spec (ro.gateway.getD "") r2.gateway).out }
          nl ro spec ho hn hm hout

/-- The netmask part of `init_route` depends on `*r` only through the fields assigned
before it. -/
theorem init_route_netmask_entry (env : route_env) (r1 r2 : route) (nl : List Nat)
    (ro : route_option) (spec : route_special_addr)
    (ho : r1.option = r2.option) (hn : r1.network = r2.network) :
    (init_route_netmask env r1 nl ro spec).ret = (init_route_netmask env r2 nl ro spec).ret ∧
    ((init_route_netmask env r1 nl ro spec).ret = true →
      init_route_netmask env r1 nl ro spec = init_route_netmask env r2 nl ro spec) := by
  unfold init_route_netmask
  cases h1 : is_route_parm_defined ro.netmask
  · simpa using init_route_gateway_entry env { r1 with netmask := default_netmask }
      { r2 with netmask := default_netmask } nl ro spec ho hn rfl
  · cases h2 : (env.getaddr_multi false (ro.netmask.getD "")).succeeded
    · simp [init_route_fail, h2]
    · simpa [h2] using init_route_gateway_entry env
        { r1 with netmask := (env.getaddr_multi false (ro.netmask.getD "")).addr }
        { r2 with netmask := (env.getaddr_multi false (ro.netmask.getD "")).addr }
        nl ro spec ho hn rfl

/-- Whatever `*r` holds on entry, `init_route` returns the same value, and when it returns
true it leaves the same route and resolve list: every field is assigned. -/
theorem init_route_entry_independent (env : route_env) (r1 r2 : route) (nl : List Nat)
    (ro : route_option) (spec : route_special_addr) :
    (init_route env r1 nl ro spec).ret = (init_route env r2 nl ro spec).ret ∧
    ((init_route env r1 nl ro spec).ret = true →
      init_route env r1 nl ro spec = init_route env r2 nl ro spec) := by
  have hr1 := get_special_addr_ret spec (ro.network.getD "") r1.network
  have hr2 := get_special_addr_ret spec (ro.network.getD "") r2.network
  have hs1 := get_special_addr_status spec (ro.network.getD "") r1.network
  have hs2 := get_special_addr_status spec (ro.network.getD "") r2.network
  unfold init_route
  simp only [hr1, hr2, hs1, hs2]
  cases h1 : is_route_parm_defined ro.network
  · simp [init_route_fail]
  · cases h3 : (get_special_addr spec (ro.network.getD "") 0).ret
    · cases h4 : (env.getaddr_multi true (ro.network.getD "")).succeeded
      · simp [init_route_fail, h4]
      · simpa [h4] using init_route_netmask_entry env
          { r1 with option := some ro, defined := false,
                    network := (env.getaddr_multi true (ro.network.getD "")).addr }
          { r2 with option := some ro, defined := false,
                    network := (env.getaddr_multi true (ro.network.getD "")).addr }
          (env.getaddr_multi true (ro.network.getD "")).netlist ro spec rfl rfl
    · cases h5 : (get_special_addr spec (ro.network.getD "") 0).status
      · simp [init_route_fail]
      · have hout : (get_special_addr spec (ro.network.getD "") r1.network).out =
            (get_special_addr spec (ro.network.getD "") r2.network).out := by
          rcases get_special_addr_out spec (ro.network.getD "") r1.network r2.network h5
            with h | h
          · exact h
          · rw [h3] at h; cases h
        simpa using init_route_netmask_entry env
          { r1 with option := some ro, defined := false,
                    network := (get_special_addr spec (ro.network.getD "") r1.network).out }
          { r2 with option := some ro, defined := false,
                    network := (get_special_addr spec (ro.network.getD "") r2.network).out }
          nl ro spec rfl hout

/-- C14 witness: three options, of which one fails and one expands to three addresses,
give four expanded routes; a list of capacity 2 keeps the first two. -/
theorem C14_init_route_list_witness :
    (init_route_list demo_route_env demo_rg_flags (true, 0xC0A80001) (fun b _ => b)
      demo_route_list demo_route_options (some "10.0.0.0") 0 0).2.capacity = 2 ∧
    (init_route_list demo_route_env demo_rg_flags (true, 0xC0A80001) (fun b _ => b)
      demo_route_list demo_route_options (some "10.0.0.0") 0 0).2.n = 2 ∧
    (expanded_routes demo_route_env
      (init_route_list demo_route_env demo_rg_flags (true, 0xC0A80001) (fun b _ => b)
        demo_route_list demo_route_options (some "10.0.0.0") 0 0).2.spec
      (demo_route_options.routes.take demo_route_options.n.toNat)).length = 4 :=
  ⟨(C14_init_route_list demo_route_env demo_rg_flags (true, 0xC0A80001) (fun b _ => b)
      demo_route_list demo_route_options (some "10.0.0.0") 0 0 (by decide)).1,
   by decide, by decide⟩

/-- The triples passed to `add_route3` over two runs of calls. -/
theorem add_route3_args_append (xs ys : List route_call) :
    add_route3_args (xs ++ ys) = add_route3_args xs ++ add_route3_args ys := by
  induction xs with
  | nil => rfl
  | cons c rest ih => cases c <;> simp [add_route3_args, ih]

/-- The triples passed to `del_route3` over two runs of calls. -/
theorem del_route3_args_append (xs ys : List route_call) :
    del_route3_args (xs ++ ys) = del_route3_args xs ++ del_route3_args ys := by
  induction xs with
  | nil => rfl
  | cons c rest ih => cases c <;> simp [del_route3_args, ih]

/-- The bypass loops add and delete the same routes, and do nothing else. -/
theorem bypass_routes_args (gateway : Nat) (b : List Nat) :
    del_route3_args (del_bypass_routes gateway b) =
      add_route3_args (add_bypass_routes gateway b) ∧
    add_route3_args (del_bypass_routes gateway b) = [] ∧
    del_route3_args (add_bypass_routes gateway b) = [] := by
  induction b with
  | nil => exact ⟨rfl, rfl, rfl⟩
  | cons a rest ih =>
    by_cases h : a = gateway <;>
      simp [add_bypass_routes, del_bypass_routes, add_route3_args, del_route3_args, h, ih]

/-- C16: for a route list with `did_redirect_default_gateway` and `did_local` false on
entry on which `redirect_default_route_to_vpn` sets `did_redirect_default_gateway`: the
redirect leaves the special addresses and the flags alone; a following
`undo_redirect_default_route_to_vpn` passes to `del_route3` exactly the triples that the
redirect passed to `add_route3`, in the same order, and to `add_route3` exactly those that
the redirect passed to `del_route3` (at most the original default route via
`net_gateway`); and it leaves both marks false. -/
theorem C16_redirect_undo (rg : rg_flags) (codes : tla_codes) (test_local_addr : Nat → Int)
    (ipv4_invalid_addr : Option Nat) (rl : route_list)
    (h1 : rl.did_redirect_default_gateway = false) (h2 : rl.did_local = false)
    (h3 : (redirect_default_route_to_vpn rg codes test_local_addr ipv4_invalid_addr
      rl).1.did_redirect_default_gateway = true) :
    (redirect_default_route_to_vpn rg codes test_local_addr ipv4_invalid_addr rl).1.spec =
      rl.spec ∧
    (redirect_default_route_to_vpn rg codes test_local_addr ipv4_invalid_addr rl).1.flags =
      rl.flags ∧
    del_route3_args (undo_redirect_default_route_to_vpn rg
        (redirect_default_route_to_vpn rg codes test_local_addr ipv4_invalid_addr rl).1).2 =
      add_route3_args
        (redirect_default_route_to_vpn rg codes test_local_addr ipv4_invalid_addr rl).2 ∧
    add_route3_args (undo_redirect_default_route_to_vpn rg
        (redirect_default_route_to_vpn rg codes test_local_addr ipv4_invalid_addr rl).1).2 =
      del_route3_args
        (redirect_default_route_to_vpn rg codes test_local_addr ipv4_invalid_addr rl).2 ∧
    (del_route3_args
        (redirect_default_route_to_vpn rg codes test_local_addr ipv4_invalid_addr rl).2 = [] ∨
      del_route3_args
        (redirect_default_route_to_vpn rg codes test_local_addr ipv4_invalid_addr rl).2 =
        [(0, 0, rl.spec.net_gateway)]) ∧
    (undo_redirect_default_route_to_vpn rg
      (redirect_default_route_to_vpn rg codes test_local_addr ipv4_invalid_addr
        rl).1).1.did_redirect_default_gateway = false ∧
    (undo_redirect_default_route_to_vpn rg
      (redirect_default_route_to_vpn rg codes test_local_addr ipv4_invalid_addr
        rl).1).1.did_local = false := by
  obtain ⟨b1, b2, b3⟩ := bypass_routes_args rl.spec.net_gateway rl.spec.bypass.bypass
  have he : rl.flags &&& rg.RG_ENABLE ≠ 0 := by
    intro hc
    simp [redirect_default_route_to_vpn, hc, h1] at h3
  have hre : rl.spec.remote_endpoint_defined = true := by
    cases hc : rl.spec.remote_endpoint_defined
    · simp [redirect_default_route_to_vpn, hc, h1] at h3
    · rfl
  have hng : rl.spec.net_gateway_defined = true := by
    cases hc : rl.spec.net_gateway_defined
    · simp [redirect_default_route_to_vpn, hc, h1] at h3
    · rfl
  have hrh : rl.spec.remote_host_defined = true := by
    cases hc : rl.spec.remote_host_defined
    · simp [redirect_default_route_to_vpn, hc, h1] at h3
    · rfl
  clear h3
  unfold redirect_default_route_to_vpn undo_redirect_default_route_to_vpn
  cases hl : redirect_local rg codes test_local_addr rl <;>
  by_cases hi : some rl.spec.remote_host = ipv4_invalid_addr <;>
  by_cases hg : rl.flags &&& rg.RG_REROUTE_GW = 0 <;>
  by_cases hd : rl.flags &&& rg.RG_DEF1 = 0 <;>
  simp [he, hre, hng, hrh, hi, hg, hd, h2, add_route3_args_append, del_route3_args_append,
    b1, b2, b3, add_route3_args, del_route3_args]

/-- C16 witness: a redirect without `def1` adds the host route, one bypass route and the new
default route and deletes the old default route; the undo deletes the three added routes and
adds the old default route back. -/
theorem C16_redirect_undo_witness :
    add_route3_args (redirect_default_route_to_vpn demo_rg_flags demo_tla_codes (fun _ => 0)
      none demo_redirect_list).2 =
      [(0xCB007107, 0xFFFFFFFF, 0xC0A80001), (0xC0A80035, 0xFFFFFFFF, 0xC0A80001),
       (0, 0, 0x0A080001)] ∧
    del_route3_args (undo_redirect_default_route_to_vpn demo_rg_flags
      (redirect_default_route_to_vpn demo_rg_flags demo_tla_codes (fun _ => 0)
        none demo_redirect_list).1).2 =
      add_route3_args (redirect_default_route_to_vpn demo_rg_flags demo_tla_codes (fun _ => 0)
        none demo_redirect_list).2 ∧
    add_route3_args (undo_redirect_default_route_to_vpn demo_rg_flags
      (redirect_default_route_to_vpn demo_rg_flags demo_tla_codes (fun _ => 0)
        none demo_redirect_list).1).2 = [(0, 0, 0xC0A80001)] :=
  ⟨by decide,
   (C16_redirect_undo demo_rg_flags demo_tla_codes (fun _ => 0) none demo_redirect_list
      rfl rfl (by decide)).2.2.1,
   by decide⟩

/-- The function `init_route_ipv6` returns true exactly on the accepted options, and then
with `defined` set. -/
theorem init_route_ipv6_ret (env : route_ipv6_env) (r6 : route_ipv6)
    (r6o : route_ipv6_option) (rl6 : route_ipv6_list) :
    (init_route_ipv6 env r6 r6o rl6).1 = route_ipv6_accepted env rl6 r6o ∧
    (init_route_ipv6 env r6 r6o rl6).2.defined = (init_route_ipv6 env r6 r6o rl6).1 ∧
    (init_route_ipv6 env r6 r6o rl6).2.option = some r6o := by
  unfold init_route_ipv6 route_ipv6_accepted init_route_ipv6_metric init_route_ipv6_fail
  cases hp : env.get_ipv6_addr r6o.prefix_ <;>
  cases hg : is_route_parm_defined r6o.gateway <;>
  cases hr : rl6.remote_endpoint_defined <;>
  cases hm : is_route_parm_defined r6o.metric <;>
  cases hd : rl6.default_metric_defined <;>
  by_cases hn : env.atoi (r6o.metric.getD "") < 0 <;>
  simp [hn, Int.not_lt.mp, Int.not_le.mpr]

/-- Writing slot `j` of an array leaves the slots below `j` alone. -/
theorem take_set_self {α : Type} (l : List α) (j : Nat) (a : α) :
    (l.set j a).take j = l.take j := by
  apply List.ext_getElem?
  intro i
  by_cases hi : i < j
  · rw [List.getElem?_take_of_lt hi, List.getElem?_take_of_lt hi,
      List.getElem?_set_ne (by omega)]
  · rw [List.getElem?_eq_none (by simp; omega), List.getElem?_eq_none (by simp; omega)]

/-- The loop of `init_route_ipv6_list`: `j` advances by the number of accepted options, the
slots below the starting `j` are left alone, and the slots from there on hold the routes of
the accepted options in order. -/
theorem init_route_ipv6_list_loop_spec (env : route_ipv6_env) (rl6 : route_ipv6_list) :
    ∀ (opts : List route_ipv6_option) (j : Nat) (routes : List route_ipv6) (ret : Bool),
      j + opts.length ≤ routes.length →
      (init_route_ipv6_list_loop env rl6 opts (j, routes, ret)).1 =
        j + (opts.filter (route_ipv6_accepted env rl6)).length ∧
      (init_route_ipv6_list_loop env rl6 opts (j, routes, ret)).2.1.length = routes.length ∧
      (init_route_ipv6_list_loop env rl6 opts (j, routes, ret)).2.1.take j = routes.take j ∧
      List.Forall₂
        (fun r r6o => ∃ r6, init_route_ipv6 env r6 r6o rl6 = (true, r))
        (((init_route_ipv6_list_loop env rl6 opts (j, routes, ret)).2.1.drop j).take
          (opts.filter (route_ipv6_accepted env rl6)).length)
        (opts.filter (route_ipv6_accepted env rl6)) ∧
      (init_route_ipv6_list_loop env rl6 opts (j, routes, ret)).2.2 =
        (ret && opts.all (route_ipv6_accepted env rl6)) := by
  intro opts
  induction opts with
  | nil =>
    intro j routes ret _
    simp [init_route_ipv6_list_loop]
  | cons r6o rest ih =>
    intro j routes ret hlen
    simp only [List.length_cons] at hlen
    have hret := (init_route_ipv6_ret env (routes.getD j route_ipv6.zero) r6o rl6).1
    cases hacc : route_ipv6_accepted env rl6 r6o
    · rw [hacc] at hret
      obtain ⟨i1, i2, i3, i4, i5⟩ := ih j
        (routes.set j (init_route_ipv6 env (routes.getD j route_ipv6.zero) r6o rl6).2) false
        (by simp; omega)
      simp only [init_route_ipv6_list_loop, hret, Bool.not_false, if_true]
      simp only [List.filter_cons, hacc, Bool.false_eq_true, if_false, List.all_cons,
        Bool.false_and, Bool.and_false]
      refine ⟨i1, by simpa using i2, ?_, i4, by simpa using i5⟩
      rw [i3, take_set_self]
    · rw [hacc] at hret
      obtain ⟨i1, i2, i3, i4, i5⟩ := ih (j + 1)
        (routes.set j (init_route_ipv6 env (routes.getD j route_ipv6.zero) r6o rl6).2) ret
        (by simp; omega)
      simp only [init_route_ipv6_list_loop, hret, Bool.not_true, Bool.false_eq_true, if_false]
      simp only [List.filter_cons, hacc, if_true, List.all_cons, Bool.true_and,
        List.length_cons]
      generalize hres : init_route_ipv6_list_loop env rl6 rest (j + 1,
        routes.set j (init_route_ipv6 env (routes.getD j route_ipv6.zero) r6o rl6).2, ret) = res
        at i1 i2 i3 i4 i5
      simp only [List.length_set] at i2
      have hj : j < res.2.1.length := by omega
      have htake : res.2.1.take j = routes.take j := by
        have := congrArg (List.take j) i3
        rw [List.take_take, List.take_take, Nat.min_eq_left (Nat.le_succ j), take_set_self] at this
        exact this
      have hget : res.2.1[j] = (init_route_ipv6 env (routes.getD j route_ipv6.zero) r6o rl6).2 := by
        have h1 : (res.2.1.take (j + 1))[j]? = res.2.1[j]? :=
          List.getElem?_take_of_lt (Nat.lt_succ_self j)
        rw [i3, List.getElem?_take_of_lt (Nat.lt_succ_self j),
          List.getElem?_set_self (by omega)] at h1
        rw [List.getElem?_eq_getElem hj] at h1
        exact (Option.some.inj h1).symm
      refine ⟨by omega, i2, htake, ?_, i5⟩
      rw [List.drop_eq_getElem_cons hj, List.take_succ_cons]
      refine List.Forall₂.cons ⟨routes.getD j route_ipv6.zero, ?_⟩ i4
      rw [hget]
      exact Prod.ext hret rfl

/-- C20: `init_route_ipv6` returns true exactly when the prefix parses, a gateway is given
or the list has a remote endpoint, and the metric is absent or not negative; `defined` is
then true, and false otherwise; and the result is the same whatever `inet_pton` makes of
the gateway string.  When the number of options is within the capacity,
`init_route_ipv6_list` returns, with `n` the number of options among
`routes_ipv6[0..opt6->n)` that `init_route_ipv6` accepts and with `routes_ipv6[0..n)` the
routes that `init_route_ipv6` made of those options, in option order. -/
theorem C20_init_route_ipv6_list (env : route_ipv6_env) (rl6 : route_ipv6_list)
    (opt6 : route_ipv6_option_list) (remote_endpoint : Option String) (default_metric : Int)
    (hn : 0 ≤ opt6.n) (hcap : opt6.n ≤ (rl6.capacity : Int)) :
    (∀ (r6 : route_ipv6) (r6o : route_ipv6_option) (hdr : route_ipv6_list),
      ((init_route_ipv6 env r6 r6o hdr).1 = true ↔
        (env.get_ipv6_addr r6o.prefix_).isSome = true ∧
        (is_route_parm_defined r6o.gateway = true ∨ hdr.remote_endpoint_defined = true) ∧
        (is_route_parm_defined r6o.metric = false ∨ 0 ≤ env.atoi (r6o.metric.getD ""))) ∧
      (init_route_ipv6 env r6 r6o hdr).1 = route_ipv6_accepted env hdr r6o ∧
      (init_route_ipv6 env r6 r6o hdr).2.defined = (init_route_ipv6 env r6 r6o hdr).1 ∧
      ∀ p : String → List Nat → Int × List Nat,
        (init_route_ipv6 { env with inet_pton := p } r6 r6o hdr).1 =
          (init_route_ipv6 env r6 r6o hdr).1) ∧
    ∃ (ret : Bool) (out : route_ipv6_list),
      init_route_ipv6_list env rl6 opt6 remote_endpoint default_metric = some (ret, out) ∧
      out.capacity = rl6.capacity ∧
      out.n = ((opt6.routes_ipv6.take opt6.n.toNat).filter
        (route_ipv6_accepted env out)).length ∧
      out.n ≤ out.capacity ∧
      List.Forall₂
        (fun r r6o => r.defined = true ∧ r.option = some r6o ∧
          ∃ r6, init_route_ipv6 env r6 r6o out = (true, r))
        (out.routes_ipv6.take out.n)
        ((opt6.routes_ipv6.take opt6.n.toNat).filter (route_ipv6_accepted env out)) := by
  constructor
  · intro r6 r6o hdr
    obtain ⟨h1, h2, _⟩ := init_route_ipv6_ret env r6 r6o hdr
    refine ⟨?_, h1, h2, ?_⟩
    · rw [h1]
      simp only [route_ipv6_accepted, Bool.and_eq_true, Bool.or_eq_true, Bool.not_eq_true',
        decide_eq_true_eq, and_assoc]
    · intro p
      rw [h1, (init_route_ipv6_ret { env with inet_pton := p } r6 r6o hdr).1]
      rfl
  · have hcl : ∀ h : Bool × route_ipv6_list,
        h = init_route_ipv6_list_head env rl6 opt6 remote_endpoint default_metric →
        h.2.capacity = rl6.capacity ∧ h.2.routes_ipv6.length = rl6.capacity := by
      intro h hh
      rw [hh]
      unfold init_route_ipv6_list_head clear_route_ipv6_list
      by_cases hd : default_metric = 0 <;>
      cases hr : is_route_parm_defined remote_endpoint <;>
      by_cases hp : (env.inet_pton (remote_endpoint.getD "") in6_addr_zero).1 = 1 <;>
      simp [hd, hp]
    generalize hh : init_route_ipv6_list_head env rl6 opt6 remote_endpoint default_metric = h
    obtain ⟨hc1, hc2⟩ := hcl h hh.symm
    have hopts : (opt6.routes_ipv6.take opt6.n.toNat).length ≤ rl6.capacity := by
      rw [List.length_take]
      omega
    obtain ⟨l1, l2, _, l4, _⟩ := init_route_ipv6_list_loop_spec env h.2
      (opt6.routes_ipv6.take opt6.n.toNat) 0 h.2.routes_ipv6 h.1 (by omega)
    have hlt : ((opt6.routes_ipv6.take opt6.n.toNat).filter
        (route_ipv6_accepted env h.2)).length ≤ rl6.capacity :=
      le_trans (List.length_filter_le _ _) hopts
    refine ⟨(init_route_ipv6_list_loop env h.2 (opt6.routes_ipv6.take opt6.n.toNat)
        (0, h.2.routes_ipv6, h.1)).2.2,
      { h.2 with
        routes_ipv6 := (init_route_ipv6_list_loop env h.2 (opt6.routes_ipv6.take opt6.n.toNat)
          (0, h.2.routes_ipv6, h.1)).2.1,
        n := (init_route_ipv6_list_loop env h.2 (opt6.routes_ipv6.take opt6.n.toNat)
          (0, h.2.routes_ipv6, h.1)).1 }, ?_, ?_, ?_, ?_, ?_⟩
    · unfold init_route_ipv6_list
      rw [hh]
      have : (decide (opt6.n ≥ 0) && decide (opt6.n ≤ (h.2.capacity : Int))) = true := by
        simp [hc1, hn, hcap]
      simp only [this, Bool.not_true, Bool.false_eq_true, if_false]
    · exact hc1
    · simp only [Nat.zero_add] at l1
      exact l1
    · simp only [Nat.zero_add] at l1
      show _ ≤ h.2.capacity
      rw [l1, hc1]
      exact hlt
    · simp only [Nat.zero_add, List.drop_zero] at l1 l4
      show List.Forall₂ _ (List.take (init_route_ipv6_list_loop env h.2
        (opt6.routes_ipv6.take opt6.n.toNat) (0, h.2.routes_ipv6, h.1)).1 _) _
      rw [l1]
      refine List.Forall₂.imp ?_ l4
      intro r r6o ⟨r6, hr6⟩
      have hd := (init_route_ipv6_ret env r6 r6o h.2).2
      rw [hr6] at hd
      exact ⟨hd.1, hd.2, r6, hr6⟩

/-- C20 witness: of four options, the one with a negative metric and the one whose prefix
does not parse are dropped; the one whose gateway string does not parse is kept, so `n` is
2 and the two kept routes are stored first. -/
theorem C20_init_route_ipv6_list_witness :
    (0 ≤ demo_route_ipv6_options.n ∧
      demo_route_ipv6_options.n ≤ (demo_route_ipv6_list.capacity : Int)) ∧
    (init_route_ipv6 demo_route_ipv6_env route_ipv6.zero
        { prefix_ := some "fd00::/8", gateway := some "not-an-address", metric := none }
        demo_route_ipv6_list).1 =
      route_ipv6_accepted demo_route_ipv6_env demo_route_ipv6_list
        { prefix_ := some "fd00::/8", gateway := some "not-an-address", metric := none } ∧
    (init_route_ipv6_list demo_route_ipv6_env demo_route_ipv6_list demo_route_ipv6_options
      none 0).map (fun p => (p.1, p.2.n, (p.2.routes_ipv6.take 2).map (fun r => r.option))) =
      some (false, 2,
        [some { prefix_ := some "2001:db8::/32", gateway := some "fe80::1",
                metric := some "7" },
         some { prefix_ := some "fd00::/8", gateway := some "not-an-address",
                metric := none }]) :=
  ⟨⟨by decide, by decide⟩,
   ((C20_init_route_ipv6_list demo_route_ipv6_env demo_route_ipv6_list
      demo_route_ipv6_options none 0 (by decide) (by decide)).1 route_ipv6.zero
      { prefix_ := some "fd00::/8", gateway := some "not-an-address", metric := none }
      demo_route_ipv6_list).2.1,
   by decide⟩

end OpenVPN
